import Mathlib

/-!
Verification of the MCP_Servers repository: a GitHub REST-API tool and a
MongoDB tool exposed as callable operations, each returning a JSON envelope.

The development shallowly embeds the Python sources:
  - src/mcp_server/tools/github_tool.py      (class GitHubTool)
  - src/mcp_server/tools/mongodb.py          (class MongoDBTool)
  - src/mcp_server/handlers/github_handler.py (class GitHubHandler)
  - src/mcp_server/handlers/tool_handler.py   (class ToolHandler)
  - src/mcp_server/github_server.py           (FastMCP adapters, composites)
  - src/mcp_server/mongodb_server.py          (FastMCP adapters)

JSON values, Python dictionaries and BSON documents are all represented by
one inductive type JValue; Python exceptions are modelled with Except
String, and the single try/except wrapper of every tool method is the
function runOp, turning a raised message into the error envelope
produced by json.dumps with an error key.  The external HTTP transport is an
oracle function from requests to outcomes, and each operation returns the
list of HTTP requests it issued alongside its envelope, so that properties
such as "zero network calls" are statable.
-/

/-- JSON-like values: the common data domain of tool arguments, HTTP bodies
and MongoDB documents.  The oid constructor is the native ObjectId type of
the bson library (carrying its hex string), and date is a datetime value;
both are present in raw database results but are not plain JSON. -/
inductive JValue where
  | null : JValue
  | bool : Bool → JValue
  | num : Int → JValue
  | str : String → JValue
  | arr : List JValue → JValue
  | obj : List (String × JValue) → JValue
  | oid : String → JValue
  | date : Int → JValue

namespace JValue

mutual

/-- Structural equality test on JValue, used to model Python value equality
between JSON-like values (the == of dict/list/str/int comparisons). -/
def beq : JValue → JValue → Bool
  | .null, .null => true
  | .bool a, .bool b => a == b
  | .num a, .num b => a == b
  | .str a, .str b => a == b
  | .oid a, .oid b => a == b
  | .date a, .date b => a == b
  | .arr a, .arr b => beqList a b
  | .obj a, .obj b => beqFields a b
  | _, _ => false

/-- Pointwise equality of two lists of values. -/
def beqList : List JValue → List JValue → Bool
  | [], [] => true
  | x :: xs, y :: ys => beq x y && beqList xs ys
  | _, _ => false

/-- Pointwise equality of two field lists: names and values in order. -/
def beqFields : List (String × JValue) → List (String × JValue) → Bool
  | [], [] => true
  | (k1, v1) :: xs, (k2, v2) :: ys => k1 == k2 && beq v1 v2 && beqFields xs ys
  | _, _ => false

end

instance : BEq JValue := ⟨beq⟩

/-- Python truthiness of a JSON-like value: None, False, 0, empty string,
empty list and empty dict are falsy; everything else (including any ObjectId
or datetime) is truthy. -/
def truthy : JValue → Bool
  | .null => false
  | .bool b => b
  | .num n => n != 0
  | .str s => s ≠ ""
  | .arr xs => !xs.isEmpty
  | .obj fs => !fs.isEmpty
  | .oid _ => true
  | .date _ => true

/-- Rendering of a value inside an f-string, as Python str() would
(approximately: the exact text of non-string values is irrelevant to every
claim, only that str() is total). -/
def pyStr : JValue → String
  | .null => "None"
  | .bool b => if b then "True" else "False"
  | .num n => toString n
  | .str s => s
  | .arr _ => "[...]"
  | .obj _ => "{...}"
  | .oid h => h
  | .date t => toString t

/-- First-match lookup in a field list (Python dict lookup; field lists are
built with unique keys, so first match is the dict entry). -/
def lookupField : List (String × JValue) → String → Option JValue
  | [], _ => none
  | (k, v) :: rest, key => if k == key then some v else lookupField rest key

/-- Dict item assignment d[k] = v: replaces the entry for k, or appends a
new one at the end, exactly as Python dict insertion order behaves. -/
def setKey : List (String × JValue) → String → JValue → List (String × JValue)
  | [], key, v => [(key, v)]
  | (k, w) :: rest, key, v =>
    if k == key then (key, v) :: rest else (k, w) :: setKey rest key v

/-- Top-level key presence on an object envelope (false on non-objects). -/
def hasKeyTop (j : JValue) (k : String) : Bool :=
  match j with
  | .obj fs => fs.any (fun p => p.fst == k)
  | _ => false

/-- Top-level lookup on an object envelope (none on non-objects). -/
def lookupTop (j : JValue) (k : String) : Option JValue :=
  match j with
  | .obj fs => lookupField fs k
  | _ => none

end JValue

/-- The one-key error payload produced by json.dumps when only an error
message is reported: the error-envelope form shared by both tools. -/
def errObj (msg : String) : JValue := .obj [("error", .str msg)]

/-- Substring occurrence test on character lists, used for the Python
expression needle in haystack over strings. -/
def charsInfix (needle : List Char) : List Char → Bool
  | [] => needle.isEmpty
  | c :: rest => List.isPrefixOf needle (c :: rest) || charsInfix needle rest

/-- Python expression k in x, raising TypeError on non-container values:
key membership on a dict, element membership on a list, substring test on a
string. -/
def pyIn (k : String) : JValue → Except String Bool
  | .obj fs => .ok (fs.any (fun p => p.fst == k))
  | .arr xs => .ok (xs.any (fun x => match x with | .str s => s == k | _ => false))
  | .str s => .ok (charsInfix k.toList s.toList)
  | _ => .error "TypeError: argument of type is not iterable"

/-- Python x.get(k, default), raising AttributeError when x is not a dict.
A present key returns its value even when that value is None. -/
def pyGet (x : JValue) (k : String) (default : JValue) : Except String JValue :=
  match x with
  | .obj fs => .ok ((JValue.lookupField fs k).getD default)
  | _ => .error "AttributeError: object has no attribute get"

/-- Python subscript x[k] with a string key: dict lookup raising KeyError
when missing, TypeError on any non-dict value. -/
def pyIndex (x : JValue) (k : String) : Except String JValue :=
  match x with
  | .obj fs =>
    match JValue.lookupField fs k with
    | some v => .ok v
    | none => .error ("KeyError: " ++ k)
  | .arr _ => .error "TypeError: list indices must be integers"
  | _ => .error "TypeError: value is not subscriptable"

/-- Python iteration over a value: the elements of a list, the keys of a
dict, the characters of a string; TypeError otherwise. -/
def pyIter : JValue → Except String (List JValue)
  | .arr xs => .ok xs
  | .obj fs => .ok (fs.map (fun p => .str p.fst))
  | .str s => .ok (s.toList.map (fun c => .str (String.singleton c)))
  | _ => .error "TypeError: object is not iterable"

/-- Python len(x) on a string, list or dict; TypeError otherwise. -/
def pyLen : JValue → Except String Nat
  | .str s => .ok s.length
  | .arr xs => .ok xs.length
  | .obj fs => .ok fs.length
  | _ => .error "TypeError: object has no len"

/-- The try/except wrapper around every tool method body: a raised message
becomes the json.dumps error envelope with the exception text. -/
def runOp : Except String JValue → JValue
  | .ok j => j
  | .error m => errObj m

/-- Evaluates envelope fields left to right, propagating the first raised
exception, mirroring the evaluation order of a Python dict literal. -/
def buildFields : List (String × Except String JValue) →
    Except String (List (String × JValue))
  | [] => .ok []
  | (k, ev) :: rest => do
    let v ← ev
    let tail ← buildFields rest
    .ok ((k, v) :: tail)

/-- A dict literal whose values are computed left to right. -/
def buildObj (fs : List (String × Except String JValue)) : Except String JValue := do
  let l ← buildFields fs
  .ok (.obj l)

/-- Effectful map of a projection over raw items, as the per-item loops of
the listing operations do. -/
def mapME (f : JValue → Except String JValue) : List JValue → Except String (List JValue)
  | [] => .ok []
  | x :: xs => do
    let y ← f x
    let ys ← mapME f xs
    .ok (y :: ys)

mutual

/-- MongoDBTool._serialize_objectid: converts every ObjectId to its string
form, recursing through dict values and list elements, leaving every other
value unchanged. -/
def serializeObjectid : JValue → JValue
  | .oid h => .str h
  | .obj fs => .obj (serializeObjectidFields fs)
  | .arr xs => .arr (serializeObjectidList xs)
  | v => v

/-- The list-comprehension branch of _serialize_objectid. -/
def serializeObjectidList : List JValue → List JValue
  | [] => []
  | x :: xs => serializeObjectid x :: serializeObjectidList xs

/-- The dict-comprehension branch of _serialize_objectid (keys unchanged). -/
def serializeObjectidFields : List (String × JValue) →
    List (String × JValue)
  | [] => []
  | (k, v) :: fs => (k, serializeObjectid v) :: serializeObjectidFields fs

end

mutual

/-- True when a native ObjectId value occurs anywhere in the value. -/
def containsOid : JValue → Bool
  | .oid _ => true
  | .obj fs => containsOidFields fs
  | .arr xs => containsOidList xs
  | _ => false

/-- ObjectId occurrence in a list of values. -/
def containsOidList : List JValue → Bool
  | [] => false
  | x :: xs => containsOid x || containsOidList xs

/-- ObjectId occurrence among the values of a field list. -/
def containsOidFields : List (String × JValue) → Bool
  | [] => false
  | (_, v) :: fs => containsOid v || containsOidFields fs

end

/-! ## The HTTP transport model for the GitHub tool -/

/-- One HTTP request as requests.request receives it from _make_request:
method, full URL, headers, optional JSON body, optional query parameters. -/
structure HttpRequest where
  method : String
  url : String
  headers : List (String × String)
  data : Option JValue
  params : Option JValue

/-- The body of an upstream HTTP response: empty content, a JSON document,
or content that response.json() fails to parse. -/
inductive HttpBody where
  | empty : HttpBody
  | json : JValue → HttpBody
  | invalid : HttpBody

/-- The outcome of sending one request: a status code with a body, or a
transport-level failure (requests.exceptions.RequestException). -/
inductive HttpOutcome where
  | status : Nat → HttpBody → HttpOutcome
  | exn : String → HttpOutcome

/-- The environment a GitHubTool instance closes over: the optional token
and username from the process environment, the network (an oracle from
requests to outcomes), the base64 decoder of the standard library, and the
strftime rendering of (now minus a number of days) used by the trending
composite. -/
structure GitHubEnv where
  token : Option String
  username : Option String
  oracle : HttpRequest → HttpOutcome
  b64decode : String → Option String
  dateStr : Nat → String

/-- The fixed headers built in GitHubTool.__init__, with the Authorization
entry present exactly when a token is configured. -/
def githubHeaders (env : GitHubEnv) : List (String × String) :=
  [("Accept", "application/vnd.github.v3+json"),
   ("User-Agent", "MCP-GitHub-Server/1.0")] ++
  (match env.token with
   | some t => [("Authorization", "token " ++ t)]
   | none => [])

/-- endpoint.lstrip of the slash character. -/
def lstripSlash (s : String) : String :=
  String.mk (s.toList.dropWhile (fun c => c == '/'))

/-- A tool operation result: the JSON envelope it returns (json.dumps output
modelled structurally) together with the HTTP requests it issued, in order. -/
structure GhResult where
  envelope : JValue
  requests : List HttpRequest

/-- The text used for response.text inside the generic upstream-error
message (its exact rendering is irrelevant to every claim). -/
def bodyText : HttpBody → String
  | .empty => ""
  | .json j => JValue.pyStr j
  | .invalid => "<non-json>"

/-- The request value handed to requests.request by _make_request. -/
def ghRequest (env : GitHubEnv) (method endpoint : String)
    (data params : Option JValue) : HttpRequest :=
  { method := method
    url := "https://api.github.com/" ++ lstripSlash endpoint
    headers := githubHeaders env
    data := data
    params := params }

/-- The response interpretation of _make_request: status codes 401, 403 and
404 map to the three named errors, any other code of 400 and above (the
not-ok range of the requests library) to the generic upstream error, and a
sub-400 response is parsed (empty content yielding the generic success
marker, a parse failure the unexpected-error payload).  A transport failure
becomes the request-failed payload. -/
def makeRequestRes (env : GitHubEnv) (method endpoint : String)
    (data params : Option JValue) : JValue :=
  match env.oracle (ghRequest env method endpoint data params) with
  | .exn m => errObj ("Request failed: " ++ m)
  | .status code body =>
    if code == 401 then
      errObj "Authentication failed. Please check your GitHub token."
    else if code == 403 then
      errObj "Access forbidden. Check repository permissions or rate limits."
    else if code == 404 then
      errObj "Resource not found. Check repository name and permissions."
    else if 400 ≤ code then
      errObj ("GitHub API error: " ++ toString code ++ " - " ++ bodyText body)
    else
      match body with
      | .empty => .obj [("success", .bool true)]
      | .json j => j
      | .invalid => errObj "Unexpected error: response body is not JSON"

/-- GitHubTool._make_request: exactly one request is issued on every path,
and the interpreted response is returned alongside it. -/
def makeRequest (env : GitHubEnv) (method endpoint : String)
    (data params : Option JValue) : JValue × List HttpRequest :=
  (makeRequestRes env method endpoint data params,
   [ghRequest env method endpoint data params])

namespace GitHubTool

/-- The projection of one raw repository object in list_repositories. -/
def projListRepo (repo : JValue) : Except String JValue :=
  buildObj [
    ("name", pyGet repo "name" .null),
    ("full_name", pyGet repo "full_name" .null),
    ("description", pyGet repo "description" .null),
    ("url", pyGet repo "html_url" .null),
    ("language", pyGet repo "language" .null),
    ("stars", pyGet repo "stargazers_count" .null),
    ("forks", pyGet repo "forks_count" .null),
    ("updated_at", pyGet repo "updated_at" .null),
    ("private", pyGet repo "private" .null)]

/-- The repo_info projection of get_repository_info. -/
def projRepoInfo (result : JValue) : Except String JValue :=
  buildObj [
    ("name", pyGet result "name" .null),
    ("full_name", pyGet result "full_name" .null),
    ("description", pyGet result "description" .null),
    ("url", pyGet result "html_url" .null),
    ("clone_url", pyGet result "clone_url" .null),
    ("ssh_url", pyGet result "ssh_url" .null),
    ("language", pyGet result "language" .null),
    ("stars", pyGet result "stargazers_count" .null),
    ("forks", pyGet result "forks_count" .null),
    ("watchers", pyGet result "watchers_count" .null),
    ("open_issues", pyGet result "open_issues_count" .null),
    ("size", pyGet result "size" .null),
    ("default_branch", pyGet result "default_branch" .null),
    ("created_at", pyGet result "created_at" .null),
    ("updated_at", pyGet result "updated_at" .null),
    ("pushed_at", pyGet result "pushed_at" .null),
    ("private", pyGet result "private" .null),
    ("archived", pyGet result "archived" .null),
    ("disabled", pyGet result "disabled" .null),
    ("topics", pyGet result "topics" (.arr [])),
    ("license", do
      let lic ← pyGet result "license" .null
      if lic.truthy then
        pyGet (← pyGet result "license" (.obj [])) "name" .null
      else
        .ok .null),
    ("owner", buildObj [
      ("login", do pyGet (← pyGet result "owner" (.obj [])) "login" .null),
      ("type", do pyGet (← pyGet result "owner" (.obj [])) "type" .null),
      ("url", do pyGet (← pyGet result "owner" (.obj [])) "html_url" .null)])]

/-- GitHubTool.get_repository_info. -/
def get_repository_info (env : GitHubEnv) (owner repo : JValue) : GhResult :=
  let (result, log) := makeRequest env "GET"
    ("repos/" ++ owner.pyStr ++ "/" ++ repo.pyStr) none none
  { envelope := runOp (do
      if (← pyIn "error" result) then return result
      buildObj [
        ("operation", .ok (.str "get_repository_info")),
        ("repository", .ok (.str (owner.pyStr ++ "/" ++ repo.pyStr))),
        ("data", projRepoInfo result)])
    requests := log }

/-- GitHubTool.list_repositories: a single bounded page, the per-page count
capped above at 100 by min (values below 1 pass through unchanged). -/
def list_repositories (env : GitHubEnv) (owner repo_type : JValue)
    (per_page : Int) : GhResult :=
  let params : JValue := .obj [
    ("type", repo_type),
    ("per_page", .num (min per_page 100)),
    ("sort", .str "updated")]
  let (result, log) := makeRequest env "GET"
    ("users/" ++ owner.pyStr ++ "/repos") none (some params)
  { envelope := runOp (do
      if (← pyIn "error" result) then return result
      let items ← pyIter result
      let repositories ← mapME projListRepo items
      buildObj [
        ("operation", .ok (.str "list_repositories")),
        ("owner", .ok owner),
        ("type", .ok repo_type),
        ("count", .ok (.num repositories.length)),
        ("repositories", .ok (.arr repositories))])
    requests := log }

/-- The directory-entry projection of get_repository_contents. -/
def projContentEntry (item : JValue) : Except String JValue :=
  buildObj [
    ("name", pyGet item "name" .null),
    ("path", pyGet item "path" .null),
    ("type", pyGet item "type" .null),
    ("size", pyGet item "size" .null),
    ("url", pyGet item "html_url" .null),
    ("download_url", pyGet item "download_url" .null)]

/-- The single-file branch of get_repository_contents: the fixed file_info
fields, plus a decoded content field when the encoding is base64 and the
size is under 1 MiB (decoding failure yields the binary-file note). -/
def projFileInfo (env : GitHubEnv) (result : JValue) : Except String JValue := do
  let base ← buildFields [
    ("name", pyGet result "name" .null),
    ("path", pyGet result "path" .null),
    ("type", pyGet result "type" .null),
    ("size", pyGet result "size" .null),
    ("encoding", pyGet result "encoding" .null),
    ("url", pyGet result "html_url" .null),
    ("download_url", pyGet result "download_url" .null)]
  let enc ← pyGet result "encoding" .null
  let size ← pyGet result "size" (.num 0)
  if enc == JValue.str "base64" &&
      (match size with | .num n => decide (n < 1048576) | _ => false) then
    let contentRaw ← pyGet result "content" (.str "")
    let decoded : JValue :=
      match contentRaw with
      | .str s => match env.b64decode s with
        | some t => .str t
        | none => .str "Binary file or encoding error"
      | _ => .str "Binary file or encoding error"
    .ok (.obj (JValue.setKey base "content" decoded))
  else
    .ok (.obj base)

/-- GitHubTool.get_repository_contents: branches on whether the 2xx body is
a list (directory) or a single object (file). -/
def get_repository_contents (env : GitHubEnv) (owner repo path ref : JValue) :
    GhResult :=
  let params : Option JValue :=
    if ref.truthy then some (.obj [("ref", ref)]) else some (.obj [])
  let (result, log) := makeRequest env "GET"
    ("repos/" ++ owner.pyStr ++ "/" ++ repo.pyStr ++ "/contents/" ++ path.pyStr)
    none params
  { envelope := runOp (do
      if (← pyIn "error" result) then return result
      match result with
      | .arr items => do
        let contents ← mapME projContentEntry items
        buildObj [
          ("operation", .ok (.str "get_repository_contents")),
          ("repository", .ok (.str (owner.pyStr ++ "/" ++ repo.pyStr))),
          ("path", .ok (if path.truthy then path else .str "/")),
          ("type", .ok (.str "directory")),
          ("contents", .ok (.arr contents))]
      | _ => do
        buildObj [
          ("operation", .ok (.str "get_repository_contents")),
          ("repository", .ok (.str (owner.pyStr ++ "/" ++ repo.pyStr))),
          ("path", .ok path),
          ("type", .ok (.str "file")),
          ("file", projFileInfo env result)])
    requests := log }

/-- Body truncation used by issue and pull-request listings: text beyond
500 characters is cut and marked with an ellipsis; len raises on a
non-string body value (for example an explicit null). -/
def truncateBody (body : JValue) : Except String JValue := do
  let n ← pyLen body
  if n > 500 then
    match body with
    | .str s => .ok (.str ((String.mk (s.toList.take 500)) ++ "..."))
    | .arr xs => .ok (.arr (xs.take 500))
    | v => .ok v
  else
    .ok body

/-- The projection of one raw issue in list_issues. -/
def projIssue (issue : JValue) : Except String JValue :=
  buildObj [
    ("number", pyGet issue "number" .null),
    ("title", pyGet issue "title" .null),
    ("body", do truncateBody (← pyGet issue "body" (.str ""))),
    ("state", pyGet issue "state" .null),
    ("user", do pyGet (← pyGet issue "user" (.obj [])) "login" .null),
    ("assignees", do
      let raw ← pyGet issue "assignees" (.arr [])
      let items ← pyIter raw
      let logins ← mapME (fun a => pyGet a "login" .null) items
      .ok (.arr logins)),
    ("labels", do
      let raw ← pyGet issue "labels" (.arr [])
      let items ← pyIter raw
      let names ← mapME (fun l => pyGet l "name" .null) items
      .ok (.arr names)),
    ("created_at", pyGet issue "created_at" .null),
    ("updated_at", pyGet issue "updated_at" .null),
    ("url", pyGet issue "html_url" .null),
    ("comments", pyGet issue "comments" .null)]

/-- The issue loop of list_issues: entries whose pull_request lookup is
truthy are skipped (they are pull requests surfacing in the issues API). -/
def projIssueList : List JValue → Except String (List JValue)
  | [] => .ok []
  | issue :: rest => do
    let marker ← pyGet issue "pull_request" .null
    if marker.truthy then
      projIssueList rest
    else do
      let p ← projIssue issue
      let tail ← projIssueList rest
      .ok (p :: tail)

/-- The query parameters of list_issues: state, the capped per-page count
and the sort order, with a labels entry appended when labels is truthy. -/
def issuesParams (state labels : JValue) (per_page : Int) : JValue :=
  let baseParams : List (String × JValue) := [
    ("state", state),
    ("per_page", .num (min per_page 100)),
    ("sort", .str "updated")]
  if labels.truthy then .obj (baseParams ++ [("labels", labels)])
  else .obj baseParams

/-- GitHubTool.list_issues. -/
def list_issues (env : GitHubEnv) (owner repo state labels : JValue)
    (per_page : Int) : GhResult :=
  let (result, log) := makeRequest env "GET"
    ("repos/" ++ owner.pyStr ++ "/" ++ repo.pyStr ++ "/issues") none
    (some (issuesParams state labels per_page))
  { envelope := runOp (do
      if (← pyIn "error" result) then return result
      let items ← pyIter result
      let issues ← projIssueList items
      buildObj [
        ("operation", .ok (.str "list_issues")),
        ("repository", .ok (.str (owner.pyStr ++ "/" ++ repo.pyStr))),
        ("state", .ok state),
        ("count", .ok (.num issues.length)),
        ("issues", .ok (.arr issues))])
    requests := log }

/-- GitHubTool.create_issue: requires a configured token before any request
is sent; the body, labels and assignees entries join the payload only when
truthy. -/
def create_issue (env : GitHubEnv) (owner repo title body labels assignees : JValue) :
    GhResult :=
  match env.token with
  | none => { envelope := errObj "GitHub token required for creating issues"
              requests := [] }
  | some _ =>
    let data : JValue := .obj (
      [("title", title)] ++
      (if body.truthy then [("body", body)] else []) ++
      (if labels.truthy then [("labels", labels)] else []) ++
      (if assignees.truthy then [("assignees", assignees)] else []))
    let (result, log) := makeRequest env "POST"
      ("repos/" ++ owner.pyStr ++ "/" ++ repo.pyStr ++ "/issues") (some data) none
    { envelope := runOp (do
        if (← pyIn "error" result) then return result
        buildObj [
          ("operation", .ok (.str "create_issue")),
          ("repository", .ok (.str (owner.pyStr ++ "/" ++ repo.pyStr))),
          ("success", .ok (.bool true)),
          ("issue", buildObj [
            ("number", pyGet result "number" .null),
            ("title", pyGet result "title" .null),
            ("body", pyGet result "body" .null),
            ("state", pyGet result "state" .null),
            ("user", do pyGet (← pyGet result "user" (.obj [])) "login" .null),
            ("url", pyGet result "html_url" .null),
            ("created_at", pyGet result "created_at" .null)])])
      requests := log }

/-- The projection of one raw pull request in list_pull_requests. -/
def projPull (pr : JValue) : Except String JValue :=
  buildObj [
    ("number", pyGet pr "number" .null),
    ("title", pyGet pr "title" .null),
    ("body", do truncateBody (← pyGet pr "body" (.str ""))),
    ("state", pyGet pr "state" .null),
    ("user", do pyGet (← pyGet pr "user" (.obj [])) "login" .null),
    ("head", buildObj [
      ("ref", do pyGet (← pyGet pr "head" (.obj [])) "ref" .null),
      ("sha", do pyGet (← pyGet pr "head" (.obj [])) "sha" .null)]),
    ("base", buildObj [
      ("ref", do pyGet (← pyGet pr "base" (.obj [])) "ref" .null),
      ("sha", do pyGet (← pyGet pr "base" (.obj [])) "sha" .null)]),
    ("created_at", pyGet pr "created_at" .null),
    ("updated_at", pyGet pr "updated_at" .null),
    ("url", pyGet pr "html_url" .null),
    ("mergeable", pyGet pr "mergeable" .null),
    ("merged", pyGet pr "merged" .null)]

/-- GitHubTool.list_pull_requests. -/
def list_pull_requests (env : GitHubEnv) (owner repo state : JValue)
    (per_page : Int) : GhResult :=
  let params : JValue := .obj [
    ("state", state),
    ("per_page", .num (min per_page 100)),
    ("sort", .str "updated")]
  let (result, log) := makeRequest env "GET"
    ("repos/" ++ owner.pyStr ++ "/" ++ repo.pyStr ++ "/pulls") none (some params)
  { envelope := runOp (do
      if (← pyIn "error" result) then return result
      let items ← pyIter result
      let pulls ← mapME projPull items
      buildObj [
        ("operation", .ok (.str "list_pull_requests")),
        ("repository", .ok (.str (owner.pyStr ++ "/" ++ repo.pyStr))),
        ("state", .ok state),
        ("count", .ok (.num pulls.length)),
        ("pull_requests", .ok (.arr pulls))])
    requests := log }

/-- The projection of one raw branch in get_repository_branches. -/
def projBranch (branch : JValue) : Except String JValue :=
  buildObj [
    ("name", pyGet branch "name" .null),
    ("sha", do pyGet (← pyGet branch "commit" (.obj [])) "sha" .null),
    ("protected", pyGet branch "protected" .null),
    ("url", do pyGet (← pyGet branch "commit" (.obj [])) "url" .null)]

/-- GitHubTool.get_repository_branches. -/
def get_repository_branches (env : GitHubEnv) (owner repo : JValue)
    (per_page : Int) : GhResult :=
  let params : JValue := .obj [("per_page", .num (min per_page 100))]
  let (result, log) := makeRequest env "GET"
    ("repos/" ++ owner.pyStr ++ "/" ++ repo.pyStr ++ "/branches") none (some params)
  { envelope := runOp (do
      if (← pyIn "error" result) then return result
      let items ← pyIter result
      let branches ← mapME projBranch items
      buildObj [
        ("operation", .ok (.str "get_repository_branches")),
        ("repository", .ok (.str (owner.pyStr ++ "/" ++ repo.pyStr))),
        ("count", .ok (.num branches.length)),
        ("branches", .ok (.arr branches))])
    requests := log }

/-- The projection of one search hit in search_repositories. -/
def projSearchRepo (repo : JValue) : Except String JValue :=
  buildObj [
    ("name", pyGet repo "name" .null),
    ("full_name", pyGet repo "full_name" .null),
    ("description", pyGet repo "description" .null),
    ("url", pyGet repo "html_url" .null),
    ("language", pyGet repo "language" .null),
    ("stars", pyGet repo "stargazers_count" .null),
    ("forks", pyGet repo "forks_count" .null),
    ("updated_at", pyGet repo "updated_at" .null),
    ("owner", do pyGet (← pyGet repo "owner" (.obj [])) "login" .null)]

/-- GitHubTool.search_repositories. -/
def search_repositories (env : GitHubEnv) (query sort order : JValue)
    (per_page : Int) : GhResult :=
  let params : JValue := .obj [
    ("q", query),
    ("sort", sort),
    ("order", order),
    ("per_page", .num (min per_page 100))]
  let (result, log) := makeRequest env "GET" "search/repositories" none (some params)
  { envelope := runOp (do
      if (← pyIn "error" result) then return result
      let rawItems ← pyGet result "items" (.arr [])
      let items ← pyIter rawItems
      let repositories ← mapME projSearchRepo items
      buildObj [
        ("operation", .ok (.str "search_repositories")),
        ("query", .ok query),
        ("total_count", pyGet result "total_count" .null),
        ("count", .ok (.num repositories.length)),
        ("repositories", .ok (.arr repositories))])
    requests := log }

/-- The user_info projection of get_user_info. -/
def projUserInfo (result : JValue) : Except String JValue :=
  buildObj [
    ("login", pyGet result "login" .null),
    ("name", pyGet result "name" .null),
    ("bio", pyGet result "bio" .null),
    ("company", pyGet result "company" .null),
    ("location", pyGet result "location" .null),
    ("email", pyGet result "email" .null),
    ("blog", pyGet result "blog" .null),
    ("twitter_username", pyGet result "twitter_username" .null),
    ("public_repos", pyGet result "public_repos" .null),
    ("public_gists", pyGet result "public_gists" .null),
    ("followers", pyGet result "followers" .null),
    ("following", pyGet result "following" .null),
    ("created_at", pyGet result "created_at" .null),
    ("updated_at", pyGet result "updated_at" .null),
    ("url", pyGet result "html_url" .null),
    ("avatar_url", pyGet result "avatar_url" .null),
    ("type", pyGet result "type" .null)]

/-- GitHubTool.get_user_info. -/
def get_user_info (env : GitHubEnv) (username : JValue) : GhResult :=
  let (result, log) := makeRequest env "GET" ("users/" ++ username.pyStr) none none
  { envelope := runOp (do
      if (← pyIn "error" result) then return result
      buildObj [
        ("operation", .ok (.str "get_user_info")),
        ("username", .ok username),
        ("user", projUserInfo result)])
    requests := log }

/-- The projection of one raw repository in get_my_repositories. -/
def projMyRepo (repo : JValue) : Except String JValue :=
  buildObj [
    ("name", pyGet repo "name" .null),
    ("full_name", pyGet repo "full_name" .null),
    ("description", pyGet repo "description" .null),
    ("url", pyGet repo "html_url" .null),
    ("clone_url", pyGet repo "clone_url" .null),
    ("ssh_url", pyGet repo "ssh_url" .null),
    ("language", pyGet repo "language" .null),
    ("stars", pyGet repo "stargazers_count" .null),
    ("forks", pyGet repo "forks_count" .null),
    ("updated_at", pyGet repo "updated_at" .null),
    ("private", pyGet repo "private" .null),
    ("fork", pyGet repo "fork" .null),
    ("archived", pyGet repo "archived" .null),
    ("default_branch", pyGet repo "default_branch" .null)]

/-- GitHubTool.get_my_repositories: requires both a token and a configured
username before any request. -/
def get_my_repositories (env : GitHubEnv) (repo_type : JValue) (per_page : Int) :
    GhResult :=
  match env.token with
  | none => { envelope := errObj "GitHub token required to get your repositories"
              requests := [] }
  | some _ =>
    match env.username with
    | none =>
      { envelope := errObj
          "GitHub username not configured. Please set GITHUB_USERNAME in environment"
        requests := [] }
    | some uname =>
      let params : JValue := .obj [
        ("type", repo_type),
        ("per_page", .num (min per_page 100)),
        ("sort", .str "updated")]
      let (result, log) := makeRequest env "GET" "user/repos" none (some params)
      { envelope := runOp (do
          if (← pyIn "error" result) then return result
          let items ← pyIter result
          let repositories ← mapME projMyRepo items
          buildObj [
            ("operation", .ok (.str "get_my_repositories")),
            ("username", .ok (.str uname)),
            ("type", .ok repo_type),
            ("count", .ok (.num repositories.length)),
            ("repositories", .ok (.arr repositories))])
        requests := log }

/-- GitHubTool.get_authenticated_user_info: token required. -/
def get_authenticated_user_info (env : GitHubEnv) : GhResult :=
  match env.token with
  | none => { envelope := errObj "GitHub token required to get your user info"
              requests := [] }
  | some _ =>
    let (result, log) := makeRequest env "GET" "user" none none
    { envelope := runOp (do
        if (← pyIn "error" result) then return result
        buildObj [
          ("operation", .ok (.str "get_authenticated_user_info")),
          ("user", buildObj [
            ("login", pyGet result "login" .null),
            ("name", pyGet result "name" .null),
            ("bio", pyGet result "bio" .null),
            ("company", pyGet result "company" .null),
            ("location", pyGet result "location" .null),
            ("email", pyGet result "email" .null),
            ("blog", pyGet result "blog" .null),
            ("twitter_username", pyGet result "twitter_username" .null),
            ("public_repos", pyGet result "public_repos" .null),
            ("public_gists", pyGet result "public_gists" .null),
            ("followers", pyGet result "followers" .null),
            ("following", pyGet result "following" .null),
            ("created_at", pyGet result "created_at" .null),
            ("updated_at", pyGet result "updated_at" .null),
            ("url", pyGet result "html_url" .null),
            ("avatar_url", pyGet result "avatar_url" .null),
            ("type", pyGet result "type" .null),
            ("plan", do
              let plan ← pyGet result "plan" .null
              if plan.truthy then
                pyGet (← pyGet result "plan" (.obj [])) "name" .null
              else
                .ok .null)])])
      requests := log }

/-- The positive-integer check shared by the pull-request review methods:
isinstance(x, int) and x greater than zero. -/
def isPosInt (x : JValue) : Bool :=
  match x with
  | .num n => decide (0 < n)
  | _ => false

/-- The projection of one review in get_pull_request_reviews. -/
def projReview (review : JValue) : Except String JValue :=
  buildObj [
    ("id", pyGet review "id" .null),
    ("user", buildObj [
      ("login", do pyGet (← pyGet review "user" (.obj [])) "login" .null),
      ("avatar_url", do pyGet (← pyGet review "user" (.obj [])) "avatar_url" .null)]),
    ("body", pyGet review "body" .null),
    ("state", pyGet review "state" .null),
    ("submitted_at", pyGet review "submitted_at" .null),
    ("commit_id", pyGet review "commit_id" .null),
    ("html_url", pyGet review "html_url" .null)]

/-- GitHubTool.get_pull_request_reviews. -/
def get_pull_request_reviews (env : GitHubEnv) (owner repo pull_number : JValue) :
    GhResult :=
  if !owner.truthy || !repo.truthy then
    { envelope := errObj "Owner and repo are required", requests := [] }
  else if !isPosInt pull_number then
    { envelope := errObj "Pull number must be a positive integer", requests := [] }
  else
    let (result, log) := makeRequest env "GET"
      ("repos/" ++ owner.pyStr ++ "/" ++ repo.pyStr ++ "/pulls/" ++
        pull_number.pyStr ++ "/reviews") none none
    { envelope := runOp (do
        if (← pyIn "error" result) then
          return .obj [("error", ← pyIndex result "error")]
        let items ← pyIter result
        let reviews ← mapME projReview items
        buildObj [
          ("operation", .ok (.str "get_pull_request_reviews")),
          ("owner", .ok owner),
          ("repo", .ok repo),
          ("pull_number", .ok pull_number),
          ("reviews_count", .ok (.num reviews.length)),
          ("reviews", .ok (.arr reviews))])
      requests := log }

/-- GitHubTool.create_pull_request_review: token first, then argument
checks, then the enumerated review event. -/
def create_pull_request_review (env : GitHubEnv)
    (owner repo pull_number event body comments : JValue) : GhResult :=
  match env.token with
  | none => { envelope := errObj "GitHub token required for creating reviews"
              requests := [] }
  | some _ =>
    if !owner.truthy || !repo.truthy then
      { envelope := errObj "Owner and repo are required", requests := [] }
    else if !isPosInt pull_number then
      { envelope := errObj "Pull number must be a positive integer", requests := [] }
    else if !(match event with
              | .str s => s == "APPROVE" || s == "REQUEST_CHANGES" || s == "COMMENT"
              | _ => false) then
      { envelope := errObj
          "Event must be one of: [APPROVE, REQUEST_CHANGES, COMMENT]"
        requests := [] }
    else
      let review_data : JValue := .obj (
        [("event", event)] ++
        (if body.truthy then [("body", body)] else []) ++
        (if comments.truthy then [("comments", comments)] else []))
      let (result, log) := makeRequest env "POST"
        ("repos/" ++ owner.pyStr ++ "/" ++ repo.pyStr ++ "/pulls/" ++
          pull_number.pyStr ++ "/reviews") (some review_data) none
      { envelope := runOp (do
          if (← pyIn "error" result) then
            return .obj [("error", ← pyIndex result "error")]
          buildObj [
            ("operation", .ok (.str "create_pull_request_review")),
            ("owner", .ok owner),
            ("repo", .ok repo),
            ("pull_number", .ok pull_number),
            ("review", buildObj [
              ("id", pyGet result "id" .null),
              ("body", pyGet result "body" .null),
              ("state", pyGet result "state" .null),
              ("user", buildObj [
                ("login", do pyGet (← pyGet result "user" (.obj [])) "login" .null),
                ("avatar_url", do
                  pyGet (← pyGet result "user" (.obj [])) "avatar_url" .null)]),
              ("submitted_at", pyGet result "submitted_at" .null),
              ("html_url", pyGet result "html_url" .null)])])
        requests := log }

/-- The projection of one review comment in get_pull_request_review_comments. -/
def projReviewComment (comment : JValue) : Except String JValue :=
  buildObj [
    ("id", pyGet comment "id" .null),
    ("user", buildObj [
      ("login", do pyGet (← pyGet comment "user" (.obj [])) "login" .null),
      ("avatar_url", do pyGet (← pyGet comment "user" (.obj [])) "avatar_url" .null)]),
    ("body", pyGet comment "body" .null),
    ("path", pyGet comment "path" .null),
    ("position", pyGet comment "position" .null),
    ("line", pyGet comment "line" .null),
    ("diff_hunk", pyGet comment "diff_hunk" .null),
    ("created_at", pyGet comment "created_at" .null),
    ("updated_at", pyGet comment "updated_at" .null),
    ("html_url", pyGet comment "html_url" .null),
    ("pull_request_review_id", pyGet comment "pull_request_review_id" .null)]

/-- GitHubTool.get_pull_request_review_comments. -/
def get_pull_request_review_comments (env : GitHubEnv)
    (owner repo pull_number : JValue) : GhResult :=
  if !owner.truthy || !repo.truthy then
    { envelope := errObj "Owner and repo are required", requests := [] }
  else if !isPosInt pull_number then
    { envelope := errObj "Pull number must be a positive integer", requests := [] }
  else
    let (result, log) := makeRequest env "GET"
      ("repos/" ++ owner.pyStr ++ "/" ++ repo.pyStr ++ "/pulls/" ++
        pull_number.pyStr ++ "/comments") none none
    { envelope := runOp (do
        if (← pyIn "error" result) then
          return .obj [("error", ← pyIndex result "error")]
        let items ← pyIter result
        let comments ← mapME projReviewComment items
        buildObj [
          ("operation", .ok (.str "get_pull_request_review_comments")),
          ("owner", .ok owner),
          ("repo", .ok repo),
          ("pull_number", .ok pull_number),
          ("comments_count", .ok (.num comments.length)),
          ("comments", .ok (.arr comments))])
      requests := log }

/-- GitHubTool.create_pull_request_review_comment: token first, then the
required-field and side checks. -/
def create_pull_request_review_comment (env : GitHubEnv)
    (owner repo pull_number body commit_id path line side : JValue) : GhResult :=
  match env.token with
  | none => { envelope := errObj "GitHub token required for creating review comments"
              requests := [] }
  | some _ =>
    if !(owner.truthy && repo.truthy && body.truthy && commit_id.truthy &&
         path.truthy) then
      { envelope := errObj "Owner, repo, body, commit_id, and path are required"
        requests := [] }
    else if !isPosInt pull_number then
      { envelope := errObj "Pull number must be a positive integer", requests := [] }
    else if !(side == JValue.str "LEFT" || side == JValue.str "RIGHT") then
      { envelope := errObj "Side must be either LEFT or RIGHT", requests := [] }
    else
      let comment_data : JValue := .obj (
        [("body", body), ("commit_id", commit_id), ("path", path), ("side", side)] ++
        (if line == JValue.null then [] else [("line", line)]))
      let (result, log) := makeRequest env "POST"
        ("repos/" ++ owner.pyStr ++ "/" ++ repo.pyStr ++ "/pulls/" ++
          pull_number.pyStr ++ "/comments") (some comment_data) none
      { envelope := runOp (do
          if (← pyIn "error" result) then
            return .obj [("error", ← pyIndex result "error")]
          buildObj [
            ("operation", .ok (.str "create_pull_request_review_comment")),
            ("owner", .ok owner),
            ("repo", .ok repo),
            ("pull_number", .ok pull_number),
            ("comment", buildObj [
              ("id", pyGet result "id" .null),
              ("body", pyGet result "body" .null),
              ("path", pyGet result "path" .null),
              ("line", pyGet result "line" .null),
              ("user", buildObj [
                ("login", do pyGet (← pyGet result "user" (.obj [])) "login" .null),
                ("avatar_url", do
                  pyGet (← pyGet result "user" (.obj [])) "avatar_url" .null)]),
              ("created_at", pyGet result "created_at" .null),
              ("html_url", pyGet result "html_url" .null),
              ("diff_hunk", pyGet result "diff_hunk" .null)])])
        requests := log }

/-- GitHubTool.update_pull_request_review_comment. -/
def update_pull_request_review_comment (env : GitHubEnv)
    (owner repo comment_id body : JValue) : GhResult :=
  match env.token with
  | none => { envelope := errObj "GitHub token required for updating review comments"
              requests := [] }
  | some _ =>
    if !(owner.truthy && repo.truthy && body.truthy) then
      { envelope := errObj "Owner, repo, and body are required", requests := [] }
    else if !isPosInt comment_id then
      { envelope := errObj "Comment ID must be a positive integer", requests := [] }
    else
      let comment_data : JValue := .obj [("body", body)]
      let (result, log) := makeRequest env "PATCH"
        ("repos/" ++ owner.pyStr ++ "/" ++ repo.pyStr ++ "/pulls/comments/" ++
          comment_id.pyStr) (some comment_data) none
      { envelope := runOp (do
          if (← pyIn "error" result) then
            return .obj [("error", ← pyIndex result "error")]
          buildObj [
            ("operation", .ok (.str "update_pull_request_review_comment")),
            ("owner", .ok owner),
            ("repo", .ok repo),
            ("comment_id", .ok comment_id),
            ("comment", buildObj [
              ("id", pyGet result "id" .null),
              ("body", pyGet result "body" .null),
              ("path", pyGet result "path" .null),
              ("line", pyGet result "line" .null),
              ("user", buildObj [
                ("login", do pyGet (← pyGet result "user" (.obj [])) "login" .null),
                ("avatar_url", do
                  pyGet (← pyGet result "user" (.obj [])) "avatar_url" .null)]),
              ("updated_at", pyGet result "updated_at" .null),
              ("html_url", pyGet result "html_url" .null)])])
        requests := log }

/-- GitHubTool.delete_pull_request_review_comment. -/
def delete_pull_request_review_comment (env : GitHubEnv)
    (owner repo comment_id : JValue) : GhResult :=
  match env.token with
  | none => { envelope := errObj "GitHub token required for deleting review comments"
              requests := [] }
  | some _ =>
    if !owner.truthy || !repo.truthy then
      { envelope := errObj "Owner and repo are required", requests := [] }
    else if !isPosInt comment_id then
      { envelope := errObj "Comment ID must be a positive integer", requests := [] }
    else
      let (result, log) := makeRequest env "DELETE"
        ("repos/" ++ owner.pyStr ++ "/" ++ repo.pyStr ++ "/pulls/comments/" ++
          comment_id.pyStr) none none
      { envelope := runOp (do
          if (← pyIn "error" result) then
            return .obj [("error", ← pyIndex result "error")]
          buildObj [
            ("operation", .ok (.str "delete_pull_request_review_comment")),
            ("owner", .ok owner),
            ("repo", .ok repo),
            ("comment_id", .ok comment_id),
            ("status", .ok (.str "deleted")),
            ("message", .ok (.str "Review comment deleted successfully"))])
        requests := log }

/-- The projection of one changed file in get_pull_request_files. -/
def projPullFile (file : JValue) : Except String JValue :=
  buildObj [
    ("filename", pyGet file "filename" .null),
    ("status", pyGet file "status" .null),
    ("additions", pyGet file "additions" .null),
    ("deletions", pyGet file "deletions" .null),
    ("changes", pyGet file "changes" .null),
    ("patch", pyGet file "patch" .null),
    ("blob_url", pyGet file "blob_url" .null),
    ("raw_url", pyGet file "raw_url" .null),
    ("sha", pyGet file "sha" .null)]

/-- The sum of one numeric field over the raw file records, with default 0:
the totals of get_pull_request_files (a non-numeric value raises as the
Python sum over mixed types would). -/
def sumField (key : String) : List JValue → Except String Int
  | [] => .ok 0
  | f :: fs => do
    let v ← pyGet f key (.num 0)
    match v with
    | .num n => do
      let rest ← sumField key fs
      .ok (n + rest)
    | _ => .error "TypeError: unsupported operand type for sum"

/-- GitHubTool.get_pull_request_files. -/
def get_pull_request_files (env : GitHubEnv) (owner repo pull_number : JValue) :
    GhResult :=
  if !owner.truthy || !repo.truthy then
    { envelope := errObj "Owner and repo are required", requests := [] }
  else if !isPosInt pull_number then
    { envelope := errObj "Pull number must be a positive integer", requests := [] }
  else
    let (result, log) := makeRequest env "GET"
      ("repos/" ++ owner.pyStr ++ "/" ++ repo.pyStr ++ "/pulls/" ++
        pull_number.pyStr ++ "/files") none none
    { envelope := runOp (do
        if (← pyIn "error" result) then
          return .obj [("error", ← pyIndex result "error")]
        let items ← pyIter result
        let files ← mapME projPullFile items
        let ta ← sumField "additions" items
        let td ← sumField "deletions" items
        let tc ← sumField "changes" items
        buildObj [
          ("operation", .ok (.str "get_pull_request_files")),
          ("owner", .ok owner),
          ("repo", .ok repo),
          ("pull_number", .ok pull_number),
          ("files_count", .ok (.num files.length)),
          ("total_additions", .ok (.num ta)),
          ("total_deletions", .ok (.num td)),
          ("total_changes", .ok (.num tc)),
          ("files", .ok (.arr files))])
      requests := log }

end GitHubTool

/-! ## The GitHub dispatch layer (GitHubHandler) -/

/-- A tool argument bag: the Dict[str, Any] mapping that execute_tool
receives (the ToolRequest of the data model). -/
def Args := List (String × JValue)

/-- args.get(k): missing keys yield None, exactly as the handlers rely on. -/
def argsGet (args : Args) (k : String) : JValue :=
  (JValue.lookupField args k).getD .null

/-- args.get(k, default). -/
def argsGetD (args : Args) (k : String) (default : JValue) : JValue :=
  (JValue.lookupField args k).getD default

/-- A validation-failure result: an error envelope and no HTTP traffic. -/
def ghErr (msg : String) : GhResult := { envelope := errObj msg, requests := [] }

namespace GitHubHandler

/-- The shared per_page validation of the paginated handlers:
an integer between 1 and 100. -/
def perPageOk (v : JValue) : Bool :=
  match v with
  | .num n => decide (1 ≤ n) && decide (n ≤ 100)
  | _ => false

/-- The integer value of a validated per_page argument. -/
def perPageVal (v : JValue) : Int :=
  match v with
  | .num n => n
  | _ => 30

/-- GitHubHandler._handle_get_repository_info. -/
def handle_get_repository_info (env : GitHubEnv) (args : Args) : GhResult :=
  let owner := argsGet args "owner"
  let repo := argsGet args "repo"
  if !owner.truthy then ghErr "Owner parameter is required"
  else if !repo.truthy then ghErr "Repository parameter is required"
  else GitHubTool.get_repository_info env owner repo

/-- GitHubHandler._handle_list_repositories: requires owner, an enumerated
type, and per_page in the range 1 to 100 before the tool runs. -/
def handle_list_repositories (env : GitHubEnv) (args : Args) : GhResult :=
  let owner := argsGet args "owner"
  let repo_type := argsGetD args "type" (.str "all")
  let per_page := argsGetD args "per_page" (.num 30)
  if !owner.truthy then ghErr "Owner parameter is required"
  else if !(repo_type == JValue.str "all" || repo_type == JValue.str "owner" ||
            repo_type == JValue.str "member") then
    ghErr "Type must be one of: all, owner, member"
  else if !perPageOk per_page then
    ghErr "per_page must be an integer between 1 and 100"
  else GitHubTool.list_repositories env owner repo_type (perPageVal per_page)

/-- GitHubHandler._handle_get_repository_contents. -/
def handle_get_repository_contents (env : GitHubEnv) (args : Args) : GhResult :=
  let owner := argsGet args "owner"
  let repo := argsGet args "repo"
  let path := argsGetD args "path" (.str "")
  let ref := argsGet args "ref"
  if !owner.truthy then ghErr "Owner parameter is required"
  else if !repo.truthy then ghErr "Repository parameter is required"
  else GitHubTool.get_repository_contents env owner repo path ref

/-- GitHubHandler._handle_get_repository_branches. -/
def handle_get_repository_branches (env : GitHubEnv) (args : Args) : GhResult :=
  let owner := argsGet args "owner"
  let repo := argsGet args "repo"
  let per_page := argsGetD args "per_page" (.num 30)
  if !owner.truthy then ghErr "Owner parameter is required"
  else if !repo.truthy then ghErr "Repository parameter is required"
  else if !perPageOk per_page then
    ghErr "per_page must be an integer between 1 and 100"
  else GitHubTool.get_repository_branches env owner repo (perPageVal per_page)

/-- GitHubHandler._handle_list_issues. -/
def handle_list_issues (env : GitHubEnv) (args : Args) : GhResult :=
  let owner := argsGet args "owner"
  let repo := argsGet args "repo"
  let state := argsGetD args "state" (.str "open")
  let labels := argsGet args "labels"
  let per_page := argsGetD args "per_page" (.num 30)
  if !owner.truthy then ghErr "Owner parameter is required"
  else if !repo.truthy then ghErr "Repository parameter is required"
  else if !(state == JValue.str "open" || state == JValue.str "closed" ||
            state == JValue.str "all") then
    ghErr "State must be one of: open, closed, all"
  else if !perPageOk per_page then
    ghErr "per_page must be an integer between 1 and 100"
  else GitHubTool.list_issues env owner repo state labels (perPageVal per_page)

/-- GitHubHandler._handle_create_issue. -/
def handle_create_issue (env : GitHubEnv) (args : Args) : GhResult :=
  let owner := argsGet args "owner"
  let repo := argsGet args "repo"
  let title := argsGet args "title"
  let body := argsGet args "body"
  let labels := argsGet args "labels"
  let assignees := argsGet args "assignees"
  if !owner.truthy then ghErr "Owner parameter is required"
  else if !repo.truthy then ghErr "Repository parameter is required"
  else if !title.truthy then ghErr "Title parameter is required"
  else if labels.truthy && !(match labels with | .arr _ => true | _ => false) then
    ghErr "Labels must be a list of strings"
  else if assignees.truthy && !(match assignees with | .arr _ => true | _ => false) then
    ghErr "Assignees must be a list of usernames"
  else GitHubTool.create_issue env owner repo title body labels assignees

/-- GitHubHandler._handle_list_pull_requests. -/
def handle_list_pull_requests (env : GitHubEnv) (args : Args) : GhResult :=
  let owner := argsGet args "owner"
  let repo := argsGet args "repo"
  let state := argsGetD args "state" (.str "open")
  let per_page := argsGetD args "per_page" (.num 30)
  if !owner.truthy then ghErr "Owner parameter is required"
  else if !repo.truthy then ghErr "Repository parameter is required"
  else if !(state == JValue.str "open" || state == JValue.str "closed" ||
            state == JValue.str "all") then
    ghErr "State must be one of: open, closed, all"
  else if !perPageOk per_page then
    ghErr "per_page must be an integer between 1 and 100"
  else GitHubTool.list_pull_requests env owner repo state (perPageVal per_page)

/-- GitHubHandler._handle_search_repositories. -/
def handle_search_repositories (env : GitHubEnv) (args : Args) : GhResult :=
  let query := argsGet args "query"
  let sort := argsGetD args "sort" (.str "stars")
  let order := argsGetD args "order" (.str "desc")
  let per_page := argsGetD args "per_page" (.num 30)
  if !query.truthy then ghErr "Query parameter is required"
  else if !(sort == JValue.str "stars" || sort == JValue.str "forks" ||
            sort == JValue.str "updated") then
    ghErr "Sort must be one of: stars, forks, updated"
  else if !(order == JValue.str "asc" || order == JValue.str "desc") then
    ghErr "Order must be one of: asc, desc"
  else if !perPageOk per_page then
    ghErr "per_page must be an integer between 1 and 100"
  else GitHubTool.search_repositories env query sort order (perPageVal per_page)

/-- GitHubHandler._handle_get_user_info. -/
def handle_get_user_info (env : GitHubEnv) (args : Args) : GhResult :=
  let username := argsGet args "username"
  if !username.truthy then ghErr "Username parameter is required"
  else GitHubTool.get_user_info env username

/-- GitHubHandler._handle_get_my_repositories. -/
def handle_get_my_repositories (env : GitHubEnv) (args : Args) : GhResult :=
  let repo_type := argsGetD args "type" (.str "all")
  let per_page := argsGetD args "per_page" (.num 30)
  if !(repo_type == JValue.str "all" || repo_type == JValue.str "owner" ||
       repo_type == JValue.str "member" || repo_type == JValue.str "private" ||
       repo_type == JValue.str "public") then
    ghErr "Type must be one of: all, owner, member, private, public"
  else if !perPageOk per_page then
    ghErr "per_page must be an integer between 1 and 100"
  else GitHubTool.get_my_repositories env repo_type (perPageVal per_page)

/-- GitHubHandler._handle_get_my_user_info. -/
def handle_get_my_user_info (env : GitHubEnv) (_args : Args) : GhResult :=
  GitHubTool.get_authenticated_user_info env

/-- The isinstance(pull_number, int) precheck of the review handlers. -/
def isIntArg (v : JValue) : Bool :=
  match v with
  | .num _ => true
  | _ => false

/-- GitHubHandler._handle_get_pull_request_reviews. -/
def handle_get_pull_request_reviews (env : GitHubEnv) (args : Args) : GhResult :=
  let pull_number := argsGet args "pull_number"
  if !isIntArg pull_number then ghErr "pull_number must be an integer"
  else GitHubTool.get_pull_request_reviews env (argsGet args "owner")
    (argsGet args "repo") pull_number

/-- GitHubHandler._handle_create_pull_request_review. -/
def handle_create_pull_request_review (env : GitHubEnv) (args : Args) : GhResult :=
  let pull_number := argsGet args "pull_number"
  if !isIntArg pull_number then ghErr "pull_number must be an integer"
  else GitHubTool.create_pull_request_review env (argsGet args "owner")
    (argsGet args "repo") pull_number (argsGetD args "event" (.str "COMMENT"))
    (argsGet args "body") (argsGet args "comments")

/-- GitHubHandler._handle_get_pull_request_review_comments. -/
def handle_get_pull_request_review_comments (env : GitHubEnv) (args : Args) :
    GhResult :=
  let pull_number := argsGet args "pull_number"
  if !isIntArg pull_number then ghErr "pull_number must be an integer"
  else GitHubTool.get_pull_request_review_comments env (argsGet args "owner")
    (argsGet args "repo") pull_number

/-- GitHubHandler._handle_create_pull_request_review_comment. -/
def handle_create_pull_request_review_comment (env : GitHubEnv) (args : Args) :
    GhResult :=
  let pull_number := argsGet args "pull_number"
  let body := argsGet args "body"
  let commit_id := argsGet args "commit_id"
  let path := argsGet args "path"
  if !isIntArg pull_number then ghErr "pull_number must be an integer"
  else if !(body.truthy && commit_id.truthy && path.truthy) then
    ghErr "body, commit_id, and path are required"
  else GitHubTool.create_pull_request_review_comment env (argsGet args "owner")
    (argsGet args "repo") pull_number body commit_id path (argsGet args "line")
    (argsGetD args "side" (.str "RIGHT"))

/-- GitHubHandler._handle_update_pull_request_review_comment. -/
def handle_update_pull_request_review_comment (env : GitHubEnv) (args : Args) :
    GhResult :=
  let comment_id := argsGet args "comment_id"
  let body := argsGet args "body"
  if !isIntArg comment_id then ghErr "comment_id must be an integer"
  else if !body.truthy then ghErr "body is required"
  else GitHubTool.update_pull_request_review_comment env (argsGet args "owner")
    (argsGet args "repo") comment_id body

/-- GitHubHandler._handle_delete_pull_request_review_comment. -/
def handle_delete_pull_request_review_comment (env : GitHubEnv) (args : Args) :
    GhResult :=
  let comment_id := argsGet args "comment_id"
  if !isIntArg comment_id then ghErr "comment_id must be an integer"
  else GitHubTool.delete_pull_request_review_comment env (argsGet args "owner")
    (argsGet args "repo") comment_id

/-- GitHubHandler._handle_get_pull_request_files. -/
def handle_get_pull_request_files (env : GitHubEnv) (args : Args) : GhResult :=
  let pull_number := argsGet args "pull_number"
  if !isIntArg pull_number then ghErr "pull_number must be an integer"
  else GitHubTool.get_pull_request_files env (argsGet args "owner")
    (argsGet args "repo") pull_number

/-- The registered GitHub tool names, in the order of the routing map. -/
def toolNames : List String := [
  "github_get_repository_info", "github_list_repositories",
  "github_get_repository_contents", "github_get_repository_branches",
  "github_list_issues", "github_create_issue",
  "github_list_pull_requests", "github_get_pull_request_reviews",
  "github_create_pull_request_review", "github_get_pull_request_review_comments",
  "github_create_pull_request_review_comment",
  "github_update_pull_request_review_comment",
  "github_delete_pull_request_review_comment", "github_get_pull_request_files",
  "github_search_repositories", "github_get_user_info",
  "github_get_my_repositories", "github_get_my_user_info"]

/-- GitHubHandler.execute_tool: the name-to-handler routing map, with the
unknown-name error listing every available tool. -/
def execute_tool (env : GitHubEnv) (name : String) (args : Args) : GhResult :=
  if name == "github_get_repository_info" then handle_get_repository_info env args
  else if name == "github_list_repositories" then handle_list_repositories env args
  else if name == "github_get_repository_contents" then
    handle_get_repository_contents env args
  else if name == "github_get_repository_branches" then
    handle_get_repository_branches env args
  else if name == "github_list_issues" then handle_list_issues env args
  else if name == "github_create_issue" then handle_create_issue env args
  else if name == "github_list_pull_requests" then handle_list_pull_requests env args
  else if name == "github_get_pull_request_reviews" then
    handle_get_pull_request_reviews env args
  else if name == "github_create_pull_request_review" then
    handle_create_pull_request_review env args
  else if name == "github_get_pull_request_review_comments" then
    handle_get_pull_request_review_comments env args
  else if name == "github_create_pull_request_review_comment" then
    handle_create_pull_request_review_comment env args
  else if name == "github_update_pull_request_review_comment" then
    handle_update_pull_request_review_comment env args
  else if name == "github_delete_pull_request_review_comment" then
    handle_delete_pull_request_review_comment env args
  else if name == "github_get_pull_request_files" then
    handle_get_pull_request_files env args
  else if name == "github_search_repositories" then handle_search_repositories env args
  else if name == "github_get_user_info" then handle_get_user_info env args
  else if name == "github_get_my_repositories" then handle_get_my_repositories env args
  else if name == "github_get_my_user_info" then handle_get_my_user_info env args
  else
    { envelope := .obj [
        ("error", .str ("Unknown GitHub tool: " ++ name)),
        ("available_tools", .arr (toolNames.map .str))]
      requests := [] }

end GitHubHandler

/-! ## The FastMCP front-end adapters and composites (github_server.py) -/

/-- The github_list_repositories endpoint of the FastMCP server: a direct
call through to the tool method with no range validation of its own. -/
def github_list_repositories_server (env : GitHubEnv) (owner : String)
    (repo_type : String) (per_page : Int) : GhResult :=
  GitHubTool.list_repositories env (.str owner) (.str repo_type) per_page

/-- github_analyze_repository: four sub-operation calls, then the dict
literal whose timestamp entry probes the API root once to test for a
timestamp member and, when present, probes it again to read the value; a
raised exception anywhere inside the try yields the error envelope that
names the repository. -/
def github_analyze_repository (env : GitHubEnv) (owner repo : String) : GhResult :=
  let ri := GitHubTool.get_repository_info env (.str owner) (.str repo)
  let br := GitHubTool.get_repository_branches env (.str owner) (.str repo) 10
  let iss := GitHubTool.list_issues env (.str owner) (.str repo) (.str "all") .null 10
  let prs := GitHubTool.list_pull_requests env (.str owner) (.str repo) (.str "all") 10
  let baseLog := ri.requests ++ br.requests ++ iss.requests ++ prs.requests
  let (probe, probeLog) := makeRequest env "GET" "" none none
  let combined (ts : JValue) : JValue := .obj [
    ("operation", .str "analyze_repository"),
    ("repository", .str (owner ++ "/" ++ repo)),
    ("timestamp", ts),
    ("repository_info", ri.envelope),
    ("branches", br.envelope),
    ("recent_issues", iss.envelope),
    ("recent_pull_requests", prs.envelope)]
  match pyIn "timestamp" probe with
  | .error m =>
    { envelope := .obj [
        ("error", .str ("Failed to analyze repository: " ++ m)),
        ("repository", .str (owner ++ "/" ++ repo))]
      requests := baseLog ++ probeLog }
  | .ok false =>
    { envelope := combined .null, requests := baseLog ++ probeLog }
  | .ok true =>
    let (probe2, probeLog2) := makeRequest env "GET" "" none none
    match pyIndex probe2 "timestamp" with
    | .error m =>
      { envelope := .obj [
          ("error", .str ("Failed to analyze repository: " ++ m)),
          ("repository", .str (owner ++ "/" ++ repo))]
        requests := baseLog ++ probeLog ++ probeLog2 }
    | .ok ts =>
      { envelope := combined ts, requests := baseLog ++ probeLog ++ probeLog2 }

/-- github_get_trending_repositories: synthesizes a search query from the
since selector (1, 7 or 30 days back, defaulting to 1) and an optional
truthy language, then delegates to search_repositories. -/
def github_get_trending_repositories (env : GitHubEnv) (language : Option String)
    (since : String) (per_page : Int) : GhResult :=
  let days_back : Nat :=
    if since == "daily" then 1
    else if since == "weekly" then 7
    else if since == "monthly" then 30
    else 1
  let start_date := env.dateStr days_back
  let lang : JValue := match language with | some l => .str l | none => .null
  let query := "created:>=" ++ start_date ++
    (if lang.truthy then " language:" ++ lang.pyStr else "")
  GitHubTool.search_repositories env (.str query) (.str "stars") (.str "desc") per_page

/-! ## The MongoDB tool (tools/mongodb.py) -/

/-- The database contents: collection name to stored documents, in
insertion order.  The database server itself is outside src/, so its
command semantics below are modelled from the spec (plain
equality-matching find, set-clause update applied to all matches,
delete of all matches). -/
def MongoDB := List (String × List JValue)

/-- The documents of a named collection (a fresh name is empty). -/
def collDocs : MongoDB → String → List JValue
  | [], _ => []
  | (n, ds) :: rest, c => if n == c then ds else collDocs rest c

/-- Replaces the documents of a named collection, creating it if absent. -/
def dbSetColl : MongoDB → String → List JValue → MongoDB
  | [], c, ds => [(c, ds)]
  | (n, old) :: rest, c, ds =>
    if n == c then (c, ds) :: rest else (n, old) :: dbSetColl rest c ds

/-- One database command of the driver, as issued by the tool: the log
entry type used to state that a rejected call executed nothing. -/
inductive MongoCmd where
  | find : String → JValue → Option (List (String × JValue)) → Option Int → MongoCmd
  | insertOne : String → JValue → MongoCmd
  | insertMany : String → List JValue → MongoCmd
  | updateMany : String → JValue → JValue → Bool → MongoCmd
  | deleteMany : String → JValue → MongoCmd
  | aggregate : String → JValue → MongoCmd
  | listCollections : MongoCmd
  | collStats : String → MongoCmd
  | countDocuments : String → JValue → MongoCmd

/-- The environment a MongoDBTool instance closes over: the configured
database name, the current datetime.utcnow value, the ObjectId generator of
the driver, and the server-computed aggregation results and collection
statistics (both opaque to the tool, hence supplied by the environment). -/
structure MongoEnv where
  databaseName : String
  now : Int
  oidSupply : Nat → String
  aggEngine : String → JValue → MongoDB → List JValue
  collStatsDoc : String → JValue

/-- A MongoDB tool operation result: the envelope, the database after the
call, the driver commands executed, and the value of the caller-passed
mutable argument (documents for insert, update for update) after the call,
since those methods write into their arguments in place. -/
structure MgResult where
  envelope : JValue
  db : MongoDB
  commands : List MongoCmd
  argAfter : JValue

/-- isinstance(x, str). -/
def isStrV : JValue → Bool
  | .str _ => true
  | _ => false

/-- isinstance(x, dict). -/
def isDictV : JValue → Bool
  | .obj _ => true
  | _ => false

/-- The string carried by a string value. -/
def strVal : JValue → String
  | .str s => s
  | _ => ""

/-- The field list of a dict value. -/
def fieldsOf : JValue → List (String × JValue)
  | .obj fs => fs
  | _ => []

/-- Modelled from the spec: equality matching of a query document against a
stored document (each filter field must be present with an equal value);
query operators beyond plain equality are outside the spec and not
modelled. -/
def matchFilter (qf : List (String × JValue)) (doc : JValue) : Bool :=
  qf.all (fun p =>
    match doc with
    | .obj fs => JValue.lookupField fs p.fst == some p.snd
    | _ => false)

/-- Modelled from the spec: applying a set clause writes each listed field
into the document. -/
def applySet (setFs : List (String × JValue)) (doc : JValue) : JValue :=
  match doc with
  | .obj fs => .obj (setFs.foldl (fun acc p => JValue.setKey acc p.fst p.snd) fs)
  | other => other

/-- The timestamp stamping loop of insert: created_at and updated_at are
written into the document with one shared datetime value. -/
def stampDoc (now : Int) (doc : JValue) : JValue :=
  match doc with
  | .obj fs =>
    .obj (JValue.setKey (JValue.setKey fs "created_at" (.date now))
      "updated_at" (.date now))
  | other => other

/-- Modelled from the driver: insertion assigns a fresh ObjectId as _id
unless the document already carries one. -/
def ensureId (id : String) (doc : JValue) : JValue :=
  match doc with
  | .obj fs =>
    match JValue.lookupField fs "_id" with
    | some _ => .obj fs
    | none => .obj (JValue.setKey fs "_id" (.oid id))
  | other => other

/-- The inserted_id reported by the driver for one document. -/
def insertedIdOf (id : String) (doc : JValue) : JValue :=
  match doc with
  | .obj fs =>
    match JValue.lookupField fs "_id" with
    | some v => v
    | none => .oid id
  | _ => .oid id

/-- The index of the first non-dict element of a document list, as the
validation loop of insert reports it. -/
def firstNonDict : List JValue → Nat → Option Nat
  | [], _ => none
  | d :: ds, i =>
    match d with
    | .obj _ => firstNonDict ds (i + 1)
    | _ => some i

/-- Total order used by the modelled sort: a rank by constructor, then the
natural comparison inside each kind.  Only its totality matters to any
claim; the server ordering of mixed types is outside the spec. -/
def bsonLe (a b : JValue) : Bool :=
  let rank : JValue → Nat := fun v =>
    match v with
    | .null => 0 | .num _ => 1 | .str _ => 2 | .obj _ => 3
    | .arr _ => 4 | .oid _ => 5 | .bool _ => 6 | .date _ => 7
  if rank a != rank b then decide (rank a < rank b)
  else
    match a, b with
    | .num x, .num y => decide (x ≤ y)
    | .str x, .str y => decide (x ≤ y)
    | .bool x, .bool y => !x || y
    | .date x, .date y => decide (x ≤ y)
    | .oid x, .oid y => decide (x ≤ y)
    | _, _ => true

/-- Document order under one sort key with direction 1 or -1. -/
def keyLe (key : String) (dir : Int) (d1 d2 : JValue) : Bool :=
  let v1 := (JValue.lookupTop d1 key).getD .null
  let v2 := (JValue.lookupTop d2 key).getD .null
  if dir == -1 then bsonLe v2 v1 else bsonLe v1 v2

/-- Lexicographic document order over a sort specification. -/
def specLe : List (String × JValue) → JValue → JValue → Bool
  | [], _, _ => true
  | (k, dv) :: rest, d1, d2 =>
    let dir : Int := match dv with | .num n => n | _ => 1
    if keyLe k dir d1 d2 && keyLe k dir d2 d1 then specLe rest d1 d2
    else keyLe k dir d1 d2

/-- Stable insertion into a sorted list. -/
def insertSorted (le : JValue → JValue → Bool) (x : JValue) :
    List JValue → List JValue
  | [] => [x]
  | y :: ys => if le y x then y :: insertSorted le x ys else x :: y :: ys

/-- Modelled from the spec: the server-side sort of a result set. -/
def sortDocs (spec : List (String × JValue)) (docs : List JValue) : List JValue :=
  docs.foldl (fun acc d => insertSorted (specLe spec) d acc) []

/-- The driver validation of a sort specification: every direction must be
the integer 1 or -1, raising before any command otherwise. -/
def validDirections (spec : List (String × JValue)) : Except String Unit :=
  if spec.all (fun p => p.snd == JValue.num 1 || p.snd == JValue.num (-1)) then
    .ok ()
  else
    .error "ValueError: sort direction must be 1 or -1"

/-- The eager dict conversion of a driver argument, raising the given
message on a non-dict value. -/
def toDictE (v : JValue) (msg : String) : Except String (List (String × JValue)) :=
  match v with
  | .obj fs => .ok fs
  | _ => .error msg

namespace MongoDBTool

/-- Builds an MgResult whose mutable-argument component is the given
post-call value. -/
def mg (envelope : JValue) (db : MongoDB) (commands : List MongoCmd)
    (argAfter : JValue) : MgResult :=
  { envelope := envelope, db := db, commands := commands, argAfter := argAfter }

/-- MongoDBTool.find: validates the collection name and the limit, builds
the effective query (a falsy query becomes the match-all document), applies
sort and a truthy limit to the cursor, and serializes the results with
_serialize_objectid.  A limit of 0 passes validation but is never applied,
because the cursor method is guarded by Python truthiness. -/
def find (_env : MongoEnv) (db : MongoDB) (collection query limit sort : JValue) :
    MgResult :=
  if !collection.truthy || !isStrV collection then
    mg (errObj "Collection name must be a non-empty string") db [] .null
  else if !(limit == JValue.null) &&
      !(match limit with | .num n => decide (0 ≤ n) | _ => false) then
    mg (errObj "Limit must be a non-negative integer") db [] .null
  else
    let c := strVal collection
    let mongo_query := if query.truthy then query else .obj []
    let limitN : Option Int :=
      match limit with
      | .num n => if n != 0 then some n else none
      | _ => none
    match (do
      let qf ← toDictE mongo_query "TypeError: filter must be an instance of dict"
      let sortSpec ←
        if sort.truthy then do
          let sf ← toDictE sort "AttributeError: object has no attribute items"
          let _ ← validDirections sf
          pure (some sf)
        else
          pure (none : Option (List (String × JValue)))
      pure (qf, sortSpec) : Except String _) with
    | .error m => mg (errObj m) db [] .null
    | .ok (qf, sortSpec) =>
      let matched := (collDocs db c).filter (matchFilter qf)
      let sorted :=
        match sortSpec with
        | some sp => sortDocs sp matched
        | none => matched
      let results :=
        match limitN with
        | some n => sorted.take n.toNat
        | none => sorted
      mg (.obj [
          ("collection", collection),
          ("query", mongo_query),
          ("count", .num results.length),
          ("results", .arr (serializeObjectidList results))])
        db [.find c mongo_query sortSpec limitN] .null

/-- The shared insertion path after documents has been normalized to a
list: element validation, timestamp stamping (mutating the caller-passed
dicts), then insert_one for a single document and insert_many otherwise.
Returns the envelope, new database, commands, and the stamped list. -/
def insertCore (env : MongoEnv) (db : MongoDB) (collection : JValue)
    (docs : List JValue) : JValue × MongoDB × List MongoCmd × List JValue :=
  match firstNonDict docs 0 with
  | some i =>
    (errObj ("Document at index " ++ toString i ++ " is not a dictionary"),
      db, [], docs)
  | none =>
    let c := strVal collection
    let stamped := docs.map (stampDoc env.now)
    let indexed := stamped.zip (List.range stamped.length)
    let stored := indexed.map (fun p => ensureId (env.oidSupply p.snd) p.fst)
    let inserted_ids := indexed.map
      (fun p => JValue.pyStr (insertedIdOf (env.oidSupply p.snd) p.fst))
    let cmds : List MongoCmd :=
      if stamped.length == 1 then
        [.insertOne c ((stored.headD .null))]
      else
        [.insertMany c stored]
    (.obj [
        ("collection", collection),
        ("operation", .str "insert"),
        ("inserted_count", .num inserted_ids.length),
        ("inserted_ids", .arr (inserted_ids.map .str)),
        ("acknowledged", .bool true)],
      dbSetColl db c (collDocs db c ++ stored), cmds, stamped)

/-- MongoDBTool.insert: a non-string collection name raises inside the
driver lookup; empty input is rejected; a single dict is normalized to a
one-element list; every element must be a dict.  The argAfter component is
the caller-passed documents value after the in-place timestamp writes. -/
def insert (env : MongoEnv) (db : MongoDB) (collection documents : JValue) :
    MgResult :=
  if !isStrV collection || !collection.truthy then
    mg (errObj "TypeError: collection name must be a non-empty string instance")
      db [] documents
  else if !documents.truthy then
    mg (errObj "Documents cannot be empty") db [] documents
  else
    match documents with
    | .obj d =>
      let (envl, db2, cmds, stamped) := insertCore env db collection [.obj d]
      mg envl db2 cmds (stamped.headD (.obj d))
    | .arr ds =>
      let (envl, db2, cmds, stamped) := insertCore env db collection ds
      mg envl db2 cmds (.arr stamped)
    | other =>
      mg (errObj "Documents must be a dictionary or list of dictionaries")
        db [] other

/-- MongoDBTool.update: type validation, then the in-place timestamp
injection into the set clause of the caller-passed update document, then
update_many over every matching document (upsert optional).  The
upserted_count of the envelope is the getattr default 0, because the driver
update result exposes upserted_id and no upserted_count attribute. -/
def update (env : MongoEnv) (db : MongoDB) (collection filter upd : JValue)
    (upsert : Bool) : MgResult :=
  if !collection.truthy || !isStrV collection then
    mg (errObj "Collection name must be a non-empty string") db [] upd
  else if !isDictV filter then
    mg (errObj "Filter must be a dictionary") db [] upd
  else if !isDictV upd then
    mg (errObj "Update must be a dictionary") db [] upd
  else
    let updFields := fieldsOf upd
    let setVal := (JValue.lookupField updFields "$set").getD (.obj [])
    match setVal with
    | .obj setFs =>
      let setFs2 := JValue.setKey setFs "updated_at" (.date env.now)
      let upd2 : JValue := .obj (JValue.setKey updFields "$set" (.obj setFs2))
      let c := strVal collection
      let qf := fieldsOf filter
      let docs := collDocs db c
      let matched := docs.filter (matchFilter qf)
      let cmds : List MongoCmd := [.updateMany c filter upd2 upsert]
      if matched.isEmpty && upsert then
        let upsertedDoc := ensureId (env.oidSupply 0) (applySet setFs2 (.obj qf))
        mg (.obj [
            ("collection", collection),
            ("operation", .str "update"),
            ("matched_count", .num 0),
            ("modified_count", .num 0),
            ("upserted_count", .num 0),
            ("acknowledged", .bool true)])
          (dbSetColl db c (docs ++ [upsertedDoc])) cmds upd2
      else
        let newDocs := docs.map
          (fun d => if matchFilter qf d then applySet setFs2 d else d)
        let modified := (docs.filter
          (fun d => matchFilter qf d && !(JValue.beq (applySet setFs2 d) d))).length
        mg (.obj [
            ("collection", collection),
            ("operation", .str "update"),
            ("matched_count", .num matched.length),
            ("modified_count", .num modified),
            ("upserted_count", .num 0),
            ("acknowledged", .bool true)])
          (dbSetColl db c newDocs) cmds upd2
    | _ =>
      mg (errObj "TypeError: object does not support item assignment")
        db [] (.obj (JValue.setKey updFields "$set" setVal))

/-- MongoDBTool.delete: type validation, then delete_many of every matching
document. -/
def delete (_env : MongoEnv) (db : MongoDB) (collection filter : JValue) :
    MgResult :=
  if !collection.truthy || !isStrV collection then
    mg (errObj "Collection name must be a non-empty string") db [] .null
  else if !isDictV filter then
    mg (errObj "Filter must be a dictionary") db [] .null
  else
    let c := strVal collection
    let qf := fieldsOf filter
    let docs := collDocs db c
    let remaining := docs.filter (fun d => !matchFilter qf d)
    let deleted := docs.length - remaining.length
    mg (.obj [
        ("collection", collection),
        ("operation", .str "delete"),
        ("deleted_count", .num deleted),
        ("acknowledged", .bool true)])
      (dbSetColl db c remaining) [.deleteMany c filter] .null

/-- MongoDBTool.aggregate: type validation, then the pipeline is executed
by the server (supplied by the environment) and serialized like find. -/
def aggregate (env : MongoEnv) (db : MongoDB) (collection pipeline : JValue) :
    MgResult :=
  if !collection.truthy || !isStrV collection then
    mg (errObj "Collection name must be a non-empty string") db [] .null
  else if !(match pipeline with | .arr _ => true | _ => false) then
    mg (errObj "Pipeline must be a list of aggregation stages") db [] .null
  else
    let c := strVal collection
    let results := env.aggEngine c pipeline db
    mg (.obj [
        ("collection", collection),
        ("operation", .str "aggregate"),
        ("pipeline", pipeline),
        ("count", .num results.length),
        ("results", .arr (serializeObjectidList results))])
      db [.aggregate c pipeline] .null

/-- MongoDBTool.get_collections. -/
def get_collections (env : MongoEnv) (db : MongoDB) : MgResult :=
  let names := db.map Prod.fst
  mg (.obj [
      ("database", .str env.databaseName),
      ("collections", .arr (names.map .str)),
      ("count", .num names.length)])
    db [.listCollections] .null

/-- MongoDBTool.get_collection_stats: the collstats command and a
count_documents call, then a projection of the stats document with
defaults; a malformed stats document makes the projection raise after both
commands have run. -/
def get_collection_stats (env : MongoEnv) (db : MongoDB) (collection : JValue) :
    MgResult :=
  if !isStrV collection || !collection.truthy then
    mg (errObj "TypeError: collection name must be a non-empty string instance")
      db [] .null
  else
    let c := strVal collection
    let stats := env.collStatsDoc c
    let count := (collDocs db c).length
    let cmds : List MongoCmd := [.collStats c, .countDocuments c (.obj [])]
    match buildObj [
      ("collection", .ok collection),
      ("count", .ok (.num count)),
      ("size", pyGet stats "size" (.num 0)),
      ("storageSize", pyGet stats "storageSize" (.num 0)),
      ("avgObjSize", pyGet stats "avgObjSize" (.num 0)),
      ("indexes", pyGet stats "nindexes" (.num 0)),
      ("indexSizes", pyGet stats "indexSizes" (.obj []))] with
    | .ok j => mg j db cmds .null
    | .error m => mg (errObj m) db cmds .null

end MongoDBTool

/-! ## The MongoDB FastMCP front-end adapter (mongodb_server.py) -/

/-- The FastMCP endpoint mongodb_update of mongodb_server.py: it forwards
its arguments directly to mongodb_tool.update with no validation of its
own (in particular no emptiness check on filter or update). -/
def mongodb_update_server (env : MongoEnv) (db : MongoDB) (collection : String)
    (filter upd : JValue) (upsert : Bool) : MgResult :=
  MongoDBTool.update env db (.str collection) filter upd upsert

/-! ## The MongoDB dispatch layer (ToolHandler) -/

/-- A validation-failure result of the MongoDB dispatch layer: the error
envelope, an unchanged database, and no commands. -/
def mgErr (msg : String) (db : MongoDB) : MgResult :=
  { envelope := errObj msg, db := db, commands := [], argAfter := .null }

namespace ToolHandler

/-- ToolHandler._handle_mongodb_find. -/
def handle_mongodb_find (env : MongoEnv) (db : MongoDB) (args : Args) : MgResult :=
  let collection := argsGet args "collection"
  if !collection.truthy then mgErr "Collection parameter is required" db
  else
    MongoDBTool.find env db collection (argsGet args "query")
      (argsGet args "limit") (argsGet args "sort")

/-- ToolHandler._handle_mongodb_insert: collection and documents must both
be present and truthy before the tool runs. -/
def handle_mongodb_insert (env : MongoEnv) (db : MongoDB) (args : Args) : MgResult :=
  let collection := argsGet args "collection"
  let documents := argsGet args "documents"
  if !collection.truthy then mgErr "Collection parameter is required" db
  else if !documents.truthy then mgErr "Documents parameter is required" db
  else MongoDBTool.insert env db collection documents

/-- ToolHandler._handle_mongodb_update: collection, filter and update must
all be truthy (an empty dict is falsy, hence rejected here) before the tool
runs. -/
def handle_mongodb_update (env : MongoEnv) (db : MongoDB) (args : Args) : MgResult :=
  let collection := argsGet args "collection"
  let filter_query := argsGet args "filter"
  let update_query := argsGet args "update"
  if !collection.truthy then mgErr "Collection parameter is required" db
  else if !filter_query.truthy then mgErr "Filter parameter is required" db
  else if !update_query.truthy then mgErr "Update parameter is required" db
  else
    MongoDBTool.update env db collection filter_query update_query
      (match argsGetD args "upsert" (.bool false) with
       | .bool b => b
       | v => v.truthy)

/-- ToolHandler._handle_mongodb_delete. -/
def handle_mongodb_delete (env : MongoEnv) (db : MongoDB) (args : Args) : MgResult :=
  let collection := argsGet args "collection"
  let filter_query := argsGet args "filter"
  if !collection.truthy then mgErr "Collection parameter is required" db
  else if !filter_query.truthy then mgErr "Filter parameter is required" db
  else MongoDBTool.delete env db collection filter_query

/-- ToolHandler._handle_mongodb_aggregate. -/
def handle_mongodb_aggregate (env : MongoEnv) (db : MongoDB) (args : Args) :
    MgResult :=
  let collection := argsGet args "collection"
  let pipeline := argsGet args "pipeline"
  if !collection.truthy then mgErr "Collection parameter is required" db
  else if !pipeline.truthy then mgErr "Pipeline parameter is required" db
  else MongoDBTool.aggregate env db collection pipeline

/-- ToolHandler._handle_mongodb_get_collections. -/
def handle_mongodb_get_collections (env : MongoEnv) (db : MongoDB) (_args : Args) :
    MgResult :=
  MongoDBTool.get_collections env db

/-- ToolHandler._handle_mongodb_get_collection_stats. -/
def handle_mongodb_get_collection_stats (env : MongoEnv) (db : MongoDB)
    (args : Args) : MgResult :=
  let collection := argsGet args "collection"
  if !collection.truthy then mgErr "Collection parameter is required" db
  else MongoDBTool.get_collection_stats env db collection

/-- The registered MongoDB tool names, in the order of the routing map. -/
def toolNames : List String := [
  "mongodb_find", "mongodb_insert", "mongodb_update", "mongodb_delete",
  "mongodb_aggregate", "mongodb_get_collections",
  "mongodb_get_collection_stats"]

/-- ToolHandler.execute_tool: the name-to-handler routing map with the
unknown-name error listing the available tools. -/
def execute_tool (env : MongoEnv) (db : MongoDB) (name : String) (args : Args) :
    MgResult :=
  if name == "mongodb_find" then handle_mongodb_find env db args
  else if name == "mongodb_insert" then handle_mongodb_insert env db args
  else if name == "mongodb_update" then handle_mongodb_update env db args
  else if name == "mongodb_delete" then handle_mongodb_delete env db args
  else if name == "mongodb_aggregate" then handle_mongodb_aggregate env db args
  else if name == "mongodb_get_collections" then
    handle_mongodb_get_collections env db args
  else if name == "mongodb_get_collection_stats" then
    handle_mongodb_get_collection_stats env db args
  else
    { envelope := .obj [
        ("error", .str ("Unknown tool: " ++ name)),
        ("available_tools", .arr (toolNames.map .str))]
      db := db, commands := [], argAfter := .null }

end ToolHandler

/-! ## Envelope shapes -/

/-- keys contains k, by string equality. -/
def keysHave (keys : List String) (k : String) : Bool :=
  keys.any (fun s => s == k)

/-- The response-shape dichotomy of the spec: an envelope is
success-shaped when it carries every named success field of its operation
and no error key, and error-shaped when it carries an error key and none of
the operation data fields.  The claim is that exactly one of the two
holds. -/
def exactlyOneShape (succ data : List String) (j : JValue) : Bool :=
  ((succ.all (fun f => j.hasKeyTop f)) && !(j.hasKeyTop "error")) ^^
  ((j.hasKeyTop "error") && data.all (fun f => !(j.hasKeyTop f)))

/-! ## Generic lemmas about the embedding combinators -/

theorem ebind_ok {α β : Type} (a : α) (f : α → Except String β) :
    (Except.ok a >>= f) = f a := rfl

theorem ebind_err {α β : Type} (e : String) (f : α → Except String β) :
    ((Except.error e : Except String α) >>= f) = .error e := rfl

theorem except_bind_ok {α β : Type} (x : Except String α) (f : α → Except String β)
    (b : β) : (x >>= f) = .ok b ↔ ∃ a, x = .ok a ∧ f a = .ok b := by
  cases x with
  | ok a => simp [ebind_ok]
  | error e => simp [ebind_err]

theorem bind_tail {α β : Type} {x : Except String α} {f : α → Except String β}
    {j : β} (h : (x >>= f) = .ok j) : ∃ a, f a = .ok j := by
  cases x with
  | ok a => exact ⟨a, h⟩
  | error e => exact absurd h (by simp [ebind_err])

theorem epure_ok {α : Type} (a b : α) :
    (pure a : Except String α) = .ok b ↔ a = b := by
  constructor
  · intro h
    cases h
    rfl
  · intro h
    cases h
    rfl

theorem buildFields_ok_keys : ∀ (fs : List (String × Except String JValue))
    (l : List (String × JValue)), buildFields fs = .ok l →
    l.map Prod.fst = fs.map Prod.fst := by
  intro fs
  induction fs with
  | nil =>
    intro l h
    cases h
    rfl
  | cons p rest ih =>
    intro l h
    obtain ⟨k, ev⟩ := p
    simp only [buildFields, bind, Except.bind] at h
    cases hev : ev with
    | error e =>
      rw [hev] at h
      exact absurd h (by simp)
    | ok v =>
      rw [hev] at h
      cases htail : buildFields rest with
      | error e =>
        rw [htail] at h
        exact absurd h (by simp)
      | ok tail =>
        rw [htail] at h
        cases h
        simp [ih tail htail]

theorem buildObj_ok (fs : List (String × Except String JValue)) (j : JValue)
    (h : buildObj fs = .ok j) :
    ∃ l, j = .obj l ∧ l.map Prod.fst = fs.map Prod.fst := by
  unfold buildObj at h
  rw [except_bind_ok] at h
  obtain ⟨l, hl, hj⟩ := h
  cases hj
  exact ⟨l, rfl, buildFields_ok_keys fs l hl⟩

theorem hasKeyTop_obj (l : List (String × JValue)) (k : String) :
    (JValue.obj l).hasKeyTop k = keysHave (l.map Prod.fst) k := by
  induction l with
  | nil => rfl
  | cons p rest ih =>
    simp [JValue.hasKeyTop, keysHave, List.any] at ih ⊢
    rw [ih]

/-- The shape of any object envelope follows from its key list: every
success field present and no error key gives the success shape alone. -/
theorem exactlyOneShape_objKeys (succ data : List String)
    (l : List (String × JValue)) (keys : List String)
    (hk : l.map Prod.fst = keys)
    (hsucc : succ.all (keysHave keys) = true)
    (herr : keysHave keys "error" = false) :
    exactlyOneShape succ data (.obj l) = true := by
  unfold exactlyOneShape
  simp only [hasKeyTop_obj, hk, herr]
  have hs : succ.all (fun f => keysHave keys f) = true := hsucc
  simp [hs]

/-- A one-field error object (plus nothing else) is error-shaped and not
success-shaped, whatever the operation fields are, provided no data field
is itself named error. -/
theorem exactlyOneShape_errorField (succ data : List String) (v : JValue)
    (hdata : data.all (fun f => !("error" == f)) = true) :
    exactlyOneShape succ data (.obj [("error", v)]) = true := by
  unfold exactlyOneShape
  simp only [hasKeyTop_obj]
  have h1 : keysHave (List.map Prod.fst [("error", v)]) "error" = true := by rfl
  rw [h1]
  have h2 : data.all (fun f => !keysHave (List.map Prod.fst [("error", v)]) f) = true := by
    rw [List.all_eq_true] at hdata ⊢
    intro x hx
    have := hdata x hx
    simp [keysHave, List.any] at this ⊢
    intro hc
    exact this (by rw [hc])
  rw [h2]
  simp

/-- Shape of the try/except wrapper: a raised exception yields the pure
error envelope; otherwise the inner value decides. -/
theorem exactlyOneShape_runOp (succ data : List String) (e : Except String JValue)
    (hdata : data.all (fun f => !("error" == f)) = true)
    (h : ∀ j, e = .ok j → exactlyOneShape succ data j = true) :
    exactlyOneShape succ data (runOp e) = true := by
  cases e with
  | ok j => exact h j rfl
  | error m => exact exactlyOneShape_errorField succ data (.str m) hdata

/-- Shape via buildObj: a dict literal whose key list covers the success
fields and avoids the error key is success-shaped when it evaluates. -/
theorem exactlyOneShape_buildObj (succ data : List String)
    (fs : List (String × Except String JValue)) (j : JValue)
    (hsucc : succ.all (keysHave (fs.map Prod.fst)) = true)
    (herr : keysHave (fs.map Prod.fst) "error" = false)
    (h : buildObj fs = .ok j) : exactlyOneShape succ data j = true := by
  obtain ⟨l, rfl, hk⟩ := buildObj_ok fs j h
  exact exactlyOneShape_objKeys succ data l (fs.map Prod.fst) hk hsucc herr

/-! ## Claim C4: the identifier stringification is idempotent and total -/

mutual

theorem serializeObjectid_idem : ∀ v,
    serializeObjectid (serializeObjectid v) = serializeObjectid v
  | .null => rfl
  | .bool _ => rfl
  | .num _ => rfl
  | .str _ => rfl
  | .oid _ => rfl
  | .date _ => rfl
  | .arr xs => by
    simp [serializeObjectid, serializeObjectidList_idem xs]
  | .obj fs => by
    simp [serializeObjectid, serializeObjectidFields_idem fs]

theorem serializeObjectidList_idem : ∀ xs,
    serializeObjectidList (serializeObjectidList xs) = serializeObjectidList xs
  | [] => rfl
  | x :: xs => by
    simp [serializeObjectidList, serializeObjectid_idem x,
      serializeObjectidList_idem xs]

theorem serializeObjectidFields_idem : ∀ fs,
    serializeObjectidFields (serializeObjectidFields fs) = serializeObjectidFields fs
  | [] => rfl
  | (k, v) :: fs => by
    simp [serializeObjectidFields, serializeObjectid_idem v,
      serializeObjectidFields_idem fs]

end

mutual

theorem containsOid_serialize : ∀ v, containsOid (serializeObjectid v) = false
  | .null => rfl
  | .bool _ => rfl
  | .num _ => rfl
  | .str _ => rfl
  | .oid _ => rfl
  | .date _ => rfl
  | .arr xs => by
    simp [serializeObjectid, containsOid, containsOidList_serialize xs]
  | .obj fs => by
    simp [serializeObjectid, containsOid, containsOidFields_serialize fs]

theorem containsOidList_serialize : ∀ xs,
    containsOidList (serializeObjectidList xs) = false
  | [] => rfl
  | x :: xs => by
    simp [serializeObjectidList, containsOidList, containsOid_serialize x,
      containsOidList_serialize xs]

theorem containsOidFields_serialize : ∀ fs,
    containsOidFields (serializeObjectidFields fs) = false
  | [] => rfl
  | (k, v) :: fs => by
    simp [serializeObjectidFields, containsOidFields, containsOid_serialize v,
      containsOidFields_serialize fs]

end

/-- C4: the identifier-stringification function _serialize_objectid is
total (it is a total function on every JSON-like value, to any nesting
depth) and idempotent, and its output never contains a native ObjectId at
any depth: every generated identifier has been replaced by its plain
string form. -/
theorem claim_C4_serialize_idempotent_total : ∀ v : JValue,
    serializeObjectid (serializeObjectid v) = serializeObjectid v ∧
    containsOid (serializeObjectid v) = false :=
  fun v => ⟨serializeObjectid_idem v, containsOid_serialize v⟩

/-! ## Claim C1 infrastructure: shapes of the GitHub operations -/

/-- A benign upstream outcome: any successful JSON body contains no
top-level error member (the condition under which the amended shape
invariant holds; a 2xx body carrying an error member is echoed verbatim by
the source and can mix the shapes). -/
def benignOutcome : HttpOutcome → Bool
  | .status _ (.json j) =>
    match pyIn "error" j with
    | .ok true => false
    | _ => true
  | _ => true

/-- A transport whose every response is benign. -/
def benignEnv (env : GitHubEnv) : Prop :=
  ∀ req, benignOutcome (env.oracle req) = true

theorem makeRequestRes_benign (env : GitHubEnv) (hben : benignEnv env)
    (m ep : String) (d p : Option JValue) :
    (∃ msg, makeRequestRes env m ep d p = errObj msg) ∨
    ¬(pyIn "error" (makeRequestRes env m ep d p) = .ok true) := by
  have hb := hben (ghRequest env m ep d p)
  unfold makeRequestRes
  cases hoc : env.oracle (ghRequest env m ep d p) with
  | exn msg => exact Or.inl ⟨_, rfl⟩
  | status code body =>
    rw [hoc] at hb
    dsimp only
    by_cases h401 : (code == 401) = true
    · rw [if_pos h401]
      exact Or.inl ⟨_, rfl⟩
    · rw [if_neg h401]
      by_cases h403 : (code == 403) = true
      · rw [if_pos h403]
        exact Or.inl ⟨_, rfl⟩
      · rw [if_neg h403]
        by_cases h404 : (code == 404) = true
        · rw [if_pos h404]
          exact Or.inl ⟨_, rfl⟩
        · rw [if_neg h404]
          by_cases hge : (400 ≤ code)
          · rw [if_pos hge]
            exact Or.inl ⟨_, rfl⟩
          · rw [if_neg hge]
            cases body with
            | empty =>
              refine Or.inr ?_
              intro hcon
              simp [pyIn] at hcon
            | json j =>
              refine Or.inr ?_
              intro hcon
              unfold benignOutcome at hb
              dsimp only at hb hcon
              rw [hcon] at hb
              exact absurd hb (by simp)
            | invalid =>
              exact Or.inl ⟨_, rfl⟩

/-- pyIn applied to a one-field error object finds the error key. -/
theorem pyIn_errObj (msg : String) : pyIn "error" (errObj msg) = .ok true := rfl

/-- pyIndex applied to a one-field error object returns the message. -/
theorem pyIndex_errObj (msg : String) :
    pyIndex (errObj msg) "error" = .ok (.str msg) := rfl

/-- Shape of the shared operation pattern: the error-echo guard on the
interpreted response, then an arbitrary success continuation, wrapped in
the try/except.  Under the benignness of the response, the echoed value can
only be the one-field error payload. -/
theorem shape_guarded (succ data : List String) (result : JValue)
    (k : Except String JValue)
    (hres : (∃ msg, result = errObj msg) ∨ ¬(pyIn "error" result = .ok true))
    (hdata : data.all (fun f => !("error" == f)) = true)
    (hk : ∀ j, k = .ok j → exactlyOneShape succ data j = true) :
    exactlyOneShape succ data
      (runOp (pyIn "error" result >>= fun b => if b then pure result else k)) =
      true := by
  rcases hres with ⟨msg, rfl⟩ | hne
  · exact exactlyOneShape_errorField succ data (.str msg) hdata
  · cases hp : pyIn "error" result with
    | error e =>
      exact exactlyOneShape_errorField succ data (.str e) hdata
    | ok b =>
      cases b with
      | true => exact absurd hp hne
      | false =>
        exact exactlyOneShape_runOp _ _ _ hdata hk

/-- Shape of the variant guard of the pull-request review operations, whose
echo re-wraps the error value into a one-field object via subscripting. -/
theorem shape_guarded2 (succ data : List String) (result : JValue)
    (k : Except String JValue)
    (hres : (∃ msg, result = errObj msg) ∨ ¬(pyIn "error" result = .ok true))
    (hdata : data.all (fun f => !("error" == f)) = true)
    (hk : ∀ j, k = .ok j → exactlyOneShape succ data j = true) :
    exactlyOneShape succ data
      (runOp (pyIn "error" result >>= fun b =>
        if b then pyIndex result "error" >>= fun e => pure (.obj [("error", e)])
        else k)) = true := by
  rcases hres with ⟨msg, rfl⟩ | hne
  · exact exactlyOneShape_errorField succ data (.str msg) hdata
  · cases hp : pyIn "error" result with
    | error e =>
      exact exactlyOneShape_errorField succ data (.str e) hdata
    | ok b =>
      cases b with
      | true => exact absurd hp hne
      | false =>
        exact exactlyOneShape_runOp _ _ _ hdata hk

/-- Shape of GitHubTool.get_repository_info under a benign transport. -/
theorem shape_get_repository_info (env : GitHubEnv) (hben : benignEnv env)
    (owner repo : JValue) :
    exactlyOneShape ["operation", "repository", "data"] ["data"]
      (GitHubTool.get_repository_info env owner repo).envelope = true := by
  unfold GitHubTool.get_repository_info
  simp only [makeRequest]
  apply shape_guarded _ _ _ _
    (makeRequestRes_benign env hben _ _ _ _) (by decide)
  intro j hj
  obtain ⟨_, hj⟩ := bind_tail hj
  exact exactlyOneShape_buildObj _ _ _ _ (by rfl) (by rfl) hj

/-- Shape of GitHubTool.list_repositories under a benign transport. -/
theorem shape_list_repositories (env : GitHubEnv) (hben : benignEnv env)
    (owner repo_type : JValue) (per_page : Int) :
    exactlyOneShape ["operation", "owner", "type", "count", "repositories"]
      ["repositories"]
      (GitHubTool.list_repositories env owner repo_type per_page).envelope = true := by
  unfold GitHubTool.list_repositories
  simp only [makeRequest]
  apply shape_guarded _ _ _ _
    (makeRequestRes_benign env hben _ _ _ _) (by decide)
  intro j hj
  obtain ⟨_, hj⟩ := bind_tail hj
  obtain ⟨_, hj⟩ := bind_tail hj
  obtain ⟨_, hj⟩ := bind_tail hj
  exact exactlyOneShape_buildObj _ _ _ _ (by rfl) (by rfl) hj

/-- Shape of GitHubTool.get_repository_contents under a benign transport. -/
theorem shape_get_repository_contents (env : GitHubEnv) (hben : benignEnv env)
    (owner repo path ref : JValue) :
    exactlyOneShape ["operation", "repository", "path", "type"]
      ["contents", "file"]
      (GitHubTool.get_repository_contents env owner repo path ref).envelope = true := by
  unfold GitHubTool.get_repository_contents
  simp only [makeRequest]
  apply shape_guarded _ _ _ _
    (makeRequestRes_benign env hben _ _ _ _) (by decide)
  intro j hj
  obtain ⟨_, hj⟩ := bind_tail hj
  cases hres : makeRequestRes env "GET"
      ("repos/" ++ owner.pyStr ++ "/" ++ repo.pyStr ++ "/contents/" ++ path.pyStr)
      none (if ref.truthy then some (.obj [("ref", ref)]) else some (.obj [])) with
  | arr items =>
    rw [hres] at hj
    obtain ⟨_, hj⟩ := bind_tail hj
    exact exactlyOneShape_buildObj _ _ _ _ (by rfl) (by rfl) hj
  | null =>
    rw [hres] at hj
    exact exactlyOneShape_buildObj _ _ _ _ (by rfl) (by rfl) hj
  | bool b =>
    rw [hres] at hj
    exact exactlyOneShape_buildObj _ _ _ _ (by rfl) (by rfl) hj
  | num n =>
    rw [hres] at hj
    exact exactlyOneShape_buildObj _ _ _ _ (by rfl) (by rfl) hj
  | str s =>
    rw [hres] at hj
    exact exactlyOneShape_buildObj _ _ _ _ (by rfl) (by rfl) hj
  | obj fs =>
    rw [hres] at hj
    exact exactlyOneShape_buildObj _ _ _ _ (by rfl) (by rfl) hj
  | oid h =>
    rw [hres] at hj
    exact exactlyOneShape_buildObj _ _ _ _ (by rfl) (by rfl) hj
  | date t =>
    rw [hres] at hj
    exact exactlyOneShape_buildObj _ _ _ _ (by rfl) (by rfl) hj

/-- Shape of GitHubTool.list_issues under a benign transport. -/
theorem shape_list_issues (env : GitHubEnv) (hben : benignEnv env)
    (owner repo state labels : JValue) (per_page : Int) :
    exactlyOneShape ["operation", "repository", "state", "count", "issues"]
      ["issues"]
      (GitHubTool.list_issues env owner repo state labels per_page).envelope = true := by
  unfold GitHubTool.list_issues
  simp only [makeRequest]
  apply shape_guarded _ _ _ _
    (makeRequestRes_benign env hben _ _ _ _) (by decide)
  intro j hj
  obtain ⟨_, hj⟩ := bind_tail hj
  obtain ⟨_, hj⟩ := bind_tail hj
  obtain ⟨_, hj⟩ := bind_tail hj
  exact exactlyOneShape_buildObj _ _ _ _ (by rfl) (by rfl) hj

/-- Shape of GitHubTool.create_issue under a benign transport. -/
theorem shape_create_issue (env : GitHubEnv) (hben : benignEnv env)
    (owner repo title body labels assignees : JValue) :
    exactlyOneShape ["operation", "repository", "success", "issue"] ["issue"]
      (GitHubTool.create_issue env owner repo title body labels
        assignees).envelope = true := by
  unfold GitHubTool.create_issue
  cases env.token with
  | none => exact exactlyOneShape_errorField _ _ _ (by decide)
  | some t =>
    simp only [makeRequest]
    apply shape_guarded _ _ _ _
      (makeRequestRes_benign env hben _ _ _ _) (by decide)
    intro j hj
    obtain ⟨_, hj⟩ := bind_tail hj
    exact exactlyOneShape_buildObj _ _ _ _ (by rfl) (by rfl) hj

/-- Shape of GitHubTool.list_pull_requests under a benign transport. -/
theorem shape_list_pull_requests (env : GitHubEnv) (hben : benignEnv env)
    (owner repo state : JValue) (per_page : Int) :
    exactlyOneShape ["operation", "repository", "state", "count", "pull_requests"]
      ["pull_requests"]
      (GitHubTool.list_pull_requests env owner repo state per_page).envelope = true := by
  unfold GitHubTool.list_pull_requests
  simp only [makeRequest]
  apply shape_guarded _ _ _ _
    (makeRequestRes_benign env hben _ _ _ _) (by decide)
  intro j hj
  obtain ⟨_, hj⟩ := bind_tail hj
  obtain ⟨_, hj⟩ := bind_tail hj
  obtain ⟨_, hj⟩ := bind_tail hj
  exact exactlyOneShape_buildObj _ _ _ _ (by rfl) (by rfl) hj

/-- Shape of GitHubTool.get_repository_branches under a benign transport. -/
theorem shape_get_repository_branches (env : GitHubEnv) (hben : benignEnv env)
    (owner repo : JValue) (per_page : Int) :
    exactlyOneShape ["operation", "repository", "count", "branches"] ["branches"]
      (GitHubTool.get_repository_branches env owner repo per_page).envelope = true := by
  unfold GitHubTool.get_repository_branches
  simp only [makeRequest]
  apply shape_guarded _ _ _ _
    (makeRequestRes_benign env hben _ _ _ _) (by decide)
  intro j hj
  obtain ⟨_, hj⟩ := bind_tail hj
  obtain ⟨_, hj⟩ := bind_tail hj
  obtain ⟨_, hj⟩ := bind_tail hj
  exact exactlyOneShape_buildObj _ _ _ _ (by rfl) (by rfl) hj

/-- Shape of GitHubTool.search_repositories under a benign transport. -/
theorem shape_search_repositories (env : GitHubEnv) (hben : benignEnv env)
    (query sort order : JValue) (per_page : Int) :
    exactlyOneShape ["operation", "query", "total_count", "count", "repositories"]
      ["repositories", "total_count"]
      (GitHubTool.search_repositories env query sort order per_page).envelope = true := by
  unfold GitHubTool.search_repositories
  simp only [makeRequest]
  apply shape_guarded _ _ _ _
    (makeRequestRes_benign env hben _ _ _ _) (by decide)
  intro j hj
  obtain ⟨_, hj⟩ := bind_tail hj
  obtain ⟨_, hj⟩ := bind_tail hj
  obtain ⟨_, hj⟩ := bind_tail hj
  obtain ⟨_, hj⟩ := bind_tail hj
  exact exactlyOneShape_buildObj _ _ _ _ (by rfl) (by rfl) hj

/-- Shape of GitHubTool.get_user_info under a benign transport. -/
theorem shape_get_user_info (env : GitHubEnv) (hben : benignEnv env)
    (username : JValue) :
    exactlyOneShape ["operation", "username", "user"] ["user"]
      (GitHubTool.get_user_info env username).envelope = true := by
  unfold GitHubTool.get_user_info
  simp only [makeRequest]
  apply shape_guarded _ _ _ _
    (makeRequestRes_benign env hben _ _ _ _) (by decide)
  intro j hj
  obtain ⟨_, hj⟩ := bind_tail hj
  exact exactlyOneShape_buildObj _ _ _ _ (by rfl) (by rfl) hj

/-- Shape of GitHubTool.get_my_repositories under a benign transport. -/
theorem shape_get_my_repositories (env : GitHubEnv) (hben : benignEnv env)
    (repo_type : JValue) (per_page : Int) :
    exactlyOneShape ["operation", "username", "type", "count", "repositories"]
      ["repositories"]
      (GitHubTool.get_my_repositories env repo_type per_page).envelope = true := by
  unfold GitHubTool.get_my_repositories
  cases env.token with
  | none => exact exactlyOneShape_errorField _ _ _ (by decide)
  | some t =>
    cases env.username with
    | none => exact exactlyOneShape_errorField _ _ _ (by decide)
    | some uname =>
      simp only [makeRequest]
      apply shape_guarded _ _ _ _
        (makeRequestRes_benign env hben _ _ _ _) (by decide)
      intro j hj
      obtain ⟨_, hj⟩ := bind_tail hj
      obtain ⟨_, hj⟩ := bind_tail hj
      obtain ⟨_, hj⟩ := bind_tail hj
      exact exactlyOneShape_buildObj _ _ _ _ (by rfl) (by rfl) hj

/-- Shape of GitHubTool.get_authenticated_user_info under a benign transport. -/
theorem shape_get_authenticated_user_info (env : GitHubEnv) (hben : benignEnv env) :
    exactlyOneShape ["operation", "user"] ["user"]
      (GitHubTool.get_authenticated_user_info env).envelope = true := by
  unfold GitHubTool.get_authenticated_user_info
  cases env.token with
  | none => exact exactlyOneShape_errorField _ _ _ (by decide)
  | some t =>
    simp only [makeRequest]
    apply shape_guarded _ _ _ _
      (makeRequestRes_benign env hben _ _ _ _) (by decide)
    intro j hj
    obtain ⟨_, hj⟩ := bind_tail hj
    exact exactlyOneShape_buildObj _ _ _ _ (by rfl) (by rfl) hj

/-- Shape of GitHubTool.get_pull_request_reviews under a benign transport. -/
theorem shape_get_pull_request_reviews (env : GitHubEnv) (hben : benignEnv env)
    (owner repo pull_number : JValue) :
    exactlyOneShape
      ["operation", "owner", "repo", "pull_number", "reviews_count", "reviews"]
      ["reviews"]
      (GitHubTool.get_pull_request_reviews env owner repo pull_number).envelope =
      true := by
  unfold GitHubTool.get_pull_request_reviews
  split
  · exact exactlyOneShape_errorField _ _ _ (by decide)
  split
  · exact exactlyOneShape_errorField _ _ _ (by decide)
  simp only [makeRequest]
  apply shape_guarded2 _ _ _ _
    (makeRequestRes_benign env hben _ _ _ _) (by decide)
  intro j hj
  obtain ⟨_, hj⟩ := bind_tail hj
  obtain ⟨_, hj⟩ := bind_tail hj
  obtain ⟨_, hj⟩ := bind_tail hj
  exact exactlyOneShape_buildObj _ _ _ _ (by rfl) (by rfl) hj

/-- Shape of GitHubTool.create_pull_request_review under a benign transport. -/
theorem shape_create_pull_request_review (env : GitHubEnv) (hben : benignEnv env)
    (owner repo pull_number event body comments : JValue) :
    exactlyOneShape ["operation", "owner", "repo", "pull_number", "review"]
      ["review"]
      (GitHubTool.create_pull_request_review env owner repo pull_number event
        body comments).envelope = true := by
  unfold GitHubTool.create_pull_request_review
  cases env.token with
  | none => exact exactlyOneShape_errorField _ _ _ (by decide)
  | some t =>
    split_ifs
    all_goals try exact exactlyOneShape_errorField _ _ _ (by decide)
    all_goals
      simp only [makeRequest]
      apply shape_guarded2 _ _ _ _
        (makeRequestRes_benign env hben _ _ _ _) (by decide)
      intro j hj
      obtain ⟨_, hj⟩ := bind_tail hj
      exact exactlyOneShape_buildObj _ _ _ _ (by rfl) (by rfl) hj

/-- Shape of GitHubTool.get_pull_request_review_comments under a benign
transport. -/
theorem shape_get_pull_request_review_comments (env : GitHubEnv)
    (hben : benignEnv env) (owner repo pull_number : JValue) :
    exactlyOneShape
      ["operation", "owner", "repo", "pull_number", "comments_count", "comments"]
      ["comments"]
      (GitHubTool.get_pull_request_review_comments env owner repo
        pull_number).envelope = true := by
  unfold GitHubTool.get_pull_request_review_comments
  split
  · exact exactlyOneShape_errorField _ _ _ (by decide)
  split
  · exact exactlyOneShape_errorField _ _ _ (by decide)
  simp only [makeRequest]
  apply shape_guarded2 _ _ _ _
    (makeRequestRes_benign env hben _ _ _ _) (by decide)
  intro j hj
  obtain ⟨_, hj⟩ := bind_tail hj
  obtain ⟨_, hj⟩ := bind_tail hj
  obtain ⟨_, hj⟩ := bind_tail hj
  exact exactlyOneShape_buildObj _ _ _ _ (by rfl) (by rfl) hj

/-- Shape of GitHubTool.create_pull_request_review_comment under a benign
transport. -/
theorem shape_create_pull_request_review_comment (env : GitHubEnv)
    (hben : benignEnv env)
    (owner repo pull_number body commit_id path line side : JValue) :
    exactlyOneShape ["operation", "owner", "repo", "pull_number", "comment"]
      ["comment"]
      (GitHubTool.create_pull_request_review_comment env owner repo pull_number
        body commit_id path line side).envelope = true := by
  unfold GitHubTool.create_pull_request_review_comment
  cases env.token with
  | none => exact exactlyOneShape_errorField _ _ _ (by decide)
  | some t =>
    split_ifs
    all_goals try exact exactlyOneShape_errorField _ _ _ (by decide)
    all_goals
      simp only [makeRequest]
      apply shape_guarded2 _ _ _ _
        (makeRequestRes_benign env hben _ _ _ _) (by decide)
      intro j hj
      obtain ⟨_, hj⟩ := bind_tail hj
      exact exactlyOneShape_buildObj _ _ _ _ (by rfl) (by rfl) hj

/-- Shape of GitHubTool.update_pull_request_review_comment under a benign
transport. -/
theorem shape_update_pull_request_review_comment (env : GitHubEnv)
    (hben : benignEnv env) (owner repo comment_id body : JValue) :
    exactlyOneShape ["operation", "owner", "repo", "comment_id", "comment"]
      ["comment"]
      (GitHubTool.update_pull_request_review_comment env owner repo comment_id
        body).envelope = true := by
  unfold GitHubTool.update_pull_request_review_comment
  cases env.token with
  | none => exact exactlyOneShape_errorField _ _ _ (by decide)
  | some t =>
    split_ifs
    all_goals try exact exactlyOneShape_errorField _ _ _ (by decide)
    all_goals
      simp only [makeRequest]
      apply shape_guarded2 _ _ _ _
        (makeRequestRes_benign env hben _ _ _ _) (by decide)
      intro j hj
      obtain ⟨_, hj⟩ := bind_tail hj
      exact exactlyOneShape_buildObj _ _ _ _ (by rfl) (by rfl) hj

/-- Shape of GitHubTool.delete_pull_request_review_comment under a benign
transport. -/
theorem shape_delete_pull_request_review_comment (env : GitHubEnv)
    (hben : benignEnv env) (owner repo comment_id : JValue) :
    exactlyOneShape
      ["operation", "owner", "repo", "comment_id", "status", "message"]
      ["status", "message"]
      (GitHubTool.delete_pull_request_review_comment env owner repo
        comment_id).envelope = true := by
  unfold GitHubTool.delete_pull_request_review_comment
  cases env.token with
  | none => exact exactlyOneShape_errorField _ _ _ (by decide)
  | some t =>
    split_ifs
    all_goals try exact exactlyOneShape_errorField _ _ _ (by decide)
    all_goals
      simp only [makeRequest]
      apply shape_guarded2 _ _ _ _
        (makeRequestRes_benign env hben _ _ _ _) (by decide)
      intro j hj
      obtain ⟨_, hj⟩ := bind_tail hj
      exact exactlyOneShape_buildObj _ _ _ _ (by rfl) (by rfl) hj

/-- Shape of GitHubTool.get_pull_request_files under a benign transport. -/
theorem shape_get_pull_request_files (env : GitHubEnv) (hben : benignEnv env)
    (owner repo pull_number : JValue) :
    exactlyOneShape
      ["operation", "owner", "repo", "pull_number", "files_count",
       "total_additions", "total_deletions", "total_changes", "files"]
      ["files"]
      (GitHubTool.get_pull_request_files env owner repo pull_number).envelope =
      true := by
  unfold GitHubTool.get_pull_request_files
  split
  · exact exactlyOneShape_errorField _ _ _ (by decide)
  split
  · exact exactlyOneShape_errorField _ _ _ (by decide)
  simp only [makeRequest]
  apply shape_guarded2 _ _ _ _
    (makeRequestRes_benign env hben _ _ _ _) (by decide)
  intro j hj
  obtain ⟨_, hj⟩ := bind_tail hj
  obtain ⟨_, hj⟩ := bind_tail hj
  obtain ⟨_, hj⟩ := bind_tail hj
  obtain ⟨_, hj⟩ := bind_tail hj
  obtain ⟨_, hj⟩ := bind_tail hj
  obtain ⟨_, hj⟩ := bind_tail hj
  exact exactlyOneShape_buildObj _ _ _ _ (by rfl) (by rfl) hj

/-- Shape of the dispatched get_repository_info operation. -/
theorem shape_handle_get_repository_info (env : GitHubEnv) (hben : benignEnv env)
    (args : Args) :
    exactlyOneShape ["operation", "repository", "data"] ["data"]
      (GitHubHandler.handle_get_repository_info env args).envelope = true := by
  simp only [GitHubHandler.handle_get_repository_info]
  split_ifs
  all_goals try exact exactlyOneShape_errorField _ _ _ (by decide)
  all_goals exact shape_get_repository_info env hben _ _

/-- Shape of the dispatched list_repositories operation. -/
theorem shape_handle_list_repositories (env : GitHubEnv) (hben : benignEnv env)
    (args : Args) :
    exactlyOneShape ["operation", "owner", "type", "count", "repositories"]
      ["repositories"]
      (GitHubHandler.handle_list_repositories env args).envelope = true := by
  simp only [GitHubHandler.handle_list_repositories]
  split_ifs
  all_goals try exact exactlyOneShape_errorField _ _ _ (by decide)
  all_goals exact shape_list_repositories env hben _ _ _

/-- Shape of the dispatched get_repository_contents operation. -/
theorem shape_handle_get_repository_contents (env : GitHubEnv)
    (hben : benignEnv env) (args : Args) :
    exactlyOneShape ["operation", "repository", "path", "type"]
      ["contents", "file"]
      (GitHubHandler.handle_get_repository_contents env args).envelope = true := by
  simp only [GitHubHandler.handle_get_repository_contents]
  split_ifs
  all_goals try exact exactlyOneShape_errorField _ _ _ (by decide)
  all_goals exact shape_get_repository_contents env hben _ _ _ _

/-- Shape of the dispatched get_repository_branches operation. -/
theorem shape_handle_get_repository_branches (env : GitHubEnv)
    (hben : benignEnv env) (args : Args) :
    exactlyOneShape ["operation", "repository", "count", "branches"] ["branches"]
      (GitHubHandler.handle_get_repository_branches env args).envelope = true := by
  simp only [GitHubHandler.handle_get_repository_branches]
  split_ifs
  all_goals try exact exactlyOneShape_errorField _ _ _ (by decide)
  all_goals exact shape_get_repository_branches env hben _ _ _

/-- Shape of the dispatched list_issues operation. -/
theorem shape_handle_list_issues (env : GitHubEnv) (hben : benignEnv env)
    (args : Args) :
    exactlyOneShape ["operation", "repository", "state", "count", "issues"]
      ["issues"]
      (GitHubHandler.handle_list_issues env args).envelope = true := by
  simp only [GitHubHandler.handle_list_issues]
  split_ifs
  all_goals try exact exactlyOneShape_errorField _ _ _ (by decide)
  all_goals exact shape_list_issues env hben _ _ _ _ _

/-- Shape of the dispatched create_issue operation. -/
theorem shape_handle_create_issue (env : GitHubEnv) (hben : benignEnv env)
    (args : Args) :
    exactlyOneShape ["operation", "repository", "success", "issue"] ["issue"]
      (GitHubHandler.handle_create_issue env args).envelope = true := by
  simp only [GitHubHandler.handle_create_issue]
  split_ifs
  all_goals try exact exactlyOneShape_errorField _ _ _ (by decide)
  all_goals exact shape_create_issue env hben _ _ _ _ _ _

/-- Shape of the dispatched list_pull_requests operation. -/
theorem shape_handle_list_pull_requests (env : GitHubEnv) (hben : benignEnv env)
    (args : Args) :
    exactlyOneShape ["operation", "repository", "state", "count", "pull_requests"]
      ["pull_requests"]
      (GitHubHandler.handle_list_pull_requests env args).envelope = true := by
  simp only [GitHubHandler.handle_list_pull_requests]
  split_ifs
  all_goals try exact exactlyOneShape_errorField _ _ _ (by decide)
  all_goals exact shape_list_pull_requests env hben _ _ _ _

/-- Shape of the dispatched search_repositories operation. -/
theorem shape_handle_search_repositories (env : GitHubEnv) (hben : benignEnv env)
    (args : Args) :
    exactlyOneShape ["operation", "query", "total_count", "count", "repositories"]
      ["repositories", "total_count"]
      (GitHubHandler.handle_search_repositories env args).envelope = true := by
  simp only [GitHubHandler.handle_search_repositories]
  split_ifs
  all_goals try exact exactlyOneShape_errorField _ _ _ (by decide)
  all_goals exact shape_search_repositories env hben _ _ _ _

/-- Shape of the dispatched get_user_info operation. -/
theorem shape_handle_get_user_info (env : GitHubEnv) (hben : benignEnv env)
    (args : Args) :
    exactlyOneShape ["operation", "username", "user"] ["user"]
      (GitHubHandler.handle_get_user_info env args).envelope = true := by
  simp only [GitHubHandler.handle_get_user_info]
  split_ifs
  all_goals try exact exactlyOneShape_errorField _ _ _ (by decide)
  all_goals exact shape_get_user_info env hben _

/-- Shape of the dispatched get_my_repositories operation. -/
theorem shape_handle_get_my_repositories (env : GitHubEnv) (hben : benignEnv env)
    (args : Args) :
    exactlyOneShape ["operation", "username", "type", "count", "repositories"]
      ["repositories"]
      (GitHubHandler.handle_get_my_repositories env args).envelope = true := by
  simp only [GitHubHandler.handle_get_my_repositories]
  split_ifs
  all_goals try exact exactlyOneShape_errorField _ _ _ (by decide)
  all_goals exact shape_get_my_repositories env hben _ _

/-- Shape of the dispatched get_my_user_info operation. -/
theorem shape_handle_get_my_user_info (env : GitHubEnv) (hben : benignEnv env)
    (args : Args) :
    exactlyOneShape ["operation", "user"] ["user"]
      (GitHubHandler.handle_get_my_user_info env args).envelope = true := by
  simp only [GitHubHandler.handle_get_my_user_info]
  exact shape_get_authenticated_user_info env hben

/-- Shape of the dispatched get_pull_request_reviews operation. -/
theorem shape_handle_get_pull_request_reviews (env : GitHubEnv)
    (hben : benignEnv env) (args : Args) :
    exactlyOneShape
      ["operation", "owner", "repo", "pull_number", "reviews_count", "reviews"]
      ["reviews"]
      (GitHubHandler.handle_get_pull_request_reviews env args).envelope = true := by
  simp only [GitHubHandler.handle_get_pull_request_reviews]
  split_ifs
  all_goals try exact exactlyOneShape_errorField _ _ _ (by decide)
  all_goals exact shape_get_pull_request_reviews env hben _ _ _

/-- Shape of the dispatched create_pull_request_review operation. -/
theorem shape_handle_create_pull_request_review (env : GitHubEnv)
    (hben : benignEnv env) (args : Args) :
    exactlyOneShape ["operation", "owner", "repo", "pull_number", "review"]
      ["review"]
      (GitHubHandler.handle_create_pull_request_review env args).envelope = true := by
  simp only [GitHubHandler.handle_create_pull_request_review]
  split_ifs
  all_goals try exact exactlyOneShape_errorField _ _ _ (by decide)
  all_goals exact shape_create_pull_request_review env hben _ _ _ _ _ _

/-- Shape of the dispatched get_pull_request_review_comments operation. -/
theorem shape_handle_get_pull_request_review_comments (env : GitHubEnv)
    (hben : benignEnv env) (args : Args) :
    exactlyOneShape
      ["operation", "owner", "repo", "pull_number", "comments_count", "comments"]
      ["comments"]
      (GitHubHandler.handle_get_pull_request_review_comments env args).envelope =
      true := by
  simp only [GitHubHandler.handle_get_pull_request_review_comments]
  split_ifs
  all_goals try exact exactlyOneShape_errorField _ _ _ (by decide)
  all_goals exact shape_get_pull_request_review_comments env hben _ _ _

/-- Shape of the dispatched create_pull_request_review_comment operation. -/
theorem shape_handle_create_pull_request_review_comment (env : GitHubEnv)
    (hben : benignEnv env) (args : Args) :
    exactlyOneShape ["operation", "owner", "repo", "pull_number", "comment"]
      ["comment"]
      (GitHubHandler.handle_create_pull_request_review_comment env
        args).envelope = true := by
  simp only [GitHubHandler.handle_create_pull_request_review_comment]
  split_ifs
  all_goals try exact exactlyOneShape_errorField _ _ _ (by decide)
  all_goals exact shape_create_pull_request_review_comment env hben _ _ _ _ _ _ _ _

/-- Shape of the dispatched update_pull_request_review_comment operation. -/
theorem shape_handle_update_pull_request_review_comment (env : GitHubEnv)
    (hben : benignEnv env) (args : Args) :
    exactlyOneShape ["operation", "owner", "repo", "comment_id", "comment"]
      ["comment"]
      (GitHubHandler.handle_update_pull_request_review_comment env
        args).envelope = true := by
  simp only [GitHubHandler.handle_update_pull_request_review_comment]
  split_ifs
  all_goals try exact exactlyOneShape_errorField _ _ _ (by decide)
  all_goals exact shape_update_pull_request_review_comment env hben _ _ _ _

/-- Shape of the dispatched delete_pull_request_review_comment operation. -/
theorem shape_handle_delete_pull_request_review_comment (env : GitHubEnv)
    (hben : benignEnv env) (args : Args) :
    exactlyOneShape
      ["operation", "owner", "repo", "comment_id", "status", "message"]
      ["status", "message"]
      (GitHubHandler.handle_delete_pull_request_review_comment env
        args).envelope = true := by
  simp only [GitHubHandler.handle_delete_pull_request_review_comment]
  split_ifs
  all_goals try exact exactlyOneShape_errorField _ _ _ (by decide)
  all_goals exact shape_delete_pull_request_review_comment env hben _ _ _

/-- Shape of the dispatched get_pull_request_files operation. -/
theorem shape_handle_get_pull_request_files (env : GitHubEnv)
    (hben : benignEnv env) (args : Args) :
    exactlyOneShape
      ["operation", "owner", "repo", "pull_number", "files_count",
       "total_additions", "total_deletions", "total_changes", "files"]
      ["files"]
      (GitHubHandler.handle_get_pull_request_files env args).envelope = true := by
  simp only [GitHubHandler.handle_get_pull_request_files]
  split_ifs
  all_goals try exact exactlyOneShape_errorField _ _ _ (by decide)
  all_goals exact shape_get_pull_request_files env hben _ _ _

/-- Shape of MongoDBTool.find. -/
theorem shape_mongodb_find (env : MongoEnv) (db : MongoDB)
    (collection query limit sort : JValue) :
    exactlyOneShape ["collection", "query", "count", "results"] ["results"]
      (MongoDBTool.find env db collection query limit sort).envelope = true := by
  simp only [MongoDBTool.find]
  split_ifs
  all_goals try exact exactlyOneShape_errorField _ _ _ (by decide)
  all_goals split
  all_goals try exact exactlyOneShape_errorField _ _ _ (by decide)
  all_goals rfl

/-- Shape of the insertCore envelope. -/
theorem shape_insertCore (env : MongoEnv) (db : MongoDB) (collection : JValue)
    (docs : List JValue) :
    exactlyOneShape
      ["collection", "operation", "inserted_count", "inserted_ids", "acknowledged"]
      ["inserted_ids", "inserted_count"]
      (MongoDBTool.insertCore env db collection docs).1 = true := by
  simp only [MongoDBTool.insertCore]
  split
  · exact exactlyOneShape_errorField _ _ _ (by decide)
  · rfl

/-- Shape of MongoDBTool.insert. -/
theorem shape_mongodb_insert (env : MongoEnv) (db : MongoDB)
    (collection documents : JValue) :
    exactlyOneShape
      ["collection", "operation", "inserted_count", "inserted_ids", "acknowledged"]
      ["inserted_ids", "inserted_count"]
      (MongoDBTool.insert env db collection documents).envelope = true := by
  simp only [MongoDBTool.insert]
  split_ifs
  all_goals try exact exactlyOneShape_errorField _ _ _ (by decide)
  all_goals split
  all_goals try exact exactlyOneShape_errorField _ _ _ (by decide)
  · rename_i d htr
    rcases hic : MongoDBTool.insertCore env db collection [.obj d] with
      ⟨envl, db2, cmds, stamped⟩
    have hs := shape_insertCore env db collection [.obj d]
    rw [hic] at hs
    exact hs
  · rename_i ds htr
    rcases hic : MongoDBTool.insertCore env db collection ds with
      ⟨envl, db2, cmds, stamped⟩
    have hs := shape_insertCore env db collection ds
    rw [hic] at hs
    exact hs

/-- Shape of MongoDBTool.update. -/
theorem shape_mongodb_update (env : MongoEnv) (db : MongoDB)
    (collection filter upd : JValue) (upsert : Bool) :
    exactlyOneShape
      ["collection", "operation", "matched_count", "modified_count",
       "upserted_count", "acknowledged"]
      ["matched_count", "modified_count", "upserted_count"]
      (MongoDBTool.update env db collection filter upd upsert).envelope = true := by
  simp only [MongoDBTool.update]
  split_ifs
  all_goals try exact exactlyOneShape_errorField _ _ _ (by decide)
  all_goals split
  all_goals try exact exactlyOneShape_errorField _ _ _ (by decide)
  all_goals rfl

/-- Shape of MongoDBTool.delete. -/
theorem shape_mongodb_delete (env : MongoEnv) (db : MongoDB)
    (collection filter : JValue) :
    exactlyOneShape ["collection", "operation", "deleted_count", "acknowledged"]
      ["deleted_count"]
      (MongoDBTool.delete env db collection filter).envelope = true := by
  simp only [MongoDBTool.delete]
  split_ifs
  all_goals try exact exactlyOneShape_errorField _ _ _ (by decide)
  all_goals rfl

/-- Shape of MongoDBTool.aggregate. -/
theorem shape_mongodb_aggregate (env : MongoEnv) (db : MongoDB)
    (collection pipeline : JValue) :
    exactlyOneShape ["collection", "operation", "pipeline", "count", "results"]
      ["results"]
      (MongoDBTool.aggregate env db collection pipeline).envelope = true := by
  simp only [MongoDBTool.aggregate]
  split_ifs
  all_goals try exact exactlyOneShape_errorField _ _ _ (by decide)
  all_goals rfl

/-- Shape of MongoDBTool.get_collections. -/
theorem shape_mongodb_get_collections (env : MongoEnv) (db : MongoDB) :
    exactlyOneShape ["database", "collections", "count"] ["collections"]
      (MongoDBTool.get_collections env db).envelope = true := by
  rfl

/-- Shape of MongoDBTool.get_collection_stats. -/
theorem shape_mongodb_get_collection_stats (env : MongoEnv) (db : MongoDB)
    (collection : JValue) :
    exactlyOneShape
      ["collection", "count", "size", "storageSize", "avgObjSize", "indexes",
       "indexSizes"]
      ["size", "storageSize", "avgObjSize", "indexes", "indexSizes"]
      (MongoDBTool.get_collection_stats env db collection).envelope = true := by
  simp only [MongoDBTool.get_collection_stats]
  split_ifs
  all_goals try exact exactlyOneShape_errorField _ _ _ (by decide)
  all_goals split
  · rename_i j hj
    exact exactlyOneShape_buildObj _ _ _ _ (by rfl) (by rfl) hj
  · exact exactlyOneShape_errorField _ _ _ (by decide)

/-- Shape of the dispatched mongodb_find operation. -/
theorem shape_handle_mongodb_find (env : MongoEnv) (db : MongoDB) (args : Args) :
    exactlyOneShape ["collection", "query", "count", "results"] ["results"]
      (ToolHandler.handle_mongodb_find env db args).envelope = true := by
  simp only [ToolHandler.handle_mongodb_find]
  split_ifs
  all_goals try exact exactlyOneShape_errorField _ _ _ (by decide)
  all_goals exact shape_mongodb_find env db _ _ _ _

/-- Shape of the dispatched mongodb_insert operation. -/
theorem shape_handle_mongodb_insert (env : MongoEnv) (db : MongoDB) (args : Args) :
    exactlyOneShape
      ["collection", "operation", "inserted_count", "inserted_ids", "acknowledged"]
      ["inserted_ids", "inserted_count"]
      (ToolHandler.handle_mongodb_insert env db args).envelope = true := by
  simp only [ToolHandler.handle_mongodb_insert]
  split_ifs
  all_goals try exact exactlyOneShape_errorField _ _ _ (by decide)
  all_goals exact shape_mongodb_insert env db _ _

/-- Shape of the dispatched mongodb_update operation. -/
theorem shape_handle_mongodb_update (env : MongoEnv) (db : MongoDB) (args : Args) :
    exactlyOneShape
      ["collection", "operation", "matched_count", "modified_count",
       "upserted_count", "acknowledged"]
      ["matched_count", "modified_count", "upserted_count"]
      (ToolHandler.handle_mongodb_update env db args).envelope = true := by
  simp only [ToolHandler.handle_mongodb_update]
  split_ifs
  all_goals try exact exactlyOneShape_errorField _ _ _ (by decide)
  all_goals exact shape_mongodb_update env db _ _ _ _

/-- Shape of the dispatched mongodb_delete operation. -/
theorem shape_handle_mongodb_delete (env : MongoEnv) (db : MongoDB) (args : Args) :
    exactlyOneShape ["collection", "operation", "deleted_count", "acknowledged"]
      ["deleted_count"]
      (ToolHandler.handle_mongodb_delete env db args).envelope = true := by
  simp only [ToolHandler.handle_mongodb_delete]
  split_ifs
  all_goals try exact exactlyOneShape_errorField _ _ _ (by decide)
  all_goals exact shape_mongodb_delete env db _ _

/-- Shape of the dispatched mongodb_aggregate operation. -/
theorem shape_handle_mongodb_aggregate (env : MongoEnv) (db : MongoDB)
    (args : Args) :
    exactlyOneShape ["collection", "operation", "pipeline", "count", "results"]
      ["results"]
      (ToolHandler.handle_mongodb_aggregate env db args).envelope = true := by
  simp only [ToolHandler.handle_mongodb_aggregate]
  split_ifs
  all_goals try exact exactlyOneShape_errorField _ _ _ (by decide)
  all_goals exact shape_mongodb_aggregate env db _ _

/-- Shape of the dispatched mongodb_get_collections operation. -/
theorem shape_handle_mongodb_get_collections (env : MongoEnv) (db : MongoDB)
    (args : Args) :
    exactlyOneShape ["database", "collections", "count"] ["collections"]
      (ToolHandler.handle_mongodb_get_collections env db args).envelope = true := by
  exact shape_mongodb_get_collections env db

/-- Shape of the dispatched mongodb_get_collection_stats operation. -/
theorem shape_handle_mongodb_get_collection_stats (env : MongoEnv) (db : MongoDB)
    (args : Args) :
    exactlyOneShape
      ["collection", "count", "size", "storageSize", "avgObjSize", "indexes",
       "indexSizes"]
      ["size", "storageSize", "avgObjSize", "indexes", "indexSizes"]
      (ToolHandler.handle_mongodb_get_collection_stats env db args).envelope =
      true := by
  simp only [ToolHandler.handle_mongodb_get_collection_stats]
  split_ifs
  all_goals try exact exactlyOneShape_errorField _ _ _ (by decide)
  all_goals exact shape_mongodb_get_collection_stats env db _

/-- Shape of the analyze-repository composite: its envelope is either the
combined literal or the error envelope that names the repository. -/
theorem shape_github_analyze_repository (env : GitHubEnv) (owner repo : String) :
    exactlyOneShape
      ["operation", "repository", "timestamp", "repository_info", "branches",
       "recent_issues", "recent_pull_requests"]
      ["repository_info", "branches", "recent_issues", "recent_pull_requests"]
      (github_analyze_repository env owner repo).envelope = true := by
  simp only [github_analyze_repository, makeRequest]
  split
  · rfl
  · rfl
  · split
    · rfl
    · rfl

/-- Shape of the trending composite, which delegates to the search
operation. -/
theorem shape_github_get_trending_repositories (env : GitHubEnv)
    (hben : benignEnv env) (language : Option String) (since : String)
    (per_page : Int) :
    exactlyOneShape ["operation", "query", "total_count", "count", "repositories"]
      ["repositories", "total_count"]
      (github_get_trending_repositories env language since per_page).envelope =
      true := by
  simp only [github_get_trending_repositories]
  exact shape_search_repositories env hben _ _ _ _

/-- The named success fields of each GitHub tool operation (empty for an
unknown name). -/
def githubSuccFields (name : String) : List String :=
  if name == "github_get_repository_info" then ["operation", "repository", "data"]
  else if name == "github_list_repositories" then ["operation", "owner", "type", "count", "repositories"]
  else if name == "github_get_repository_contents" then ["operation", "repository", "path", "type"]
  else if name == "github_get_repository_branches" then ["operation", "repository", "count", "branches"]
  else if name == "github_list_issues" then ["operation", "repository", "state", "count", "issues"]
  else if name == "github_create_issue" then ["operation", "repository", "success", "issue"]
  else if name == "github_list_pull_requests" then ["operation", "repository", "state", "count", "pull_requests"]
  else if name == "github_get_pull_request_reviews" then ["operation", "owner", "repo", "pull_number", "reviews_count", "reviews"]
  else if name == "github_create_pull_request_review" then ["operation", "owner", "repo", "pull_number", "review"]
  else if name == "github_get_pull_request_review_comments" then ["operation", "owner", "repo", "pull_number", "comments_count", "comments"]
  else if name == "github_create_pull_request_review_comment" then ["operation", "owner", "repo", "pull_number", "comment"]
  else if name == "github_update_pull_request_review_comment" then ["operation", "owner", "repo", "comment_id", "comment"]
  else if name == "github_delete_pull_request_review_comment" then ["operation", "owner", "repo", "comment_id", "status", "message"]
  else if name == "github_get_pull_request_files" then ["operation", "owner", "repo", "pull_number", "files_count", "total_additions", "total_deletions", "total_changes", "files"]
  else if name == "github_search_repositories" then ["operation", "query", "total_count", "count", "repositories"]
  else if name == "github_get_user_info" then ["operation", "username", "user"]
  else if name == "github_get_my_repositories" then ["operation", "username", "type", "count", "repositories"]
  else if name == "github_get_my_user_info" then ["operation", "user"]
  else []

/-- The success data fields of each GitHub tool operation, the fields an
error envelope must not carry. -/
def githubDataFields (name : String) : List String :=
  if name == "github_get_repository_info" then ["data"]
  else if name == "github_list_repositories" then ["repositories"]
  else if name == "github_get_repository_contents" then ["contents", "file"]
  else if name == "github_get_repository_branches" then ["branches"]
  else if name == "github_list_issues" then ["issues"]
  else if name == "github_create_issue" then ["issue"]
  else if name == "github_list_pull_requests" then ["pull_requests"]
  else if name == "github_get_pull_request_reviews" then ["reviews"]
  else if name == "github_create_pull_request_review" then ["review"]
  else if name == "github_get_pull_request_review_comments" then ["comments"]
  else if name == "github_create_pull_request_review_comment" then ["comment"]
  else if name == "github_update_pull_request_review_comment" then ["comment"]
  else if name == "github_delete_pull_request_review_comment" then ["status", "message"]
  else if name == "github_get_pull_request_files" then ["files"]
  else if name == "github_search_repositories" then ["repositories", "total_count"]
  else if name == "github_get_user_info" then ["user"]
  else if name == "github_get_my_repositories" then ["repositories"]
  else if name == "github_get_my_user_info" then ["user"]
  else []

/-- Shape of the whole GitHub dispatch surface: for every tool name (known
or unknown) and argument bag, the response is exactly one of the two
shapes, under a benign transport. -/
theorem shape_github_execute_tool (env : GitHubEnv) (hben : benignEnv env)
    (name : String) (args : Args) :
    exactlyOneShape (githubSuccFields name) (githubDataFields name)
      (GitHubHandler.execute_tool env name args).envelope = true := by
  unfold GitHubHandler.execute_tool githubSuccFields githubDataFields
  by_cases h1 : (name == "github_get_repository_info") = true
  · rw [if_pos h1, if_pos h1, if_pos h1]
    exact shape_handle_get_repository_info env hben args
  rw [if_neg h1, if_neg h1, if_neg h1]
  by_cases h2 : (name == "github_list_repositories") = true
  · rw [if_pos h2, if_pos h2, if_pos h2]
    exact shape_handle_list_repositories env hben args
  rw [if_neg h2, if_neg h2, if_neg h2]
  by_cases h3 : (name == "github_get_repository_contents") = true
  · rw [if_pos h3, if_pos h3, if_pos h3]
    exact shape_handle_get_repository_contents env hben args
  rw [if_neg h3, if_neg h3, if_neg h3]
  by_cases h4 : (name == "github_get_repository_branches") = true
  · rw [if_pos h4, if_pos h4, if_pos h4]
    exact shape_handle_get_repository_branches env hben args
  rw [if_neg h4, if_neg h4, if_neg h4]
  by_cases h5 : (name == "github_list_issues") = true
  · rw [if_pos h5, if_pos h5, if_pos h5]
    exact shape_handle_list_issues env hben args
  rw [if_neg h5, if_neg h5, if_neg h5]
  by_cases h6 : (name == "github_create_issue") = true
  · rw [if_pos h6, if_pos h6, if_pos h6]
    exact shape_handle_create_issue env hben args
  rw [if_neg h6, if_neg h6, if_neg h6]
  by_cases h7 : (name == "github_list_pull_requests") = true
  · rw [if_pos h7, if_pos h7, if_pos h7]
    exact shape_handle_list_pull_requests env hben args
  rw [if_neg h7, if_neg h7, if_neg h7]
  by_cases h8 : (name == "github_get_pull_request_reviews") = true
  · rw [if_pos h8, if_pos h8, if_pos h8]
    exact shape_handle_get_pull_request_reviews env hben args
  rw [if_neg h8, if_neg h8, if_neg h8]
  by_cases h9 : (name == "github_create_pull_request_review") = true
  · rw [if_pos h9, if_pos h9, if_pos h9]
    exact shape_handle_create_pull_request_review env hben args
  rw [if_neg h9, if_neg h9, if_neg h9]
  by_cases h10 : (name == "github_get_pull_request_review_comments") = true
  · rw [if_pos h10, if_pos h10, if_pos h10]
    exact shape_handle_get_pull_request_review_comments env hben args
  rw [if_neg h10, if_neg h10, if_neg h10]
  by_cases h11 : (name == "github_create_pull_request_review_comment") = true
  · rw [if_pos h11, if_pos h11, if_pos h11]
    exact shape_handle_create_pull_request_review_comment env hben args
  rw [if_neg h11, if_neg h11, if_neg h11]
  by_cases h12 : (name == "github_update_pull_request_review_comment") = true
  · rw [if_pos h12, if_pos h12, if_pos h12]
    exact shape_handle_update_pull_request_review_comment env hben args
  rw [if_neg h12, if_neg h12, if_neg h12]
  by_cases h13 : (name == "github_delete_pull_request_review_comment") = true
  · rw [if_pos h13, if_pos h13, if_pos h13]
    exact shape_handle_delete_pull_request_review_comment env hben args
  rw [if_neg h13, if_neg h13, if_neg h13]
  by_cases h14 : (name == "github_get_pull_request_files") = true
  · rw [if_pos h14, if_pos h14, if_pos h14]
    exact shape_handle_get_pull_request_files env hben args
  rw [if_neg h14, if_neg h14, if_neg h14]
  by_cases h15 : (name == "github_search_repositories") = true
  · rw [if_pos h15, if_pos h15, if_pos h15]
    exact shape_handle_search_repositories env hben args
  rw [if_neg h15, if_neg h15, if_neg h15]
  by_cases h16 : (name == "github_get_user_info") = true
  · rw [if_pos h16, if_pos h16, if_pos h16]
    exact shape_handle_get_user_info env hben args
  rw [if_neg h16, if_neg h16, if_neg h16]
  by_cases h17 : (name == "github_get_my_repositories") = true
  · rw [if_pos h17, if_pos h17, if_pos h17]
    exact shape_handle_get_my_repositories env hben args
  rw [if_neg h17, if_neg h17, if_neg h17]
  by_cases h18 : (name == "github_get_my_user_info") = true
  · rw [if_pos h18, if_pos h18, if_pos h18]
    exact shape_handle_get_my_user_info env hben args
  rw [if_neg h18, if_neg h18, if_neg h18]
  rfl

/-- The named success fields of each MongoDB tool operation (empty for an
unknown name). -/
def mongoSuccFields (name : String) : List String :=
  if name == "mongodb_find" then ["collection", "query", "count", "results"]
  else if name == "mongodb_insert" then ["collection", "operation", "inserted_count", "inserted_ids", "acknowledged"]
  else if name == "mongodb_update" then ["collection", "operation", "matched_count", "modified_count", "upserted_count", "acknowledged"]
  else if name == "mongodb_delete" then ["collection", "operation", "deleted_count", "acknowledged"]
  else if name == "mongodb_aggregate" then ["collection", "operation", "pipeline", "count", "results"]
  else if name == "mongodb_get_collections" then ["database", "collections", "count"]
  else if name == "mongodb_get_collection_stats" then ["collection", "count", "size", "storageSize", "avgObjSize", "indexes", "indexSizes"]
  else []

/-- The success data fields of each MongoDB tool operation. -/
def mongoDataFields (name : String) : List String :=
  if name == "mongodb_find" then ["results"]
  else if name == "mongodb_insert" then ["inserted_ids", "inserted_count"]
  else if name == "mongodb_update" then ["matched_count", "modified_count", "upserted_count"]
  else if name == "mongodb_delete" then ["deleted_count"]
  else if name == "mongodb_aggregate" then ["results"]
  else if name == "mongodb_get_collections" then ["collections"]
  else if name == "mongodb_get_collection_stats" then ["size", "storageSize", "avgObjSize", "indexes", "indexSizes"]
  else []

/-- Shape of the whole MongoDB dispatch surface: for every tool name (known
or unknown) and argument bag, the response is exactly one of the two
shapes. -/
theorem shape_mongo_execute_tool (env : MongoEnv) (db : MongoDB)
    (name : String) (args : Args) :
    exactlyOneShape (mongoSuccFields name) (mongoDataFields name)
      (ToolHandler.execute_tool env db name args).envelope = true := by
  unfold ToolHandler.execute_tool mongoSuccFields mongoDataFields
  by_cases h1 : (name == "mongodb_find") = true
  · rw [if_pos h1, if_pos h1, if_pos h1]
    exact shape_handle_mongodb_find env db args
  rw [if_neg h1, if_neg h1, if_neg h1]
  by_cases h2 : (name == "mongodb_insert") = true
  · rw [if_pos h2, if_pos h2, if_pos h2]
    exact shape_handle_mongodb_insert env db args
  rw [if_neg h2, if_neg h2, if_neg h2]
  by_cases h3 : (name == "mongodb_update") = true
  · rw [if_pos h3, if_pos h3, if_pos h3]
    exact shape_handle_mongodb_update env db args
  rw [if_neg h3, if_neg h3, if_neg h3]
  by_cases h4 : (name == "mongodb_delete") = true
  · rw [if_pos h4, if_pos h4, if_pos h4]
    exact shape_handle_mongodb_delete env db args
  rw [if_neg h4, if_neg h4, if_neg h4]
  by_cases h5 : (name == "mongodb_aggregate") = true
  · rw [if_pos h5, if_pos h5, if_pos h5]
    exact shape_handle_mongodb_aggregate env db args
  rw [if_neg h5, if_neg h5, if_neg h5]
  by_cases h6 : (name == "mongodb_get_collections") = true
  · rw [if_pos h6, if_pos h6, if_pos h6]
    exact shape_handle_mongodb_get_collections env db args
  rw [if_neg h6, if_neg h6, if_neg h6]
  by_cases h7 : (name == "mongodb_get_collection_stats") = true
  · rw [if_pos h7, if_pos h7, if_pos h7]
    exact shape_handle_mongodb_get_collection_stats env db args
  rw [if_neg h7, if_neg h7, if_neg h7]
  rfl

/-- A benign concrete environment for witnesses: a configured token and
username, a transport answering 200 with empty content everywhere. -/
def witnessGithubEnv : GitHubEnv :=
  { token := some "t"
    username := some "u"
    oracle := fun _ => .status 200 .empty
    b64decode := fun _ => none
    dateStr := fun _ => "2024-01-01" }

/-- A concrete MongoDB environment for witnesses. -/
def witnessMongoEnv : MongoEnv :=
  { databaseName := "mcp_database"
    now := 0
    oidSupply := fun n => toString n
    aggEngine := fun _ _ _ => []
    collStatsDoc := fun _ => .obj [] }

/-- C1, amended: for every dispatched tool operation of both integrations
(including unknown tool names and arbitrary argument bags) and for the two
composites, the returned envelope is exactly one of success-shaped or
error-shaped, provided every sub-400 upstream JSON body is free of a
top-level error member.  (As stated the claim is false: the source echoes a
2xx body containing an error key verbatim, so such a body can mix both
shapes; see the counterexample.) -/
theorem claim_C1_envelope_shape_dichotomy (genv : GitHubEnv)
    (hben : benignEnv genv) :
    (∀ (name : String) (args : Args),
      exactlyOneShape (githubSuccFields name) (githubDataFields name)
        (GitHubHandler.execute_tool genv name args).envelope = true) ∧
    (∀ (owner repo : String),
      exactlyOneShape
        ["operation", "repository", "timestamp", "repository_info", "branches",
         "recent_issues", "recent_pull_requests"]
        ["repository_info", "branches", "recent_issues", "recent_pull_requests"]
        (github_analyze_repository genv owner repo).envelope = true) ∧
    (∀ (language : Option String) (since : String) (per_page : Int),
      exactlyOneShape
        ["operation", "query", "total_count", "count", "repositories"]
        ["repositories", "total_count"]
        (github_get_trending_repositories genv language since
          per_page).envelope = true) ∧
    (∀ (menv : MongoEnv) (db : MongoDB) (name : String) (args : Args),
      exactlyOneShape (mongoSuccFields name) (mongoDataFields name)
        (ToolHandler.execute_tool menv db name args).envelope = true) := by
  refine ⟨?_, ?_, ?_, ?_⟩
  · intro name args
    exact shape_github_execute_tool genv hben name args
  · intro owner repo
    exact shape_github_analyze_repository genv owner repo
  · intro language since per_page
    exact shape_github_get_trending_repositories genv hben language since per_page
  · intro menv db name args
    exact shape_mongo_execute_tool menv db name args

/-- Witness for C1: the benignness hypothesis holds of the concrete
environment, and the theorem yields the dichotomy at concrete calls of both
dispatchers. -/
theorem claim_C1_envelope_shape_dichotomy_witness :
    benignEnv witnessGithubEnv ∧
    exactlyOneShape (githubSuccFields "github_get_repository_info")
      (githubDataFields "github_get_repository_info")
      (GitHubHandler.execute_tool witnessGithubEnv "github_get_repository_info"
        [("owner", .str "a"), ("repo", .str "b")]).envelope = true ∧
    exactlyOneShape (mongoSuccFields "mongodb_find")
      (mongoDataFields "mongodb_find")
      (ToolHandler.execute_tool witnessMongoEnv [] "mongodb_find"
        [("collection", .str "c")]).envelope = true := by
  have hben : benignEnv witnessGithubEnv := fun _ => rfl
  refine ⟨hben, ?_, ?_⟩
  · exact (claim_C1_envelope_shape_dichotomy witnessGithubEnv hben).1
      "github_get_repository_info" [("owner", .str "a"), ("repo", .str "b")]
  · exact (claim_C1_envelope_shape_dichotomy witnessGithubEnv hben).2.2.2
      witnessMongoEnv [] "mongodb_find" [("collection", .str "c")]

/-- A transport whose 200 response body is a JSON object carrying both an
error key and a data key: the case the source echoes verbatim. -/
def hybridEnv : GitHubEnv :=
  { token := none
    username := none
    oracle := fun _ =>
      .status 200 (.json (.obj [("error", .str "boom"), ("data", .num 1)]))
    b64decode := fun _ => none
    dateStr := fun _ => "2024-01-01" }

/-- Counterexample to C1 as stated: when a 200 upstream body itself carries
an error key next to a data field, get_repository_info returns that body
verbatim, an envelope holding both the error key and the data success
field, hence neither purely error-shaped nor success-shaped. -/
theorem claim_C1_counterexample :
    (GitHubHandler.execute_tool hybridEnv "github_get_repository_info"
      [("owner", .str "a"), ("repo", .str "b")]).envelope.hasKeyTop "error" =
        true ∧
    (GitHubHandler.execute_tool hybridEnv "github_get_repository_info"
      [("owner", .str "a"), ("repo", .str "b")]).envelope.hasKeyTop "data" =
        true ∧
    exactlyOneShape (githubSuccFields "github_get_repository_info")
      (githubDataFields "github_get_repository_info")
      (GitHubHandler.execute_tool hybridEnv "github_get_repository_info"
        [("owner", .str "a"), ("repo", .str "b")]).envelope = false :=
  ⟨rfl, rfl, rfl⟩

/-! ## Claim C2: pagination validation and clamping -/

/-- The six paginated operations of the claim. -/
def paginatedTools : List String := [
  "github_list_repositories", "github_get_repository_branches",
  "github_list_issues", "github_list_pull_requests",
  "github_search_repositories", "github_get_my_repositories"]

/-- A per_page argument outside the accepted range: not an integer, or an
integer below 1 or above 100 (30 being the default for a missing one). -/
def perPageBad (args : Args) : Prop :=
  match argsGetD args "per_page" (.num 30) with
  | .num n => n < 1 ∨ 100 < n
  | _ => True

/-- The per-page value carried by the query parameters of the single
request a tool call issued. -/
def sentPerPage (r : GhResult) : Option JValue :=
  match r.requests with
  | [req] =>
    match req.params with
    | some p => JValue.lookupTop p "per_page"
    | _ => none
  | _ => none

theorem perPageOk_false (args : Args) (hbad : perPageBad args) :
    GitHubHandler.perPageOk (argsGetD args "per_page" (.num 30)) = false := by
  unfold perPageBad at hbad
  unfold GitHubHandler.perPageOk
  cases h : argsGetD args "per_page" (.num 30) with
  | num n =>
    rw [h] at hbad
    rcases hbad with h1 | h1
    · have hd : (decide (1 ≤ n)) = false := decide_eq_false (by omega)
      simp [hd]
    · have hd : (decide (n ≤ 100)) = false := decide_eq_false (by omega)
      simp [hd]
  | null => rfl
  | bool b => rfl
  | str s => rfl
  | arr xs => rfl
  | obj fs => rfl
  | oid h => rfl
  | date t => rfl

/-- C2, amended: through the dispatch layer, a per-page value outside
[1, 100] is rejected with an error envelope and no request is issued, for
each of the six paginated operations; the tool layer itself, however, only
caps the sent per-page count above at 100 via min, so a value below 1
reaching a tool directly is sent upstream unchanged (see the
counterexample). -/
theorem claim_C2_pagination_validated_and_capped (genv : GitHubEnv) :
    (∀ (name : String) (args : Args), name ∈ paginatedTools → perPageBad args →
      (GitHubHandler.execute_tool genv name args).envelope.hasKeyTop "error" =
        true ∧
      (GitHubHandler.execute_tool genv name args).requests = []) ∧
    (∀ (owner repo_type : JValue) (pp : Int),
      sentPerPage (GitHubTool.list_repositories genv owner repo_type pp) =
        some (.num (min pp 100))) ∧
    (∀ (owner repo : JValue) (pp : Int),
      sentPerPage (GitHubTool.get_repository_branches genv owner repo pp) =
        some (.num (min pp 100))) ∧
    (∀ (owner repo state labels : JValue) (pp : Int),
      sentPerPage (GitHubTool.list_issues genv owner repo state labels pp) =
        some (.num (min pp 100))) ∧
    (∀ (owner repo state : JValue) (pp : Int),
      sentPerPage (GitHubTool.list_pull_requests genv owner repo state pp) =
        some (.num (min pp 100))) ∧
    (∀ (query sort order : JValue) (pp : Int),
      sentPerPage (GitHubTool.search_repositories genv query sort order pp) =
        some (.num (min pp 100))) ∧
    (∀ (repo_type : JValue) (pp : Int) (tk un : String),
      genv.token = some tk → genv.username = some un →
      sentPerPage (GitHubTool.get_my_repositories genv repo_type pp) =
        some (.num (min pp 100))) := by
  refine ⟨?_, ?_, ?_, ?_, ?_, ?_, ?_⟩
  · intro name args hmem hbad
    have hpp := perPageOk_false args hbad
    simp only [paginatedTools, List.mem_cons, List.mem_singleton] at hmem
    rcases hmem with rfl | rfl | rfl | rfl | rfl | rfl | hmem
    · show (GitHubHandler.handle_list_repositories genv args).envelope.hasKeyTop
        "error" = true ∧
        (GitHubHandler.handle_list_repositories genv args).requests = []
      simp only [GitHubHandler.handle_list_repositories]
      split_ifs with h1 h2 h3
      · exact ⟨rfl, rfl⟩
      · exact ⟨rfl, rfl⟩
      · exact ⟨rfl, rfl⟩
      · rw [hpp] at h3
        exact absurd rfl h3
    · show (GitHubHandler.handle_get_repository_branches genv
        args).envelope.hasKeyTop "error" = true ∧
        (GitHubHandler.handle_get_repository_branches genv args).requests = []
      simp only [GitHubHandler.handle_get_repository_branches]
      split_ifs with h1 h2 h3
      · exact ⟨rfl, rfl⟩
      · exact ⟨rfl, rfl⟩
      · exact ⟨rfl, rfl⟩
      · rw [hpp] at h3
        exact absurd rfl h3
    · show (GitHubHandler.handle_list_issues genv args).envelope.hasKeyTop
        "error" = true ∧
        (GitHubHandler.handle_list_issues genv args).requests = []
      simp only [GitHubHandler.handle_list_issues]
      split_ifs with h1 h2 h3 h4
      · exact ⟨rfl, rfl⟩
      · exact ⟨rfl, rfl⟩
      · exact ⟨rfl, rfl⟩
      · exact ⟨rfl, rfl⟩
      · rw [hpp] at h4
        exact absurd rfl h4
    · show (GitHubHandler.handle_list_pull_requests genv
        args).envelope.hasKeyTop "error" = true ∧
        (GitHubHandler.handle_list_pull_requests genv args).requests = []
      simp only [GitHubHandler.handle_list_pull_requests]
      split_ifs with h1 h2 h3 h4
      · exact ⟨rfl, rfl⟩
      · exact ⟨rfl, rfl⟩
      · exact ⟨rfl, rfl⟩
      · exact ⟨rfl, rfl⟩
      · rw [hpp] at h4
        exact absurd rfl h4
    · show (GitHubHandler.handle_search_repositories genv
        args).envelope.hasKeyTop "error" = true ∧
        (GitHubHandler.handle_search_repositories genv args).requests = []
      simp only [GitHubHandler.handle_search_repositories]
      split_ifs with h1 h2 h3 h4
      · exact ⟨rfl, rfl⟩
      · exact ⟨rfl, rfl⟩
      · exact ⟨rfl, rfl⟩
      · exact ⟨rfl, rfl⟩
      · rw [hpp] at h4
        exact absurd rfl h4
    · show (GitHubHandler.handle_get_my_repositories genv
        args).envelope.hasKeyTop "error" = true ∧
        (GitHubHandler.handle_get_my_repositories genv args).requests = []
      simp only [GitHubHandler.handle_get_my_repositories]
      split_ifs with h1 h2
      · exact ⟨rfl, rfl⟩
      · exact ⟨rfl, rfl⟩
      · rw [hpp] at h2
        exact absurd rfl h2
    · exact absurd hmem (by simp)
  · intro owner repo_type pp
    rfl
  · intro owner repo pp
    rfl
  · intro owner repo state labels pp
    simp only [GitHubTool.list_issues, makeRequest, GitHubTool.issuesParams]
    split
    · rfl
    · rfl
  · intro owner repo state pp
    rfl
  · intro query sort order pp
    rfl
  · intro repo_type pp tk un htk hun
    unfold GitHubTool.get_my_repositories
    rw [htk, hun]
    rfl

/-- Witness for C2: a per-page of 0 through the dispatch layer is rejected
with no request, and a per-page of 130 at the tool layer is capped to 100. -/
theorem claim_C2_pagination_validated_and_capped_witness :
    ("github_list_repositories" ∈ paginatedTools ∧
      perPageBad [("owner", .str "a"), ("per_page", .num 0)]) ∧
    (GitHubHandler.execute_tool witnessGithubEnv "github_list_repositories"
      [("owner", .str "a"), ("per_page", .num 0)]).envelope.hasKeyTop "error" =
      true ∧
    (GitHubHandler.execute_tool witnessGithubEnv "github_list_repositories"
      [("owner", .str "a"), ("per_page", .num 0)]).requests = [] ∧
    sentPerPage (GitHubTool.list_repositories witnessGithubEnv (.str "a")
      (.str "all") 130) = some (.num 100) := by
  have h := claim_C2_pagination_validated_and_capped witnessGithubEnv
  have h1 := h.1 "github_list_repositories"
    [("owner", .str "a"), ("per_page", .num 0)] (by decide)
    (by unfold perPageBad; exact Or.inl (by decide))
  exact ⟨⟨by decide, by unfold perPageBad; exact Or.inl (by decide)⟩,
    h1.1, h1.2, h.2.1 (.str "a") (.str "all") 130⟩

/-- A transport answering every request with 200 and an empty JSON array
(the well-formed empty listing). -/
def emptyListEnv : GitHubEnv :=
  { token := none
    username := none
    oracle := fun _ => .status 200 (.json (.arr []))
    b64decode := fun _ => none
    dateStr := fun _ => "2024-01-01" }

/-- Counterexample to C2 as stated: invoked through the FastMCP endpoint
(which performs no validation), a per-page of 0 is neither rejected before
the network call nor clamped into [1, 100]: exactly one request is issued,
it carries per_page 0, and the envelope is a success. -/
theorem claim_C2_counterexample :
    (github_list_repositories_server emptyListEnv "octocat" "all" 0).requests.length
      = 1 ∧
    sentPerPage (github_list_repositories_server emptyListEnv "octocat" "all" 0) =
      some (.num 0) ∧
    (github_list_repositories_server emptyListEnv "octocat" "all"
      0).envelope.hasKeyTop "error" = false :=
  ⟨rfl, rfl, rfl⟩

/-! ## Claim C3: write operations without a credential -/

/-- An environment with no configured token (and an arbitrary transport,
whose behavior is irrelevant because no request may be sent). -/
def noTokenEnv : GitHubEnv :=
  { token := none
    username := none
    oracle := fun _ => .status 200 .empty
    b64decode := fun _ => none
    dateStr := fun _ => "2024-01-01" }

/-- C3: each of the five write operations (create issue, create review,
create review comment, update review comment, delete review comment)
invoked with no configured token returns the authorization error envelope
and issues zero HTTP requests, whatever its arguments and whatever the
transport would have answered. -/
theorem claim_C3_write_without_token_no_network (genv : GitHubEnv)
    (hnt : genv.token = none) :
    (∀ owner repo title body labels assignees,
      GitHubTool.create_issue genv owner repo title body labels assignees =
        { envelope := errObj "GitHub token required for creating issues"
          requests := [] }) ∧
    (∀ owner repo pull_number event body comments,
      GitHubTool.create_pull_request_review genv owner repo pull_number event
        body comments =
        { envelope := errObj "GitHub token required for creating reviews"
          requests := [] }) ∧
    (∀ owner repo pull_number body commit_id path line side,
      GitHubTool.create_pull_request_review_comment genv owner repo pull_number
        body commit_id path line side =
        { envelope := errObj "GitHub token required for creating review comments"
          requests := [] }) ∧
    (∀ owner repo comment_id body,
      GitHubTool.update_pull_request_review_comment genv owner repo comment_id
        body =
        { envelope := errObj "GitHub token required for updating review comments"
          requests := [] }) ∧
    (∀ owner repo comment_id,
      GitHubTool.delete_pull_request_review_comment genv owner repo comment_id =
        { envelope := errObj "GitHub token required for deleting review comments"
          requests := [] }) := by
  refine ⟨?_, ?_, ?_, ?_, ?_⟩
  · intro owner repo title body labels assignees
    unfold GitHubTool.create_issue
    rw [hnt]
  · intro owner repo pull_number event body comments
    unfold GitHubTool.create_pull_request_review
    rw [hnt]
  · intro owner repo pull_number body commit_id path line side
    unfold GitHubTool.create_pull_request_review_comment
    rw [hnt]
  · intro owner repo comment_id body
    unfold GitHubTool.update_pull_request_review_comment
    rw [hnt]
  · intro owner repo comment_id
    unfold GitHubTool.delete_pull_request_review_comment
    rw [hnt]

/-- Witness for C3: the five write operations at concrete arguments under
the concrete no-token environment. -/
theorem claim_C3_write_without_token_no_network_witness :
    noTokenEnv.token = none ∧
    GitHubTool.create_issue noTokenEnv (.str "a") (.str "b") (.str "t") .null
      .null .null =
      { envelope := errObj "GitHub token required for creating issues"
        requests := [] } ∧
    GitHubTool.create_pull_request_review noTokenEnv (.str "a") (.str "b")
      (.num 1) (.str "COMMENT") .null .null =
      { envelope := errObj "GitHub token required for creating reviews"
        requests := [] } ∧
    GitHubTool.create_pull_request_review_comment noTokenEnv (.str "a")
      (.str "b") (.num 1) (.str "c") (.str "sha") (.str "p") .null
      (.str "RIGHT") =
      { envelope := errObj "GitHub token required for creating review comments"
        requests := [] } ∧
    GitHubTool.update_pull_request_review_comment noTokenEnv (.str "a")
      (.str "b") (.num 1) (.str "c") =
      { envelope := errObj "GitHub token required for updating review comments"
        requests := [] } ∧
    GitHubTool.delete_pull_request_review_comment noTokenEnv (.str "a")
      (.str "b") (.num 1) =
      { envelope := errObj "GitHub token required for deleting review comments"
        requests := [] } := by
  have h := claim_C3_write_without_token_no_network noTokenEnv rfl
  exact ⟨rfl, h.1 _ _ _ _ _ _, h.2.1 _ _ _ _ _ _, h.2.2.1 _ _ _ _ _ _ _ _,
    h.2.2.2.1 _ _ _ _, h.2.2.2.2 _ _ _⟩

/-! ## Claim C5: the analyze-repository composite -/

/-- The four sub-operation requests of the composite followed by the root
probe, in program order. -/
def analyzeBaseRequests (genv : GitHubEnv) (owner repo : String) :
    List HttpRequest :=
  [ghRequest genv "GET" ("repos/" ++ owner ++ "/" ++ repo) none none,
   ghRequest genv "GET" ("repos/" ++ owner ++ "/" ++ repo ++ "/branches") none
     (some (.obj [("per_page", .num 10)])),
   ghRequest genv "GET" ("repos/" ++ owner ++ "/" ++ repo ++ "/issues") none
     (some (.obj [("state", .str "all"), ("per_page", .num 10),
       ("sort", .str "updated")])),
   ghRequest genv "GET" ("repos/" ++ owner ++ "/" ++ repo ++ "/pulls") none
     (some (.obj [("state", .str "all"), ("per_page", .num 10),
       ("sort", .str "updated")])),
   ghRequest genv "GET" "" none none]

/-- C5, amended: the composite issues the four sub-operation requests in
fixed order, then one root-endpoint probe, and a second root request
exactly when the probed body carries a timestamp member - five or six
upstream requests, never four.  When the timestamp probing raises, the
envelope is a single error envelope naming the repository with no payload
fields; otherwise the envelope merges the parsed payloads of the four
sub-operations (error payloads included - a failed sub-operation does not
abort the merge). -/
theorem claim_C5_analyze_repository_composite (genv : GitHubEnv)
    (owner repo : String) :
    ((github_analyze_repository genv owner repo).requests =
        analyzeBaseRequests genv owner repo ∨
      (github_analyze_repository genv owner repo).requests =
        analyzeBaseRequests genv owner repo ++ [ghRequest genv "GET" "" none none]) ∧
    ((github_analyze_repository genv owner repo).envelope.hasKeyTop "error" =
        true →
      ∃ m, (github_analyze_repository genv owner repo).envelope =
        .obj [("error", .str m), ("repository", .str (owner ++ "/" ++ repo))]) ∧
    ((github_analyze_repository genv owner repo).envelope.hasKeyTop "error" =
        false →
      ∃ ts, (github_analyze_repository genv owner repo).envelope =
        .obj [("operation", .str "analyze_repository"),
          ("repository", .str (owner ++ "/" ++ repo)),
          ("timestamp", ts),
          ("repository_info",
            (GitHubTool.get_repository_info genv (.str owner) (.str repo)).envelope),
          ("branches",
            (GitHubTool.get_repository_branches genv (.str owner) (.str repo)
              10).envelope),
          ("recent_issues",
            (GitHubTool.list_issues genv (.str owner) (.str repo) (.str "all")
              .null 10).envelope),
          ("recent_pull_requests",
            (GitHubTool.list_pull_requests genv (.str owner) (.str repo)
              (.str "all") 10).envelope)]) := by
  simp only [github_analyze_repository, makeRequest]
  split
  · refine ⟨Or.inl rfl, ?_, ?_⟩
    · intro _
      exact ⟨_, rfl⟩
    · intro h
      exact nomatch h
  · refine ⟨Or.inl rfl, ?_, ?_⟩
    · intro h
      exact nomatch h
    · intro _
      exact ⟨.null, rfl⟩
  · split
    · refine ⟨Or.inr rfl, ?_, ?_⟩
      · intro _
        exact ⟨_, rfl⟩
      · intro h
        exact nomatch h
    · rename_i ts _
      refine ⟨Or.inr rfl, ?_, ?_⟩
      · intro h
        exact nomatch h
      · intro _
        exact ⟨ts, rfl⟩

/-- A transport answering every request with a 200 JSON number body, which
makes the timestamp probing raise a TypeError inside the composite. -/
def numBodyEnv : GitHubEnv :=
  { token := none
    username := none
    oracle := fun _ => .status 200 (.json (.num 5))
    b64decode := fun _ => none
    dateStr := fun _ => "2024-01-01" }

/-- Witness for C5: a probing failure yields the single error envelope
naming the repository. -/
theorem claim_C5_analyze_repository_composite_witness :
    (github_analyze_repository numBodyEnv "a" "b").envelope.hasKeyTop "error" =
      true ∧
    ∃ m, (github_analyze_repository numBodyEnv "a" "b").envelope =
      .obj [("error", .str m), ("repository", .str "a/b")] := by
  have h := (claim_C5_analyze_repository_composite numBodyEnv "a" "b").2.1
  exact ⟨rfl, h rfl⟩

/-- Counterexample to C5 as stated: against a benign transport with no
timestamp member in the root body, the composite performs five upstream
requests, not exactly four. -/
theorem claim_C5_counterexample :
    (github_analyze_repository emptyListEnv "a" "b").requests.length = 5 ∧
    (github_analyze_repository emptyListEnv "a" "b").requests.length ≠ 4 :=
  ⟨rfl, by decide⟩

/-! ## Claim C6: the update operation -/

theorem lookupField_setKey (l : List (String × JValue)) (k : String) (v : JValue) :
    JValue.lookupField (JValue.setKey l k v) k = some v := by
  induction l with
  | nil => simp [JValue.setKey, JValue.lookupField]
  | cons p rest ih =>
    obtain ⟨k1, v1⟩ := p
    by_cases h : (k1 == k) = true
    · simp [JValue.setKey, h, JValue.lookupField]
    · simp only [JValue.setKey, h]
      simp only [Bool.false_eq_true, if_false]
      simp [JValue.lookupField, h, ih]

/-- C6, amended: the emptiness rejection holds only at the ToolHandler
dispatch layer: (1) dispatched through ToolHandler, an update whose filter
or whose update document is the empty mapping is rejected with an error
envelope and no database command; (2) when the tool does execute, the
issued command is an update_many whose update document carries updated_at
with the current timestamp inside its set clause, applied to every matching
document of the collection (not just the first); (3) MongoDBTool.update
itself only type-checks, so through the FastMCP endpoint mongodb_update
(which forwards with no validation) an empty filter mapping is not
rejected: it returns a success envelope, issues an update_many command, and
rewrites every document of the collection.  (As stated the claim is false;
see the counterexample.) -/
theorem claim_C6_update_validation_and_semantics (menv : MongoEnv)
    (db : MongoDB) :
    (∀ args : Args,
      (argsGet args "filter" = .obj [] ∨ argsGet args "update" = .obj []) →
      (ToolHandler.execute_tool menv db "mongodb_update" args).envelope.hasKeyTop
        "error" = true ∧
      (ToolHandler.execute_tool menv db "mongodb_update" args).commands = []) ∧
    (∀ (c : String) (_hc : c ≠ "") (qf uFields setFs : List (String × JValue))
      (upsert : Bool)
      (_hset : (JValue.lookupField uFields "$set").getD (.obj []) = .obj setFs),
      (MongoDBTool.update menv db (.str c) (.obj qf) (.obj uFields)
          upsert).commands =
        [.updateMany c (.obj qf)
          (.obj (JValue.setKey uFields "$set"
            (.obj (JValue.setKey setFs "updated_at" (.date menv.now)))))
          upsert] ∧
      JValue.lookupField (JValue.setKey setFs "updated_at" (.date menv.now))
        "updated_at" = some (.date menv.now) ∧
      (upsert = false →
        (MongoDBTool.update menv db (.str c) (.obj qf) (.obj uFields)
            upsert).db =
          dbSetColl db c ((collDocs db c).map (fun d =>
            if matchFilter qf d then
              applySet (JValue.setKey setFs "updated_at" (.date menv.now)) d
            else d)))) ∧
    (∀ (c : String) (_hc : c ≠ "") (uFields setFs : List (String × JValue))
      (_hset : (JValue.lookupField uFields "$set").getD (.obj []) =
        .obj setFs),
      (mongodb_update_server menv db c (.obj []) (.obj uFields)
          false).envelope.hasKeyTop "error" = false ∧
      (mongodb_update_server menv db c (.obj []) (.obj uFields)
          false).commands =
        [.updateMany c (.obj [])
          (.obj (JValue.setKey uFields "$set"
            (.obj (JValue.setKey setFs "updated_at" (.date menv.now)))))
          false] ∧
      (mongodb_update_server menv db c (.obj []) (.obj uFields) false).db =
        dbSetColl db c ((collDocs db c).map
          (applySet (JValue.setKey setFs "updated_at" (.date menv.now))))) := by
  refine ⟨?_, ?_, ?_⟩
  · intro args hemp
    show (ToolHandler.handle_mongodb_update menv db args).envelope.hasKeyTop
        "error" = true ∧
      (ToolHandler.handle_mongodb_update menv db args).commands = []
    simp only [ToolHandler.handle_mongodb_update]
    split_ifs with h1 h2 h3
    · exact ⟨rfl, rfl⟩
    · exact ⟨rfl, rfl⟩
    · exact ⟨rfl, rfl⟩
    · rcases hemp with he | he
      · rw [he] at h2
        simp [JValue.truthy] at h2
      · rw [he] at h3
        simp [JValue.truthy] at h3
  · intro c hc qf uFields setFs upsert hset
    have hv1 : (!(JValue.str c).truthy || !isStrV (JValue.str c)) = false := by
      simp [JValue.truthy, isStrV, hc]
    have hv2 : (!isDictV (JValue.obj qf)) = false := by simp [isDictV]
    have hv3 : (!isDictV (JValue.obj uFields)) = false := by simp [isDictV]
    simp only [MongoDBTool.update, hv1, hv2, hv3, Bool.false_eq_true, if_false,
      fieldsOf, strVal]
    rw [hset]
    refine ⟨?_, lookupField_setKey setFs "updated_at" (.date menv.now), ?_⟩
    · split_ifs with hcase
      · rfl
      · rfl
    · intro hup
      subst hup
      split_ifs with hcase
      · simp at hcase
      · rfl
  · intro c hc uFields setFs hset
    have hv1 : (!(JValue.str c).truthy || !isStrV (JValue.str c)) = false := by
      simp [JValue.truthy, isStrV, hc]
    have hv2 : (!isDictV (JValue.obj ([] : List (String × JValue)))) = false :=
      by simp [isDictV]
    have hv3 : (!isDictV (JValue.obj uFields)) = false := by simp [isDictV]
    simp only [mongodb_update_server, MongoDBTool.update, hv1, hv2, hv3,
      Bool.false_eq_true, if_false, fieldsOf, strVal]
    rw [hset]
    split_ifs with hcase
    · simp at hcase
    · exact ⟨rfl, rfl, rfl⟩

/-- Witness for C6: an empty filter through the dispatcher is rejected with
no command; a concrete well-formed update issues an update_many whose set
clause carries the timestamp; and the same empty filter through the FastMCP
endpoint is not rejected and rewrites the stored document. -/
theorem claim_C6_update_validation_and_semantics_witness :
    ((argsGet [("collection", JValue.str "c"), ("filter", .obj []),
        ("update", .obj [("$set", .obj [("a", .num 1)])])] "filter" = .obj [] ∨
      argsGet [("collection", JValue.str "c"), ("filter", .obj []),
        ("update", .obj [("$set", .obj [("a", .num 1)])])] "update" = .obj []) ∧
     (ToolHandler.execute_tool witnessMongoEnv [] "mongodb_update"
       [("collection", JValue.str "c"), ("filter", .obj []),
        ("update", .obj [("$set", .obj [("a", .num 1)])])]).envelope.hasKeyTop
       "error" = true ∧
     (ToolHandler.execute_tool witnessMongoEnv [] "mongodb_update"
       [("collection", JValue.str "c"), ("filter", .obj []),
        ("update", .obj [("$set", .obj [("a", .num 1)])])]).commands = []) ∧
    (MongoDBTool.update witnessMongoEnv [] (.str "c") (.obj [("x", .num 1)])
        (.obj [("$set", .obj [("a", .num 1)])]) false).commands =
      [.updateMany "c" (.obj [("x", .num 1)])
        (.obj [("$set", .obj [("a", .num 1),
          ("updated_at", .date witnessMongoEnv.now)])]) false] ∧
    (mongodb_update_server witnessMongoEnv
        [("c", [JValue.obj [("x", JValue.num 1)]])] "c" (.obj [])
        (.obj [("$set", .obj [("a", .num 1)])]) false).envelope.hasKeyTop
      "error" = false ∧
    (mongodb_update_server witnessMongoEnv
        [("c", [JValue.obj [("x", JValue.num 1)]])] "c" (.obj [])
        (.obj [("$set", .obj [("a", .num 1)])]) false).db =
      [("c", [JValue.obj [("x", .num 1), ("a", .num 1),
        ("updated_at", .date 0)]])] := by
  have h1 := (claim_C6_update_validation_and_semantics witnessMongoEnv []).1
    [("collection", JValue.str "c"), ("filter", .obj []),
     ("update", .obj [("$set", .obj [("a", .num 1)])])] (Or.inl rfl)
  have h2 := ((claim_C6_update_validation_and_semantics witnessMongoEnv []).2.1
    "c" (by decide) [("x", .num 1)] [("$set", .obj [("a", .num 1)])]
    [("a", .num 1)] false rfl).1
  have h3 := (claim_C6_update_validation_and_semantics witnessMongoEnv
    [("c", [JValue.obj [("x", JValue.num 1)]])]).2.2
    "c" (by decide) [("$set", .obj [("a", .num 1)])] [("a", .num 1)] rfl
  exact ⟨⟨Or.inl rfl, h1.1, h1.2⟩, h2, h3.1, h3.2.2.trans rfl⟩

/-- Counterexample to C6 as stated: the update operation does not reject
every call whose filter mapping is empty.  Through the FastMCP endpoint
mongodb_update (which forwards straight to MongoDBTool.update, whose only
checks are type checks), filter set to the empty mapping passes validation:
the call returns a success envelope without an error member, executes an
update_many database command, and rewrites every document of the
collection. -/
theorem claim_C6_counterexample :
    (mongodb_update_server witnessMongoEnv
        [("c", [JValue.obj [("x", JValue.num 1)],
          JValue.obj [("y", JValue.num 2)]])] "c" (.obj [])
        (.obj [("$set", .obj [("a", .num 2)])]) false).envelope.hasKeyTop
      "error" = false ∧
    (mongodb_update_server witnessMongoEnv
        [("c", [JValue.obj [("x", JValue.num 1)],
          JValue.obj [("y", JValue.num 2)]])] "c" (.obj [])
        (.obj [("$set", .obj [("a", .num 2)])]) false).commands =
      [.updateMany "c" (.obj [])
        (.obj [("$set", .obj [("a", .num 2), ("updated_at", .date 0)])])
        false] ∧
    (mongodb_update_server witnessMongoEnv
        [("c", [JValue.obj [("x", JValue.num 1)],
          JValue.obj [("y", JValue.num 2)]])] "c" (.obj [])
        (.obj [("$set", .obj [("a", .num 2)])]) false).db =
      [("c", [JValue.obj [("x", .num 1), ("a", .num 2),
          ("updated_at", .date 0)],
        JValue.obj [("y", .num 2), ("a", .num 2),
          ("updated_at", .date 0)]])] :=
  ⟨rfl, rfl, rfl⟩

/-! ## Claim C7: issue listing filters pull requests -/

/-- Truthiness of the pull-request marker on a raw record: the criterion
the source uses to skip an entry (issue.get of the marker key, tested for
truthiness, not mere key presence). -/
def prMarkerTruthy (it : JValue) : Bool :=
  ((JValue.lookupTop it "pull_request").getD .null).truthy

theorem projIssueList_items_obj : ∀ (items : List JValue) (l : List JValue),
    GitHubTool.projIssueList items = .ok l →
    ∀ it ∈ items, ∃ fs, it = .obj fs := by
  intro items
  induction items with
  | nil =>
    intro l _ it hit
    exact absurd hit (by simp)
  | cons x rest ih =>
    intro l h
    unfold GitHubTool.projIssueList at h
    cases x with
    | obj fs =>
      intro it hit
      rcases List.mem_cons.mp hit with rfl | hit
      · exact ⟨fs, rfl⟩
      · obtain ⟨m, hm, h⟩ := (except_bind_ok _ _ _).mp h
        by_cases ht : m.truthy = true
        · rw [if_pos ht] at h
          exact ih l h it hit
        · rw [if_neg ht] at h
          obtain ⟨p, hp, h⟩ := (except_bind_ok _ _ _).mp h
          obtain ⟨tail, htail, h⟩ := (except_bind_ok _ _ _).mp h
          exact ih tail htail it hit
    | null => exact absurd h (by simp [pyGet, ebind_err])
    | bool b => exact absurd h (by simp [pyGet, ebind_err])
    | num n => exact absurd h (by simp [pyGet, ebind_err])
    | str s => exact absurd h (by simp [pyGet, ebind_err])
    | arr xs => exact absurd h (by simp [pyGet, ebind_err])
    | oid hh => exact absurd h (by simp [pyGet, ebind_err])
    | date t => exact absurd h (by simp [pyGet, ebind_err])

theorem projIssueList_filter : ∀ (items : List JValue) (l : List JValue),
    GitHubTool.projIssueList items = .ok l →
    mapME GitHubTool.projIssue
      (items.filter (fun it => !prMarkerTruthy it)) = .ok l := by
  intro items
  induction items with
  | nil =>
    intro l h
    cases h
    rfl
  | cons x rest ih =>
    intro l h
    have hobj := projIssueList_items_obj (x :: rest) l h x (by simp)
    obtain ⟨fs, rfl⟩ := hobj
    unfold GitHubTool.projIssueList at h
    obtain ⟨m, hm, h⟩ := (except_bind_ok _ _ _).mp h
    have hmv : (JValue.lookupField fs "pull_request").getD .null = m := by
      simpa [pyGet] using hm
    have hmark : prMarkerTruthy (.obj fs) = m.truthy := by
      unfold prMarkerTruthy
      rw [show JValue.lookupTop (.obj fs) "pull_request" =
        JValue.lookupField fs "pull_request" from rfl]
      rw [hmv]
    by_cases ht : m.truthy = true
    · rw [if_pos ht] at h
      rw [List.filter_cons]
      rw [show (!prMarkerTruthy (JValue.obj fs)) = false by
        rw [hmark, ht]; rfl]
      simp only [Bool.false_eq_true, if_false]
      exact ih l h
    · rw [if_neg ht] at h
      obtain ⟨p, hp, h⟩ := (except_bind_ok _ _ _).mp h
      obtain ⟨tail, htail, h⟩ := (except_bind_ok _ _ _).mp h
      cases h
      rw [List.filter_cons]
      have hmf : m.truthy = false := by
        cases hmt : m.truthy
        · rfl
        · exact absurd hmt ht
      rw [show (!prMarkerTruthy (JValue.obj fs)) = true by rw [hmark, hmf]; rfl]
      simp only [if_true]
      unfold mapME
      rw [hp, ebind_ok, ih tail htail, ebind_ok]

theorem mapME_length {f : JValue → Except String JValue} :
    ∀ (xs ys : List JValue), mapME f xs = .ok ys → ys.length = xs.length := by
  intro xs
  induction xs with
  | nil =>
    intro ys h
    cases h
    rfl
  | cons x rest ih =>
    intro ys h
    unfold mapME at h
    obtain ⟨y, hy, h⟩ := (except_bind_ok _ _ _).mp h
    obtain ⟨tail, htail, h⟩ := (except_bind_ok _ _ _).mp h
    cases h
    simp [ih tail htail]

theorem pyIn_error_of_all_obj (items : List JValue)
    (hobj : ∀ it ∈ items, ∃ fs, it = .obj fs) :
    pyIn "error" (.arr items) = .ok false := by
  simp only [pyIn]
  congr 1
  rw [List.any_eq_false]
  intro it hit
  obtain ⟨fs, rfl⟩ := hobj it hit
  simp

/-- C7, amended: whenever the issues listing receives a well-formed raw
array and the per-item projection succeeds, the returned issues array holds
exactly the projections (in order) of the items whose pull-request marker
value is FALSY - an item whose marker is truthy is excluded, while an item
that merely carries the marker key with a falsy value (null, empty object)
is retained - and the returned count equals the length of the returned
array, so excluded items are not counted. -/
theorem claim_C7_issue_listing_filters_prs (genv : GitHubEnv)
    (owner repo state labels : JValue) (pp : Int) (items l : List JValue)
    (hres : makeRequestRes genv "GET"
      ("repos/" ++ owner.pyStr ++ "/" ++ repo.pyStr ++ "/issues") none
      (some (GitHubTool.issuesParams state labels pp)) = .arr items)
    (hproj : GitHubTool.projIssueList items = .ok l) :
    (GitHubTool.list_issues genv owner repo state labels pp).envelope =
      .obj [("operation", .str "list_issues"),
        ("repository", .str (owner.pyStr ++ "/" ++ repo.pyStr)),
        ("state", state),
        ("count", .num l.length),
        ("issues", .arr l)] ∧
    mapME GitHubTool.projIssue
      (items.filter (fun it => !prMarkerTruthy it)) = .ok l ∧
    l.length = (items.filter (fun it => !prMarkerTruthy it)).length := by
  have hfilter := projIssueList_filter items l hproj
  refine ⟨?_, hfilter, (mapME_length _ _ hfilter).symm ▸ rfl⟩
  · unfold GitHubTool.list_issues
    simp only [makeRequest]
    rw [hres]
    have hfalse := pyIn_error_of_all_obj items (projIssueList_items_obj items l hproj)
    rw [hfalse]
    show runOp (GitHubTool.projIssueList items >>= fun issues =>
      buildObj [("operation", .ok (.str "list_issues")),
        ("repository", .ok (.str (owner.pyStr ++ "/" ++ repo.pyStr))),
        ("state", .ok state),
        ("count", .ok (.num issues.length)),
        ("issues", .ok (.arr issues))]) = _
    rw [hproj]
    rfl

/-- A transport whose issues listing returns one raw record carrying the
pull-request marker key with a null (falsy) value. -/
def prNullEnv : GitHubEnv :=
  { token := none
    username := none
    oracle := fun _ => .status 200 (.json (.arr [.obj [("pull_request", .null)]]))
    b64decode := fun _ => none
    dateStr := fun _ => "2024-01-01" }

/-- Counterexample to C7 as stated: a raw item that carries the
pull-request marker key with a null value is NOT excluded - the listing
keeps it and counts it - because the source tests the marker value for
truthiness, not the key for presence. -/
theorem claim_C7_counterexample :
    JValue.hasKeyTop (.obj [("pull_request", JValue.null)]) "pull_request" =
      true ∧
    JValue.lookupTop (GitHubTool.list_issues prNullEnv (.str "a") (.str "b")
      (.str "open") .null 30).envelope "count" = some (.num 1) ∧
    (GitHubTool.list_issues prNullEnv (.str "a") (.str "b") (.str "open") .null
      30).envelope.hasKeyTop "error" = false :=
  ⟨rfl, rfl, rfl⟩

/-- A transport whose issues listing returns one raw record with a truthy
pull-request marker (the genuine disguised pull request). -/
def prOnlyEnv : GitHubEnv :=
  { token := none
    username := none
    oracle := fun _ =>
      .status 200 (.json (.arr [.obj [("pull_request", .obj [("url", .str "u")])]]))
    b64decode := fun _ => none
    dateStr := fun _ => "2024-01-01" }

/-- Witness for C7: a truthy-marker item is excluded and not counted. -/
theorem claim_C7_issue_listing_filters_prs_witness :
    makeRequestRes prOnlyEnv "GET"
      ("repos/" ++ (JValue.str "a").pyStr ++ "/" ++ (JValue.str "b").pyStr ++
        "/issues") none (some (GitHubTool.issuesParams (.str "open") .null 30)) =
      .arr [.obj [("pull_request", .obj [("url", .str "u")])]] ∧
    GitHubTool.projIssueList [.obj [("pull_request", .obj [("url", .str "u")])]] =
      .ok [] ∧
    (GitHubTool.list_issues prOnlyEnv (.str "a") (.str "b") (.str "open") .null
      30).envelope =
      .obj [("operation", .str "list_issues"), ("repository", .str "a/b"),
        ("state", .str "open"), ("count", .num 0), ("issues", .arr [])] := by
  have h := claim_C7_issue_listing_filters_prs prOnlyEnv (.str "a") (.str "b")
    (.str "open") .null 30 [.obj [("pull_request", .obj [("url", .str "u")])]]
    [] rfl rfl
  exact ⟨rfl, rfl, h.1⟩

/-! ## Claim C8: insert of one mapping versus a one-element array -/

theorem lookupField_setKey_ne (l : List (String × JValue)) (k1 k2 : String)
    (v : JValue) (hne : (k2 == k1) = false) :
    JValue.lookupField (JValue.setKey l k2 v) k1 = JValue.lookupField l k1 := by
  induction l with
  | nil => simp [JValue.setKey, JValue.lookupField, hne]
  | cons p rest ih =>
    obtain ⟨k0, v0⟩ := p
    by_cases h : (k0 == k2) = true
    · have hk0 : k0 = k2 := by simpa using h
      subst hk0
      simp [JValue.setKey, JValue.lookupField, hne]
    · have h2 : (k0 == k2) = false := by
        cases hx : (k0 == k2)
        · rfl
        · exact absurd hx h
      simp only [JValue.setKey, h2, Bool.false_eq_true, if_false]
      simp [JValue.lookupField, ih]

theorem firstNonDict_some : ∀ (docs : List JValue) (i : Nat),
    (∃ x ∈ docs, isDictV x = false) → ∃ j, firstNonDict docs i = some j := by
  intro docs
  induction docs with
  | nil =>
    intro i h
    obtain ⟨x, hx, _⟩ := h
    exact absurd hx (by simp)
  | cons y rest ih =>
    intro i h
    cases hy : y with
    | obj fs =>
      obtain ⟨x, hx, hxd⟩ := h
      rcases List.mem_cons.mp hx with rfl | hx
      · rw [hy] at hxd
        exact absurd hxd (by simp [isDictV])
      · obtain ⟨j, hj⟩ := ih (i + 1) ⟨x, hx, hxd⟩
        exact ⟨j, by simpa [firstNonDict] using hj⟩
    | null => exact ⟨i, by simp [firstNonDict]⟩
    | bool b => exact ⟨i, by simp [firstNonDict]⟩
    | num n => exact ⟨i, by simp [firstNonDict]⟩
    | str s => exact ⟨i, by simp [firstNonDict]⟩
    | arr xs => exact ⟨i, by simp [firstNonDict]⟩
    | oid hh => exact ⟨i, by simp [firstNonDict]⟩
    | date t => exact ⟨i, by simp [firstNonDict]⟩

/-- C8, amended: for every NON-EMPTY mapping d, inserting d and inserting
the one-element array containing d produce the same envelope (hence the
same inserted count and the same reported identifiers), the same database
contents and the same driver commands - the normalization makes the two
calls literally identical past the entry checks - and the stamped document
carries created_at and updated_at with one shared timestamp.  Empty input
(the empty array, and the empty mapping, which Python truthiness also
classifies as empty) is rejected with no command, and any non-mapping
element is rejected with no command.  For the EMPTY mapping the original
equivalence fails: the single form is rejected as empty input while the
one-element array form inserts one document (see the counterexample). -/
theorem claim_C8_insert_single_vs_singleton (env : MongoEnv) (db : MongoDB) :
    (∀ (c : String), c ≠ "" → ∀ (d : List (String × JValue)), d ≠ [] →
      (MongoDBTool.insert env db (.str c) (.obj d)).envelope =
        (MongoDBTool.insert env db (.str c) (.arr [.obj d])).envelope ∧
      (MongoDBTool.insert env db (.str c) (.obj d)).db =
        (MongoDBTool.insert env db (.str c) (.arr [.obj d])).db ∧
      (MongoDBTool.insert env db (.str c) (.obj d)).commands =
        (MongoDBTool.insert env db (.str c) (.arr [.obj d])).commands ∧
      JValue.lookupTop (stampDoc env.now (.obj d)) "created_at" =
        some (.date env.now) ∧
      JValue.lookupTop (stampDoc env.now (.obj d)) "updated_at" =
        some (.date env.now)) ∧
    (∀ collection : JValue,
      (MongoDBTool.insert env db collection (.arr [])).envelope.hasKeyTop
        "error" = true ∧
      (MongoDBTool.insert env db collection (.arr [])).commands = [] ∧
      (MongoDBTool.insert env db collection (.obj [])).envelope.hasKeyTop
        "error" = true ∧
      (MongoDBTool.insert env db collection (.obj [])).commands = []) ∧
    (∀ (collection : JValue) (docs : List JValue),
      (∃ x ∈ docs, isDictV x = false) →
      (MongoDBTool.insert env db collection (.arr docs)).envelope.hasKeyTop
        "error" = true ∧
      (MongoDBTool.insert env db collection (.arr docs)).commands = []) := by
  refine ⟨?_, ?_, ?_⟩
  · intro c hc d hd
    have hv : (!isStrV (JValue.str c) || !(JValue.str c).truthy) = false := by
      simp [isStrV, JValue.truthy, hc]
    have ht1 : (JValue.obj d).truthy = true := by
      cases d with
      | nil => exact absurd rfl hd
      | cons p rest => rfl
    simp only [MongoDBTool.insert, hv, Bool.false_eq_true, if_false, ht1,
      Bool.not_true]
    rcases hic : MongoDBTool.insertCore env db (.str c) [.obj d] with
      ⟨envl, db2, cmds, stamped⟩
    refine ⟨rfl, rfl, rfl, ?_, lookupField_setKey _ _ _⟩
    show JValue.lookupField
      (JValue.setKey (JValue.setKey d "created_at" (.date env.now))
        "updated_at" (.date env.now)) "created_at" = some (.date env.now)
    rw [lookupField_setKey_ne _ _ _ _ (by decide)]
    exact lookupField_setKey d _ _
  · intro collection
    by_cases h1 : (!isStrV collection || !collection.truthy) = true
    · simp only [MongoDBTool.insert, if_pos h1]
      exact ⟨rfl, rfl, rfl, rfl⟩
    · simp only [MongoDBTool.insert, if_neg h1]
      exact ⟨rfl, rfl, rfl, rfl⟩
  · intro collection docs hnd
    obtain ⟨j, hj⟩ := firstNonDict_some docs 0 hnd
    by_cases h1 : (!isStrV collection || !collection.truthy) = true
    · simp only [MongoDBTool.insert, if_pos h1]
      exact ⟨rfl, rfl⟩
    · by_cases h2 : (!(JValue.arr docs).truthy) = true
      · simp only [MongoDBTool.insert, if_neg h1, if_pos h2]
        exact ⟨rfl, rfl⟩
      · simp only [MongoDBTool.insert, if_neg h1, if_neg h2,
          MongoDBTool.insertCore, hj]
        exact ⟨rfl, rfl⟩

/-- Witness for C8: the equivalence at a concrete non-empty document and
the two rejection clauses at concrete inputs. -/
theorem claim_C8_insert_single_vs_singleton_witness :
    ((MongoDBTool.insert witnessMongoEnv [] (.str "c")
        (.obj [("a", .num 1)])).envelope =
      (MongoDBTool.insert witnessMongoEnv [] (.str "c")
        (.arr [.obj [("a", .num 1)]])).envelope) ∧
    ((MongoDBTool.insert witnessMongoEnv [] (.str "c")
        (.obj [("a", .num 1)])).db =
      (MongoDBTool.insert witnessMongoEnv [] (.str "c")
        (.arr [.obj [("a", .num 1)]])).db) ∧
    JValue.lookupTop (stampDoc witnessMongoEnv.now (.obj [("a", .num 1)]))
      "created_at" = some (.date witnessMongoEnv.now) ∧
    (MongoDBTool.insert witnessMongoEnv [] (.str "c")
      (.arr [])).envelope.hasKeyTop "error" = true ∧
    (MongoDBTool.insert witnessMongoEnv [] (.str "c")
      (.arr [.num 3])).envelope.hasKeyTop "error" = true ∧
    (MongoDBTool.insert witnessMongoEnv [] (.str "c")
      (.arr [.num 3])).commands = [] := by
  have h := claim_C8_insert_single_vs_singleton witnessMongoEnv []
  have h1 := h.1 "c" (by decide) [("a", .num 1)] (by simp)
  have h2 := h.2.1 (.str "c")
  have h3 := h.2.2 (.str "c") [.num 3] ⟨.num 3, by simp, rfl⟩
  exact ⟨h1.1, h1.2.1, h1.2.2.2.1, h2.1, h3.1, h3.2⟩

/-- Counterexample to C8 as stated: for the empty mapping the two insert
forms disagree - the single mapping is rejected as empty input while the
one-element array inserts one (timestamped) document. -/
theorem claim_C8_counterexample :
    (MongoDBTool.insert witnessMongoEnv [] (.str "c") (.obj [])).envelope =
      errObj "Documents cannot be empty" ∧
    (MongoDBTool.insert witnessMongoEnv [] (.str "c") (.obj [])).commands = [] ∧
    JValue.lookupTop (MongoDBTool.insert witnessMongoEnv [] (.str "c")
      (.arr [.obj []])).envelope "inserted_count" = some (.num 1) ∧
    (MongoDBTool.insert witnessMongoEnv [] (.str "c")
      (.arr [.obj []])).envelope.hasKeyTop "error" = false :=
  ⟨rfl, rfl, rfl, rfl⟩

/-! ## Claim C9: find with a limit of zero -/

/-- C9: a limit of 0 passes the non-negative-integer validation, but the
cursor limit is guarded by Python truthiness, so it is never applied: the
call is literally equal - envelope, database, commands - to the call with
no limit at all; and on a valid collection with an equality query and no
sort, the envelope counts and returns every matching document. -/
theorem claim_C9_find_limit_zero_is_no_limit (env : MongoEnv) (db : MongoDB) :
    (∀ collection query sort : JValue,
      MongoDBTool.find env db collection query (.num 0) sort =
        MongoDBTool.find env db collection query .null sort) ∧
    (∀ (c : String), c ≠ "" → ∀ qf : List (String × JValue),
      JValue.lookupTop (MongoDBTool.find env db (.str c) (.obj qf) (.num 0)
        .null).envelope "count" =
        some (.num ((collDocs db c).filter (matchFilter qf)).length) ∧
      JValue.lookupTop (MongoDBTool.find env db (.str c) (.obj qf) (.num 0)
        .null).envelope "results" =
        some (.arr (serializeObjectidList
          ((collDocs db c).filter (matchFilter qf))))) := by
  constructor
  · intro collection query sort
    rfl
  · intro c hc qf
    have hv1 : (!(JValue.str c).truthy || !isStrV (JValue.str c)) = false := by
      simp [JValue.truthy, isStrV, hc]
    by_cases hq : (JValue.obj qf).truthy = true
    · simp only [MongoDBTool.find, hv1, Bool.false_eq_true, if_false, hq,
        if_true]
      exact ⟨rfl, rfl⟩
    · have hqf : qf = [] := by
        cases qf with
        | nil => rfl
        | cons p r => exact absurd rfl hq
      subst hqf
      simp only [MongoDBTool.find, hv1, Bool.false_eq_true, if_false]
      exact ⟨rfl, rfl⟩

/-- Witness for C9: a concrete two-document collection where the query
matches one document; limit 0 returns it (count 1), identically to the
no-limit call. -/
theorem claim_C9_find_limit_zero_is_no_limit_witness :
    (MongoDBTool.find witnessMongoEnv
      [("users", [.obj [("active", .bool true)], .obj [("active", .bool false)]])]
      (.str "users") (.obj [("active", .bool true)]) (.num 0) .null =
      MongoDBTool.find witnessMongoEnv
        [("users", [.obj [("active", .bool true)], .obj [("active", .bool false)]])]
        (.str "users") (.obj [("active", .bool true)]) .null .null) ∧
    JValue.lookupTop (MongoDBTool.find witnessMongoEnv
      [("users", [.obj [("active", .bool true)], .obj [("active", .bool false)]])]
      (.str "users") (.obj [("active", .bool true)]) (.num 0) .null).envelope
      "count" =
      some (.num ((collDocs
        [("users", [.obj [("active", .bool true)], .obj [("active", .bool false)]])]
        "users").filter (matchFilter [("active", .bool true)])).length) ∧
    ((collDocs
      [("users", [.obj [("active", .bool true)], .obj [("active", .bool false)]])]
      "users").filter (matchFilter [("active", .bool true)])).length = 1 := by
  have h := claim_C9_find_limit_zero_is_no_limit witnessMongoEnv
    [("users", [.obj [("active", .bool true)], .obj [("active", .bool false)]])]
  exact ⟨h.1 _ _ _, (h.2 "users" (by decide) [("active", .bool true)]).1, rfl⟩

/-! ## Claim C10: insert and update mutate their caller-passed arguments -/

theorem firstNonDict_none : ∀ (docs : List JValue) (i : Nat),
    (∀ x ∈ docs, isDictV x = true) → firstNonDict docs i = none := by
  intro docs
  induction docs with
  | nil => intro i _; rfl
  | cons y rest ih =>
    intro i hall
    cases y with
    | obj fs =>
      simp only [firstNonDict]
      exact ih (i + 1) (fun x hx => hall x (List.mem_cons_of_mem _ hx))
    | null => exact absurd (hall JValue.null (by simp)) (by simp [isDictV])
    | bool b => exact absurd (hall (JValue.bool b) (by simp)) (by simp [isDictV])
    | num n => exact absurd (hall (JValue.num n) (by simp)) (by simp [isDictV])
    | str s => exact absurd (hall (JValue.str s) (by simp)) (by simp [isDictV])
    | arr xs => exact absurd (hall (JValue.arr xs) (by simp)) (by simp [isDictV])
    | oid hh => exact absurd (hall (JValue.oid hh) (by simp)) (by simp [isDictV])
    | date t => exact absurd (hall (JValue.date t) (by simp)) (by simp [isDictV])

/-- C10: insert writes the two timestamp fields into each caller-passed
document mapping in place (the post-call value of the documents argument is
the stamped version, which differs from the original whenever its
created_at was not already the current timestamp), and update writes the
set clause with its updated_at field into the caller-passed update mapping
in place (the post-call value differs from the original whenever its set
clause did not already carry the current timestamp). -/
theorem claim_C10_insert_update_mutate_arguments (env : MongoEnv)
    (db : MongoDB) :
    (∀ (c : String), c ≠ "" → ∀ (d : List (String × JValue)), d ≠ [] →
      (MongoDBTool.insert env db (.str c) (.obj d)).argAfter =
        stampDoc env.now (.obj d) ∧
      (JValue.lookupField d "created_at" ≠ some (.date env.now) →
        (MongoDBTool.insert env db (.str c) (.obj d)).argAfter ≠ .obj d)) ∧
    (∀ (c : String), c ≠ "" → ∀ (docs : List JValue), docs ≠ [] →
      (∀ x ∈ docs, isDictV x = true) →
      (MongoDBTool.insert env db (.str c) (.arr docs)).argAfter =
        .arr (docs.map (stampDoc env.now))) ∧
    (∀ (c : String), c ≠ "" →
      ∀ (qf uFields setFs : List (String × JValue)) (upsert : Bool),
      (JValue.lookupField uFields "$set").getD (.obj []) = .obj setFs →
      (MongoDBTool.update env db (.str c) (.obj qf) (.obj uFields)
          upsert).argAfter =
        .obj (JValue.setKey uFields "$set"
          (.obj (JValue.setKey setFs "updated_at" (.date env.now)))) ∧
      (JValue.lookupField setFs "updated_at" ≠ some (.date env.now) →
        (MongoDBTool.update env db (.str c) (.obj qf) (.obj uFields)
          upsert).argAfter ≠ .obj uFields)) := by
  refine ⟨?_, ?_, ?_⟩
  · intro c hc d hd
    have hv : (!isStrV (JValue.str c) || !(JValue.str c).truthy) = false := by
      simp [isStrV, JValue.truthy, hc]
    have ht1 : (JValue.obj d).truthy = true := by
      cases d with
      | nil => exact absurd rfl hd
      | cons p rest => rfl
    have hafter : (MongoDBTool.insert env db (.str c) (.obj d)).argAfter =
        stampDoc env.now (.obj d) := by
      simp only [MongoDBTool.insert, hv, Bool.false_eq_true, if_false, ht1,
        Bool.not_true]
      rfl
    refine ⟨hafter, ?_⟩
    intro hcr heq
    rw [hafter] at heq
    have hfields : JValue.setKey (JValue.setKey d "created_at" (.date env.now))
        "updated_at" (.date env.now) = d := by
      exact JValue.obj.injEq _ _ ▸ heq
    have hlook := lookupField_setKey d "created_at" (JValue.date env.now)
    rw [← lookupField_setKey_ne
      (JValue.setKey d "created_at" (.date env.now)) "created_at" "updated_at"
      (.date env.now) (by decide)] at hlook
    rw [hfields] at hlook
    exact hcr hlook
  · intro c hc docs hd hall
    have hv : (!isStrV (JValue.str c) || !(JValue.str c).truthy) = false := by
      simp [isStrV, JValue.truthy, hc]
    have ht1 : (JValue.arr docs).truthy = true := by
      cases docs with
      | nil => exact absurd rfl hd
      | cons p rest => rfl
    have hnone := firstNonDict_none docs 0 hall
    simp only [MongoDBTool.insert, hv, Bool.false_eq_true, if_false, ht1,
      Bool.not_true, MongoDBTool.insertCore, hnone]
    rfl
  · intro c hc qf uFields setFs upsert hset
    have hv1 : (!(JValue.str c).truthy || !isStrV (JValue.str c)) = false := by
      simp [JValue.truthy, isStrV, hc]
    have hv2 : (!isDictV (JValue.obj qf)) = false := by simp [isDictV]
    have hv3 : (!isDictV (JValue.obj uFields)) = false := by simp [isDictV]
    have hafter : (MongoDBTool.update env db (.str c) (.obj qf) (.obj uFields)
        upsert).argAfter =
        .obj (JValue.setKey uFields "$set"
          (.obj (JValue.setKey setFs "updated_at" (.date env.now)))) := by
      simp only [MongoDBTool.update, hv1, hv2, hv3, Bool.false_eq_true,
        if_false, fieldsOf, strVal]
      rw [hset]
      split_ifs with hcase
      · rfl
      · rfl
    refine ⟨hafter, ?_⟩
    intro hlu heq
    rw [hafter] at heq
    have hfields : JValue.setKey uFields "$set"
        (.obj (JValue.setKey setFs "updated_at" (.date env.now))) = uFields := by
      exact JValue.obj.injEq _ _ ▸ heq
    have hlook := lookupField_setKey uFields "$set"
      (JValue.obj (JValue.setKey setFs "updated_at" (.date env.now)))
    rw [hfields] at hlook
    rw [hlook] at hset
    have hsk : JValue.setKey setFs "updated_at" (.date env.now) = setFs := by
      have := hset
      simp only [Option.getD_some] at this
      exact (JValue.obj.injEq _ _).mp this
    have hlook2 := lookupField_setKey setFs "updated_at" (JValue.date env.now)
    rw [hsk] at hlook2
    exact hlu hlook2

/-- Witness for C10: concrete in-place mutations of the callers arguments
by insert (single and list form) and update. -/
theorem claim_C10_insert_update_mutate_arguments_witness :
    (MongoDBTool.insert witnessMongoEnv [] (.str "c")
      (.obj [("a", .num 1)])).argAfter =
      stampDoc witnessMongoEnv.now (.obj [("a", .num 1)]) ∧
    (MongoDBTool.insert witnessMongoEnv [] (.str "c")
      (.obj [("a", .num 1)])).argAfter ≠ .obj [("a", .num 1)] ∧
    (MongoDBTool.insert witnessMongoEnv [] (.str "c")
      (.arr [.obj []])).argAfter =
      .arr [stampDoc witnessMongoEnv.now (.obj [])] ∧
    (MongoDBTool.update witnessMongoEnv [] (.str "c") (.obj [("x", .num 1)])
      (.obj [("$set", .obj [("a", .num 2)])]) false).argAfter =
      .obj [("$set", .obj [("a", .num 2),
        ("updated_at", .date witnessMongoEnv.now)])] ∧
    (MongoDBTool.update witnessMongoEnv [] (.str "c") (.obj [("x", .num 1)])
      (.obj [("$set", .obj [("a", .num 2)])]) false).argAfter ≠
      .obj [("$set", .obj [("a", .num 2)])] := by
  have h := claim_C10_insert_update_mutate_arguments witnessMongoEnv []
  have h1 := h.1 "c" (by decide) [("a", .num 1)] (by simp)
  have h2 := h.2.1 "c" (by decide) [.obj []] (by simp)
    (by
      intro x hx
      simp at hx
      subst hx
      rfl)
  have h3 := h.2.2 "c" (by decide) [("x", .num 1)]
    [("$set", .obj [("a", .num 2)])] [("a", .num 2)] false rfl
  exact ⟨h1.1, h1.2 (fun hx => nomatch hx), h2, h3.1,
    h3.2 (fun hx => nomatch hx)⟩
